import Mathlib

/-!
Cannonball main entry point: a shallow embedding of `src/main/main.cpp`.

The file embeds the frame procedure `tick`, the event drain `process_events`,
the shutdown routine `quit_func`, the scheduler `main_loop`, the command line
parser `parse_command_line` and `main` as functions on an explicit context
value.  The context holds the file-scope variables of
`main.cpp`; every collaborator object (input, simulation, menu, video, audio,
timers, ROM loader) is a single abstract world `W` together with an interface
record `Collab W`, and every call made on a collaborator is appended to a log,
so that the number and order of invocations can be stated.

Collaborators act on the world only: they do not write the
file-scope variables of `main.cpp`, and the queries (`has_pressed`, `is_set`,
`adjust_speed`, `get_ticks`, `supports_vsync`) read the world without changing
it.  The one exception is `config.set_fps`, called once by `main`, which
stores the frame duration in `cannonball::frame_ms`.  A call of `exit` ends
the process: what follows it in the source is not executed.

Arithmetic conventions.
* `int` variables are `Int`; the increment `frame++` is taken modulo `2^32`
  in two's complement (`wrap32`).
* `double` variables are exact rationals.  The conversions `(int)x` and
  `(Uint32)x` are truncation toward zero, which is what C++ specifies for every
  value representable in the target type.
-/

namespace Cannonball

/-! ## Data model -/

/-- Modelled from the spec: the values of the shared variable `state`; the
constants `STATE_BOOT` ... `STATE_QUIT` are declared in `main.hpp`, which is not
among the sources (spec section 3, Execution State). -/
inductive State
  | STATE_BOOT
  | STATE_INIT_MENU
  | STATE_MENU
  | STATE_INIT_GAME
  | STATE_GAME
  | STATE_QUIT
  deriving DecidableEq

/-- Modelled from the spec: the discrete input actions that `tick` samples with
`input.has_pressed`; the enumeration lives in `sdl2/input.hpp`, which is not
among the sources (spec section 4.2: freeze-timer, pause, menu-request, and
the single-step input). -/
inductive Press
  | TIMER
  | PAUSE
  | MENU
  | STEP
  deriving DecidableEq

/-- The two `Timer` objects of `main_loop`. -/
inductive Timer
  | fps_count
  | frame_time
  deriving DecidableEq

/-- Key code `SDLK_ESCAPE`. -/
def SDLK_ESCAPE : Int := 27

/-- An `SDL_Event` as seen by `process_events`: the event type, with the part
of the payload that is handed on.  `OTHER` stands for every event type that has
no `case` in the switch. -/
inductive Event
  | SDL_KEYDOWN (sym : Int)
  | SDL_KEYUP (sym : Int)
  | SDL_JOYAXISMOTION (jaxis : Nat)
  | SDL_JOYBUTTONDOWN (jbutton : Nat)
  | SDL_JOYBUTTONUP (jbutton : Nat)
  | SDL_CONTROLLERAXISMOTION (caxis : Nat)
  | SDL_CONTROLLERBUTTONDOWN (cbutton : Nat)
  | SDL_CONTROLLERBUTTONUP (cbutton : Nat)
  | SDL_JOYHATMOTION (jhat : Nat)
  | SDL_JOYDEVICEADDED
  | SDL_JOYDEVICEREMOVED
  | SDL_QUIT
  | OTHER (type : Nat)
  deriving DecidableEq

/-- Calls made on collaborators, in the order the log records them. -/
inductive Call
  | handle_key_down (sym : Int)
  | handle_key_up (sym : Int)
  | handle_joy_axis (jaxis : Nat)
  | handle_joy_down (jbutton : Nat)
  | handle_joy_up (jbutton : Nat)
  | handle_controller_axis (caxis : Nat)
  | handle_controller_down (cbutton : Nat)
  | handle_controller_up (cbutton : Nat)
  | handle_joy_hat (jhat : Nat)
  | open_joy
  | close_joy
  | oinputs_tick
  | oinputs_do_gear
  | oinputs_init
  | outrun_tick (tick_frame : Bool)
  | outrun_init
  | outputs_init
  | frame_done
  | osoundint_tick
  | load_japanese_roms
  | menu_tick
  | menu_init
  | writeDigitalToConsole
  | set_rumble (motor : Bool) (rumble : Int)
  | timer_start (which : Timer)
  | prepare_frame
  | render_frame
  | audio_tick
  | SDL_Delay (ms : Nat)
  | stop_audio
  | ffeedback_close
  | delete_menu
  | SDL_Quit
  | exit (code : Int)
  | print_usage
  | print_version
  | set_config_file (file : String)
  | set_layout_track (file : String)
  | config_load
  | load_revb_roms
  | SDL_GameControllerAddMappingsFromFile
  | SDL_Init
  | load_widescreen_map
  | set_fps
  | video_init
  | audio_init
  | input_init
  | forcefeedback_init
  | new_Menu
  | menu_populate
  deriving DecidableEq

/-- The collaborators of `main.cpp` over an abstract world `W`: the effect of
every call on the world, and the values the queried functions return. -/
structure Collab (W : Type) where
  /-- Effect of a call on the collaborators. -/
  call : Call → W → W
  /-- Result of `input.has_pressed(p)`. -/
  has_pressed : W → Press → Bool
  /-- Result of `roms.load_japanese_roms()`. -/
  load_japanese_roms : W → Bool
  /-- Result of `outrun.outputs->is_set(OOutputs::D_MOTOR)`. -/
  is_set : W → Bool
  /-- Result of `audio.adjust_speed()`. -/
  adjust_speed : W → ℚ
  /-- Result of `get_ticks()` on the given timer. -/
  get_ticks : W → Timer → Int
  /-- Result of `video.supports_vsync()`. -/
  supports_vsync : W → Bool

/-- The fields of `config` that `tick`, `main_loop` and `main` read, with the
values they have once `main` has loaded the configuration and called
`config.set_fps`. -/
structure Config where
  /-- Field `config.fps`. -/
  fps : Int
  /-- Field `config.engine.jap`. -/
  jap : Bool
  /-- Field `config.controls.rumble`. -/
  rumble : Int
  /-- Field `config.video.vsync`. -/
  vsync : Int
  /-- Field `config.video.fps_count`. -/
  fps_count : Bool
  /-- Field `config.menu.enabled`. -/
  menu_enabled : Bool
  /-- Field `config.controls.haptic`. -/
  haptic : Bool

/-- The file-scope variables of `main.cpp`, the flag `outrun.freeze_timer` that
`tick` toggles, the collaborators and the call log. -/
structure Ctx (W : Type) where
  /-- Variable `cannonball::state`. -/
  state : State
  /-- Variable `cannonball::frame_ms`. -/
  frame_ms : ℚ
  /-- Variable `cannonball::frame`. -/
  frame : Int
  /-- Variable `cannonball::tick_frame`. -/
  tick_frame : Bool
  /-- Variable `cannonball::fps_counter`. -/
  fps_counter : Int
  /-- Variable `pause_engine`. -/
  pause_engine : Bool
  /-- Field `outrun.freeze_timer`, as written by `tick`. -/
  freeze_timer : Bool
  /-- State of all collaborators. -/
  world : W
  /-- Calls made so far, oldest first. -/
  log : List Call

/-- Two's complement wrap of an `int`. -/
def wrap32 (x : Int) : Int := (x + 2147483648) % 4294967296 - 2147483648

/-- Make a call on a collaborator: the world changes and the call is logged. -/
def perform {W : Type} (K : Collab W) (k : Call) (c : Ctx W) : Ctx W :=
  { c with world := K.call k c.world, log := c.log ++ [k] }

/-! ## `quit_func` and `process_events` -/

/-- Function `quit_func(code)`, lines 61-69. -/
def quit_func {W : Type} (K : Collab W) (code : Int) (c : Ctx W) : Ctx W :=
  perform K (.exit code) (perform K .SDL_Quit (perform K .delete_menu
    (perform K .ffeedback_close (perform K .close_joy (perform K .stop_audio c)))))

/-- One pass of the switch in `process_events`, lines 78-132. -/
def process_event {W : Type} (K : Collab W) (c : Ctx W) (e : Event) : Ctx W :=
  match e with
  | .SDL_KEYDOWN sym =>
    if sym = SDLK_ESCAPE then { c with state := .STATE_QUIT }
    else perform K (.handle_key_down sym) c
  | .SDL_KEYUP sym => perform K (.handle_key_up sym) c
  | .SDL_JOYAXISMOTION p => perform K (.handle_joy_axis p) c
  | .SDL_JOYBUTTONDOWN p => perform K (.handle_joy_down p) c
  | .SDL_JOYBUTTONUP p => perform K (.handle_joy_up p) c
  | .SDL_CONTROLLERAXISMOTION p => perform K (.handle_controller_axis p) c
  | .SDL_CONTROLLERBUTTONDOWN p => perform K (.handle_controller_down p) c
  | .SDL_CONTROLLERBUTTONUP p => perform K (.handle_controller_up p) c
  | .SDL_JOYHATMOTION p => perform K (.handle_joy_hat p) c
  | .SDL_JOYDEVICEADDED => perform K .open_joy c
  | .SDL_JOYDEVICEREMOVED => perform K .close_joy c
  | .SDL_QUIT => { c with state := .STATE_QUIT }
  | .OTHER _ => c

/-- Function `process_events`, lines 71-134: the queue `evs` is what
`SDL_PollEvent` hands out, in order, until it reports an empty queue. -/
def process_events {W : Type} (K : Collab W) (evs : List Event) (c : Ctx W) : Ctx W :=
  evs.foldl (process_event K) c

/-! ## `tick` -/

/-- Lines 138-144 of `tick`: the increment of `frame` and the assignments to
`tick_frame`.  The conversion of `frame & 1` to `bool` is the test for
non-zero; for a rate other than 60 and 120 nothing is assigned. -/
def tick_frame_update {W : Type} (cfg : Config) (c : Ctx W) : Ctx W :=
  let frame := wrap32 (c.frame + 1)
  { c with
    frame := frame
    tick_frame :=
      if cfg.fps = 60 then decide (Int.land frame 1 ≠ 0)
      else if cfg.fps = 120 then decide (Int.land frame 3 = 1)
      else c.tick_frame }

/-- Lines 148-152 of `tick`: the input pipeline, run on tick frames. -/
def tick_controls {W : Type} (K : Collab W) (c : Ctx W) : Ctx W :=
  if c.tick_frame then perform K .oinputs_do_gear (perform K .oinputs_tick c) else c

/-- Lines 138-152 of `tick`: everything that runs before `switch (state)`. -/
def tick_begin {W : Type} (K : Collab W) (cfg : Config) (evs : List Event) (c : Ctx W) :
    Ctx W :=
  tick_controls K (process_events K evs (tick_frame_update cfg c))

/-- Lines 158-163 of `tick`: the three toggles sampled on a tick frame. -/
def tick_game_toggles {W : Type} (K : Collab W) (c : Ctx W) : Ctx W :=
  if c.tick_frame then
    let c1 := if K.has_pressed c.world .TIMER then { c with freeze_timer := !c.freeze_timer }
      else c
    let c2 := if K.has_pressed c1.world .PAUSE then { c1 with pause_engine := !c1.pause_engine }
      else c1
    if K.has_pressed c2.world .MENU then { c2 with state := .STATE_INIT_MENU } else c2
  else c

/-- Lines 165-174 of `tick`: advance the simulation unless paused without a
step request; finalise the input frame on tick frames. -/
def tick_game_advance {W : Type} (K : Collab W) (c : Ctx W) : Ctx W :=
  if !c.pause_engine || K.has_pressed c.world .STEP then
    let c1 := perform K (.outrun_tick c.tick_frame) c
    let c2 := if c1.tick_frame then perform K .frame_done c1 else c1
    perform K .osoundint_tick c2
  else
    if c.tick_frame then perform K .frame_done c else c

/-- Lines 178-190 of `tick`: case `STATE_INIT_GAME`.  The ROM load is attempted
only when `config.engine.jap` is set. -/
def tick_init_game {W : Type} (K : Collab W) (cfg : Config) (c : Ctx W) : Ctx W :=
  if cfg.jap then
    let c1 := perform K .load_japanese_roms c
    if !K.load_japanese_roms c.world then { c1 with state := .STATE_QUIT }
    else
      { perform K .outrun_init { c1 with tick_frame := true, pause_engine := false } with
        state := .STATE_GAME }
  else
    { perform K .outrun_init { c with tick_frame := true, pause_engine := false } with
      state := .STATE_GAME }

/-- Lines 154-204 of `tick`: the switch on `state`.  `STATE_BOOT` and
`STATE_QUIT` have no case. -/
def tick_switch {W : Type} (K : Collab W) (cfg : Config) (c : Ctx W) : Ctx W :=
  match c.state with
  | .STATE_GAME => tick_game_advance K (tick_game_toggles K c)
  | .STATE_INIT_GAME => tick_init_game K cfg c
  | .STATE_MENU =>
    perform K .osoundint_tick (perform K .frame_done (perform K .menu_tick c))
  | .STATE_INIT_MENU =>
    { perform K .menu_init (perform K .outputs_init (perform K .oinputs_init c)) with
      state := .STATE_MENU }
  | .STATE_BOOT => c
  | .STATE_QUIT => c

/-- Lines 206-211 of `tick`: publish the digital outputs, and the rumble on
tick frames. -/
def tick_outputs {W : Type} (K : Collab W) (cfg : Config) (c : Ctx W) : Ctx W :=
  let c1 := perform K .writeDigitalToConsole c
  if c1.tick_frame then perform K (.set_rumble (K.is_set c1.world) cfg.rumble) c1 else c1

/-- Function `tick`, lines 136-212. -/
def tick {W : Type} (K : Collab W) (cfg : Config) (evs : List Event) (c : Ctx W) : Ctx W :=
  tick_outputs K cfg (tick_switch K cfg (tick_begin K cfg evs c))

/-! ## `main_loop` -/

/-- Conversion `(int)x` of a `double`: truncation toward zero. -/
def to_int (x : ℚ) : Int := Int.tdiv x.num x.den

/-- Conversion `(Uint32)x` of a non-negative `double`: truncation. -/
def to_Uint32 (x : ℚ) : Nat := (to_int x).toNat

/-- The local variables of `main_loop` that live across iterations, with the
context. -/
structure Loop (W : Type) where
  /-- The shared variables, collaborators and log. -/
  ctx : Ctx W
  /-- Local `int frame` of the FPS counter (it shadows `cannonball::frame`). -/
  frame : Int
  /-- Local `bool vsync`. -/
  vsync : Bool
  /-- Local `double deltatime`. -/
  deltatime : ℚ
  /-- Local `int deltaintegral`. -/
  deltaintegral : Int

/-- Lines 216-226 of `main_loop`: the declarations before the loop. -/
def main_loop_entry {W : Type} (K : Collab W) (cfg : Config) (c : Ctx W) : Loop W :=
  let c1 := perform K (.timer_start .fps_count) c
  { ctx := c1
    frame := 0
    vsync := decide (cfg.vsync = 1) && K.supports_vsync c1.world
    deltatime := 0
    deltaintegral := 0 }

/-- Lines 242-252 of `main_loop`: the frame-rate cap. -/
def main_loop_pacing {W : Type} (K : Collab W) (l : Loop W) : Loop W :=
  if !l.vsync then
    let deltatime := l.deltatime + l.ctx.frame_ms * K.adjust_speed l.ctx.world
    let deltaintegral := to_int deltatime
    let t := K.get_ticks l.ctx.world .frame_time
    let ctx :=
      if (t : ℚ) < deltatime then perform K (.SDL_Delay (to_Uint32 (deltatime - t))) l.ctx
      else l.ctx
    { l with ctx := ctx, deltatime := deltatime - deltaintegral, deltaintegral := deltaintegral }
  else l

/-- Lines 254-264 of `main_loop`: the FPS counter. -/
def main_loop_fps {W : Type} (K : Collab W) (cfg : Config) (l : Loop W) : Loop W :=
  if cfg.fps_count then
    let frame := wrap32 (l.frame + 1)
    if 1000 ≤ K.get_ticks l.ctx.world .fps_count then
      { l with
        ctx := perform K (.timer_start .fps_count) { l.ctx with fps_counter := frame }
        frame := 0 }
    else { l with frame := frame }
  else l

/-- Lines 230-264 of `main_loop`: one iteration of the loop, on the event queue
`evs` found by this iteration. -/
def main_loop_body {W : Type} (K : Collab W) (cfg : Config) (evs : List Event) (l : Loop W) :
    Loop W :=
  let c := perform K .audio_tick (perform K .render_frame (perform K .prepare_frame
    (tick K cfg evs (perform K (.timer_start .frame_time) l.ctx))))
  main_loop_fps K cfg (main_loop_pacing K { l with ctx := c })

/-- Lines 228-265 of `main_loop`: the loop `while (state != STATE_QUIT)`, run on
the event queues of its successive iterations; it stops when the state is
`STATE_QUIT` or when the given queues are used up. -/
def main_loop_while {W : Type} (K : Collab W) (cfg : Config) :
    List (List Event) → Loop W → Loop W
  | [], l => l
  | evs :: rest, l =>
    if l.ctx.state = .STATE_QUIT then l
    else main_loop_while K cfg rest (main_loop_body K cfg evs l)

/-- Function `main_loop`, lines 214-268: `none` when the given queues end
before the state is `STATE_QUIT`. -/
def main_loop {W : Type} (K : Collab W) (cfg : Config) (queues : List (List Event))
    (c : Ctx W) : Option (Ctx W) :=
  let l := main_loop_while K cfg queues (main_loop_entry K cfg c)
  if l.ctx.state = .STATE_QUIT then some (quit_func K 0 l.ctx) else none

/-! ## Observations on queues, runs and logs -/

/-- An Escape key-down or an OS quit event. -/
def is_quit : Event → Bool
  | .SDL_KEYDOWN sym => decide (sym = SDLK_ESCAPE)
  | .SDL_QUIT => true
  | _ => false

/-- The queue holds an Escape key-down or an OS quit event. -/
def has_quit (evs : List Event) : Bool := evs.any is_quit

/-- Consecutive calls of `tick`, one per queue. -/
def ticks {W : Type} (K : Collab W) (cfg : Config) : List (List Event) → Ctx W → Ctx W
  | [], c => c
  | evs :: rest, c => ticks K cfg rest (tick K cfg evs c)

/-- The arguments of the calls `outrun.tick(tick_frame)` in a log, in order. -/
def outrun_ticks : List Call → List Bool
  | [] => []
  | .outrun_tick b :: rest => b :: outrun_ticks rest
  | _ :: rest => outrun_ticks rest

/-- Total of the durations passed to `SDL_Delay` in a log, in milliseconds. -/
def slept : List Call → Nat
  | [] => 0
  | .SDL_Delay ms :: rest => ms + slept rest
  | _ :: rest => slept rest

/-- What `input.has_pressed(p)` answers inside the switch of the call
`tick` made on queue `evs` in context `c`. -/
def pressed {W : Type} (K : Collab W) (cfg : Config) (evs : List Event) (c : Ctx W)
    (p : Press) : Bool :=
  K.has_pressed (tick_begin K cfg evs c).world p

/-! ## A concrete input collaborator -/

/-- Key codes `SDLK_F1`, `SDLK_F2`, `SDLK_F3`. -/
def SDLK_F1 : Int := 1073741882

/-- Key code `SDLK_F2`. -/
def SDLK_F2 : Int := 1073741883

/-- Key code `SDLK_F3`. -/
def SDLK_F3 : Int := 1073741884

/-- Modelled from the spec: the state of the input collaborator
(`sdl2/input.hpp` is not among the sources).  `keys` are the actions whose key
is down, `keys_old` the actions committed by the last `frame_done`; see spec
  section 6: `has_pressed(action)`, `frame_done()` commits edge-triggered state. -/
structure Latch where
  /-- Actions whose key is currently down. -/
  keys : List Press
  /-- Actions that were down at the last `frame_done`. -/
  keys_old : List Press
  deriving DecidableEq

/-- The key bindings printed by `print_usage`: F1 pause, F2 frame step, F3
menu. -/
def keyconfig (sym : Int) : Option Press :=
  if sym = SDLK_F1 then some .PAUSE
  else if sym = SDLK_F2 then some .STEP
  else if sym = SDLK_F3 then some .MENU
  else none

/-- Modelled from the spec: the effect of the calls on the input collaborator
(`sdl2/input.hpp` is not among the sources).  A key-down marks its action as
down, a key-up clears it, `frame_done` commits; all other calls leave the
input collaborator alone. -/
def Latch.call : Call → Latch → Latch
  | .handle_key_down sym, w =>
    match keyconfig sym with
    | some p => { w with keys := p :: w.keys }
    | none => w
  | .handle_key_up sym, w =>
    match keyconfig sym with
    | some p => { w with keys := w.keys.filter (fun q => decide (q ≠ p)) }
    | none => w
  | .frame_done, w => { w with keys_old := w.keys }
  | _, w => w

/-- Modelled from the spec: `has_pressed(p)` of the input collaborator
(`sdl2/input.hpp` is not among the sources): the action is down and was not
down at the last `frame_done`, so a press is reported until it is committed. -/
def Latch.has_pressed (w : Latch) (p : Press) : Bool :=
  w.keys.contains p && !w.keys_old.contains p

/-- Collaborators for concrete runs: the latching input collaborator, a ROM
loader that answers `roms_ok`, a motor output that is off, no speed
correction, timers that read 0 ms and no vsync support. -/
def latch (roms_ok : Bool) : Collab Latch where
  call := Latch.call
  has_pressed := Latch.has_pressed
  load_japanese_roms := fun _ => roms_ok
  is_set := fun _ => false
  adjust_speed := fun _ => 1
  get_ticks := fun _ _ => 0
  supports_vsync := fun _ => false

/-- A context with nothing pressed and an empty log. -/
def ctx0 (s : State) (frame : Int) (tick_frame pause_engine : Bool) : Ctx Latch where
  state := s
  frame_ms := 16683 / 1000
  frame := frame
  tick_frame := tick_frame
  fps_counter := 0
  pause_engine := pause_engine
  freeze_timer := false
  world := { keys := [], keys_old := [] }
  log := []

/-- A configuration with the given rate, the Japanese ROMs required iff `jap`,
no rumble, no vsync, no FPS count, the menu enabled and no haptics. -/
def cfg0 (fps : Int) (jap : Bool) : Config where
  fps := fps
  jap := jap
  rumble := 0
  vsync := 0
  fps_count := false
  menu_enabled := true
  haptic := false

/-! ## Vocabulary of the specification -/

/-- The transition table of spec section 4.2, restricted to the edges that
`tick` may take: GAME-INIT to QUIT or GAME, GAME to MENU-INIT or GAME,
MENU-INIT to MENU, MENU to MENU, and any state to QUIT. -/
def edge : State → State → Bool
  | _, .STATE_QUIT => true
  | .STATE_INIT_GAME, .STATE_GAME => true
  | .STATE_GAME, .STATE_INIT_MENU => true
  | .STATE_GAME, .STATE_GAME => true
  | .STATE_INIT_MENU, .STATE_MENU => true
  | .STATE_MENU, .STATE_MENU => true
  | _, _ => false

/-- Contexts reachable from a post-boot state (MENU-INIT or GAME-INIT, as
assigned by `main` at line 397) by calls of `tick` on arbitrary queues and
configurations. -/
inductive Reachable {W : Type} (K : Collab W) : Ctx W → Prop
  | init_menu (c : Ctx W) : c.state = .STATE_INIT_MENU → Reachable K c
  | init_game (c : Ctx W) : c.state = .STATE_INIT_GAME → Reachable K c
  | tick (cfg : Config) (evs : List Event) (c : Ctx W) :
    Reachable K c → Reachable K (tick K cfg evs c)

/-- The call by which `process_events` hands an event to the input
collaborator, if it hands it on at all. -/
def handler_call : Event → Option Call
  | .SDL_KEYDOWN sym => if sym = SDLK_ESCAPE then none else some (.handle_key_down sym)
  | .SDL_KEYUP sym => some (.handle_key_up sym)
  | .SDL_JOYAXISMOTION p => some (.handle_joy_axis p)
  | .SDL_JOYBUTTONDOWN p => some (.handle_joy_down p)
  | .SDL_JOYBUTTONUP p => some (.handle_joy_up p)
  | .SDL_CONTROLLERAXISMOTION p => some (.handle_controller_axis p)
  | .SDL_CONTROLLERBUTTONDOWN p => some (.handle_controller_down p)
  | .SDL_CONTROLLERBUTTONUP p => some (.handle_controller_up p)
  | .SDL_JOYHATMOTION p => some (.handle_joy_hat p)
  | .SDL_JOYDEVICEADDED => some .open_joy
  | .SDL_JOYDEVICEREMOVED => some .close_joy
  | .SDL_QUIT => none
  | .OTHER _ => none

/-- The calls that `process_events` can make. -/
def is_handler : Call → Bool
  | .handle_key_down _ => true
  | .handle_key_up _ => true
  | .handle_joy_axis _ => true
  | .handle_joy_down _ => true
  | .handle_joy_up _ => true
  | .handle_controller_axis _ => true
  | .handle_controller_down _ => true
  | .handle_controller_up _ => true
  | .handle_joy_hat _ => true
  | .open_joy => true
  | .close_joy => true
  | _ => false

/-- The frame runs the else-branch of case `STATE_INIT_GAME`: the state at the
switch is GAME-INIT and the Japanese ROMs are not required or load. -/
def completes_init_game {W : Type} (K : Collab W) (cfg : Config) (evs : List Event)
    (c : Ctx W) : Bool :=
  decide ((tick_begin K cfg evs c).state = .STATE_INIT_GAME) &&
    !(cfg.jap && !K.load_japanese_roms (tick_begin K cfg evs c).world)

/-- A run of GAME frames in which no quit event arrives and neither the step,
the pause nor the menu action is reported pressed. -/
def frozen_run {W : Type} (K : Collab W) (cfg : Config) : List (List Event) → Ctx W → Prop
  | [], _ => True
  | evs :: rest, c =>
    has_quit evs = false ∧ pressed K cfg evs c .STEP = false ∧
    pressed K cfg evs c .PAUSE = false ∧ pressed K cfg evs c .MENU = false ∧
    frozen_run K cfg rest (tick K cfg evs c)

/-- The press model of the input collaborator, as the spec words it (section
4.2: `frame_done` commits edge-triggered state so that each press is observed
exactly once): what `has_pressed` reports is changed by no call other than the
event handlers and `frame_done`, and after `frame_done` nothing is reported
pressed. -/
structure Latching {W : Type} (K : Collab W) : Prop where
  /-- Calls other than the event handlers and `frame_done` keep the reports. -/
  keep : ∀ (k : Call) (w : W) (p : Press), is_handler k = false → k ≠ .frame_done →
    K.has_pressed (K.call k w) p = K.has_pressed w p
  /-- After `frame_done` no press is reported. -/
  done : ∀ (w : W) (p : Press), K.has_pressed (K.call .frame_done w) p = false

/-- Number of frames from the frame that follows counter value `frame` up to
and including the first tick frame, for rate 60, rate 120, and for any other
rate with the Tick Flag true. -/
def frames_to_tick (fps : Int) (frame : Int) : Nat :=
  if fps = 60 then (if wrap32 (frame + 1) % 2 = 1 then 1 else 2)
  else if fps = 120 then ((1 - wrap32 (frame + 1)) % 4).toNat + 1
  else 1

/-- Number of loop iterations recorded in a log: each iteration calls
`audio.tick()` once (line 239). -/
def iterations (log : List Call) : Nat := log.count .audio_tick

/-- The Tick Flags with which the successive frames of a run enter the switch. -/
def tick_flags {W : Type} (K : Collab W) (cfg : Config) :
    List (List Event) → Ctx W → List Bool
  | [], _ => []
  | evs :: rest, c =>
    (tick_begin K cfg evs c).tick_frame :: tick_flags K cfg rest (tick K cfg evs c)

/-! ## `parse_command_line` and `main` -/

/-- The results of the startup calls whose outcome `main` and
`parse_command_line` test, and the frame duration that `config.set_fps` stores
in `cannonball::frame_ms`. -/
structure Startup (W : Type) where
  /-- Result of `trackloader.set_layout_track(file)`. -/
  set_layout_track : W → String → Bool
  /-- Result of `roms.load_revb_roms(...)`. -/
  load_revb_roms : W → Bool
  /-- Result of `SDL_Init(...)`. -/
  SDL_Init : W → Int
  /-- Result of `video.init(...)`. -/
  video_init : W → Bool
  /-- Value of `cannonball::frame_ms` after `config.set_fps(...)`. -/
  frame_ms : W → ℚ

/-- The help options tested at lines 322-323. -/
def is_help (a : String) : Bool := a = "-h" || a = "--help" || a = "-help" || a = "/?"

/-- The version options tested at lines 328-329. -/
def is_version (a : String) : Bool := a = "-v" || a = "--version" || a = "-version"

/-- The configuration-file options tested at lines 334-335. -/
def is_config_option (a : String) : Bool := a = "-c" || a = "--config" || a = "-cfgfile"

/-- The track options tested at lines 339-340. -/
def is_track_option (a : String) : Bool := a = "-t" || a = "--track" || a = "-file"

/-- The test `argv[i][0] == '-'` of line 348. -/
def starts_with_dash (a : String) : Bool := a.data.head? = some '-'

/-- What `parse_command_line` does: it ends the process with `exit(0)`, or it
returns a boolean. -/
inductive Parsed (W : Type)
  | exit0 (c : Ctx W)
  | result (ok : Bool) (c : Ctx W)

/-- Function `parse_command_line`, lines 318-356, on the arguments
`argv[1]`, ..., `argv[argc-1]`.  The messages written to `std::cerr` are not
recorded. -/
def parse_command_line {W : Type} (K : Collab W) (S : Startup W) :
    List String → Ctx W → Parsed W
  | [], c => .result true c
  | [a], c =>
    if is_help a then .exit0 (perform K (.exit 0) (perform K .print_usage c))
    else if is_version a then .exit0 (perform K (.exit 0) (perform K .print_version c))
    else if starts_with_dash a then .result false c
    else .result true c
  | a :: v :: rest, c =>
    if is_help a then .exit0 (perform K (.exit 0) (perform K .print_usage c))
    else if is_version a then .exit0 (perform K (.exit 0) (perform K .print_version c))
    else if is_config_option a then
      parse_command_line K S rest (perform K (.set_config_file v) c)
    else if is_track_option a then
      if !S.set_layout_track c.world v then .result false (perform K (.set_layout_track v) c)
      else parse_command_line K S rest (perform K (.set_layout_track v) c)
    else if starts_with_dash a then .result false c
    else parse_command_line K S (v :: rest) c

/-- How a run of the process ends: `exit(code)` was called, `main` returned
`code`, or the loop is still running when the given queues are used up. -/
inductive Outcome (W : Type)
  | exited (code : Int) (c : Ctx W)
  | returned (code : Int) (c : Ctx W)
  | running (c : Ctx W)

/-- Lines 385-390 of `main`, up to the call of `video.init`: the widescreen
tilemaps and `config.set_fps`, which stores the frame duration in
`cannonball::frame_ms`. -/
def main_video {W : Type} (K : Collab W) (S : Startup W) (c : Ctx W) : Ctx W :=
  let c2 := perform K .load_widescreen_map c
  { perform K .set_fps c2 with frame_ms := S.frame_ms c2.world }

/-- Lines 394-409 of `main`: audio, the post-boot state, the controls, the
haptics and the menu. -/
def main_init {W : Type} (K : Collab W) (cfg : Config) (c : Ctx W) : Ctx W :=
  let c4 := perform K .audio_init c
  let c5 := { c4 with
    state := if cfg.menu_enabled then .STATE_INIT_MENU else .STATE_INIT_GAME }
  let c6 := perform K .input_init c5
  let c7 := if cfg.haptic then perform K .forcefeedback_init c6 else c6
  perform K .menu_populate (perform K .new_Menu c7)

/-- Lines 374-410 of `main`: everything after the ROMs are loaded.  The
messages written to `std::cout` and `std::cerr` are not recorded. -/
def main_start {W : Type} (K : Collab W) (S : Startup W) (cfg : Config)
    (queues : List (List Event)) (c : Ctx W) : Outcome W :=
  let c1 := perform K .SDL_GameControllerAddMappingsFromFile c
  if S.SDL_Init c1.world = -1 then .returned 1 (perform K .SDL_Init c1)
  else
    let c3 := main_video K S (perform K .SDL_Init c1)
    if !S.video_init c3.world then .exited 1 (quit_func K 1 (perform K .video_init c3))
    else
      match main_loop K cfg queues (main_init K cfg (perform K .video_init c3)) with
      | some c9 => .exited 0 c9
      | none =>
        .running (main_loop_while K cfg queues
          (main_loop_entry K cfg (main_init K cfg (perform K .video_init c3)))).ctx

/-- Function `main`, lines 358-414, on the arguments `argv[1]`, ...,
`argv[argc-1]`. -/
def main {W : Type} (K : Collab W) (S : Startup W) (cfg : Config) (args : List String)
    (queues : List (List Event)) (c : Ctx W) : Outcome W :=
  match parse_command_line K S args c with
  | .exit0 c1 => .exited 0 c1
  | .result false c1 => .exited 1 (quit_func K 1 c1)
  | .result true c1 =>
    let c2 := perform K .config_load c1
    if !S.load_revb_roms c2.world then .exited 1 (quit_func K 1 (perform K .load_revb_roms c2))
    else main_start K S cfg queues (perform K .load_revb_roms c2)

/-- The shared variables as initialised at lines 45-49 and 56, before `main`
runs, with an empty log. -/
def boot {W : Type} (w : W) : Ctx W where
  state := .STATE_BOOT
  frame_ms := 0
  frame := 0
  tick_frame := true
  fps_counter := 0
  pause_engine := false
  freeze_timer := false
  world := w
  log := []

/-- The context in which a run ends or is cut off. -/
def Outcome.ctx {W : Type} : Outcome W → Ctx W
  | .exited _ c => c
  | .returned _ c => c
  | .running c => c

/-- The exit code of the process, if it has ended. -/
def Outcome.code {W : Type} : Outcome W → Option Int
  | .exited code _ => some code
  | .returned code _ => some code
  | .running _ => none

/-- Startup results for concrete runs: the track file loads iff `track_ok`,
the ROMs load iff `roms_ok`, `SDL_Init` succeeds iff `sdl_ok`, the video
initialises iff `video_ok`, and the frame duration is 16.683 ms. -/
def startup0 (track_ok roms_ok sdl_ok video_ok : Bool) : Startup Latch where
  set_layout_track := fun _ _ => track_ok
  load_revb_roms := fun _ => roms_ok
  SDL_Init := fun _ => if sdl_ok then 0 else -1
  video_init := fun _ => video_ok
  frame_ms := fun _ => 16683 / 1000

/-- The calls of the Shutdown Sequence, as `quit_func(code)` makes them. -/
def shutdown_calls (code : Int) : List Call :=
  [.stop_audio, .close_joy, .ffeedback_close, .delete_menu, .SDL_Quit, .exit code]

/-- The calls that one iteration of the loop of `main_loop` can make: those of
`tick`, the timers, the video, the audio refill and the sleep. -/
def is_loop_call : Call → Bool
  | .handle_key_down _ => true
  | .handle_key_up _ => true
  | .handle_joy_axis _ => true
  | .handle_joy_down _ => true
  | .handle_joy_up _ => true
  | .handle_controller_axis _ => true
  | .handle_controller_down _ => true
  | .handle_controller_up _ => true
  | .handle_joy_hat _ => true
  | .open_joy => true
  | .close_joy => true
  | .oinputs_tick => true
  | .oinputs_do_gear => true
  | .oinputs_init => true
  | .outrun_tick _ => true
  | .outrun_init => true
  | .outputs_init => true
  | .frame_done => true
  | .osoundint_tick => true
  | .load_japanese_roms => true
  | .menu_tick => true
  | .menu_init => true
  | .writeDigitalToConsole => true
  | .set_rumble _ _ => true
  | .timer_start _ => true
  | .prepare_frame => true
  | .render_frame => true
  | .audio_tick => true
  | .SDL_Delay _ => true
  | _ => false

/-- The calls of the prologue and the epilogue of `tick`: the event handlers,
the input pipeline, the publication of the digital outputs and the rumble. -/
def is_frame_call : Call → Bool
  | .oinputs_tick => true
  | .oinputs_do_gear => true
  | .writeDigitalToConsole => true
  | .set_rumble _ _ => true
  | k => is_handler k

/-- The argument vector holds no help and no version option. -/
def no_help_version (args : List String) : Bool :=
  args.all (fun a => !is_help a && !is_version a)

/-- The rejection rule as the specification words it: scanning left to right
and skipping the value consumed by each configuration or track option that has
a following argument, some argument starts with a dash and is not such an
option followed by a value, or is a track option whose file fails to load. -/
def malformed {W : Type} (K : Collab W) (S : Startup W) : List String → Ctx W → Bool
  | [], _ => false
  | [a], _ => starts_with_dash a
  | a :: v :: rest, c =>
    if is_config_option a then malformed K S rest (perform K (.set_config_file v) c)
    else if is_track_option a then
      !S.set_layout_track c.world v || malformed K S rest (perform K (.set_layout_track v) c)
    else starts_with_dash a || malformed K S (v :: rest) c

/-- The calls that `parse_command_line` and `main` make before the loop. -/
def is_startup_call : Call → Bool
  | .print_usage => true
  | .print_version => true
  | .set_config_file _ => true
  | .set_layout_track _ => true
  | .config_load => true
  | .load_revb_roms => true
  | .SDL_GameControllerAddMappingsFromFile => true
  | .SDL_Init => true
  | .load_widescreen_map => true
  | .set_fps => true
  | .video_init => true
  | .audio_init => true
  | .input_init => true
  | .forcefeedback_init => true
  | .new_Menu => true
  | .menu_populate => true
  | _ => false

/-- The calls that `parse_command_line` makes for the options that take a
value. -/
def is_option_call : Call → Bool
  | .set_config_file _ => true
  | .set_layout_track _ => true
  | _ => false

/-! # Theorems -/

/-! ## Bit tests -/

theorem ldiff_mask (j m : Nat) : Nat.ldiff (2 ^ j - 1) m = 2 ^ j - (m % 2 ^ j + 1) := by
  apply Nat.eq_of_testBit_eq
  intro i
  have hlt : m % 2 ^ j < 2 ^ j := Nat.mod_lt _ (Nat.pos_pow_of_pos j (by decide))
  rw [Nat.testBit_ldiff, Nat.testBit_two_pow_sub_one, Nat.testBit_two_pow_sub_succ hlt,
    Nat.testBit_mod_two_pow]
  cases decide (i < j) <;> cases m.testBit i <;> rfl

theorem land_one (x : Int) : Int.land x 1 = x % 2 := by
  cases x with
  | ofNat m =>
    show ((m &&& 1 : Nat) : Int) = (m : Int) % 2
    rw [Nat.and_one_is_mod]
    omega
  | negSucc m =>
    show ((Nat.ldiff 1 m : Nat) : Int) = Int.negSucc m % 2
    have h := ldiff_mask 1 m
    norm_num at h
    rw [h, Int.negSucc_eq]
    omega

theorem land_three (x : Int) : Int.land x 3 = x % 4 := by
  cases x with
  | ofNat m =>
    show ((m &&& 3 : Nat) : Int) = (m : Int) % 4
    have h := Nat.and_pow_two_sub_one_eq_mod m 2
    norm_num at h
    rw [h]
    omega
  | negSucc m =>
    show ((Nat.ldiff 3 m : Nat) : Int) = Int.negSucc m % 4
    have h := ldiff_mask 2 m
    norm_num at h
    rw [h, Int.negSucc_eq]
    omega

/-! ## Field lemmas -/

section fields
variable {W : Type} (K : Collab W)

@[simp]
theorem perform_state (k : Call) (c : Ctx W) : (perform K k c).state = c.state := rfl
@[simp]
theorem perform_frame (k : Call) (c : Ctx W) : (perform K k c).frame = c.frame := rfl
@[simp]
theorem perform_tick_frame (k : Call) (c : Ctx W) :
    (perform K k c).tick_frame = c.tick_frame := rfl
@[simp]
theorem perform_pause_engine (k : Call) (c : Ctx W) :
    (perform K k c).pause_engine = c.pause_engine := rfl
@[simp]
theorem perform_freeze_timer (k : Call) (c : Ctx W) :
    (perform K k c).freeze_timer = c.freeze_timer := rfl
@[simp]
theorem perform_frame_ms (k : Call) (c : Ctx W) :
    (perform K k c).frame_ms = c.frame_ms := rfl
@[simp]
theorem perform_world (k : Call) (c : Ctx W) :
    (perform K k c).world = K.call k c.world := rfl
@[simp]
theorem perform_log (k : Call) (c : Ctx W) : (perform K k c).log = c.log ++ [k] := rfl

theorem process_event_state (c : Ctx W) (e : Event) :
    (process_event K c e).state = if is_quit e then .STATE_QUIT else c.state := by
  cases e <;> simp [process_event, is_quit]
  split <;> simp [*]

theorem process_event_flags (c : Ctx W) (e : Event) :
    (process_event K c e).frame = c.frame ∧ (process_event K c e).tick_frame = c.tick_frame ∧
    (process_event K c e).pause_engine = c.pause_engine ∧
    (process_event K c e).freeze_timer = c.freeze_timer ∧
    (process_event K c e).frame_ms = c.frame_ms := by
  cases e <;> simp [process_event]
  split <;> simp

theorem process_events_state (evs : List Event) (c : Ctx W) :
    (process_events K evs c).state = if has_quit evs then .STATE_QUIT else c.state := by
  induction evs generalizing c with
  | nil => simp [process_events, has_quit]
  | cons e rest ih =>
    have h := ih (process_event K c e)
    simp only [process_events, List.foldl_cons] at h ⊢
    rw [h, process_event_state]
    simp only [has_quit, List.any_cons]
    by_cases h1 : is_quit e = true <;> by_cases h2 : rest.any is_quit = true <;> simp [h1, h2]

theorem process_events_flags (evs : List Event) (c : Ctx W) :
    (process_events K evs c).frame = c.frame ∧
    (process_events K evs c).tick_frame = c.tick_frame ∧
    (process_events K evs c).pause_engine = c.pause_engine ∧
    (process_events K evs c).freeze_timer = c.freeze_timer ∧
    (process_events K evs c).frame_ms = c.frame_ms := by
  induction evs generalizing c with
  | nil => simp [process_events]
  | cons e rest ih =>
    have h := ih (process_event K c e)
    have h2 := process_event_flags K c e
    simp only [process_events, List.foldl_cons] at h ⊢
    refine ⟨h.1.trans h2.1, h.2.1.trans h2.2.1, h.2.2.1.trans h2.2.2.1,
      h.2.2.2.1.trans h2.2.2.2.1, h.2.2.2.2.trans h2.2.2.2.2⟩

theorem tick_controls_fields (c : Ctx W) :
    (tick_controls K c).state = c.state ∧ (tick_controls K c).frame = c.frame ∧
    (tick_controls K c).tick_frame = c.tick_frame ∧
    (tick_controls K c).pause_engine = c.pause_engine ∧
    (tick_controls K c).freeze_timer = c.freeze_timer := by
  unfold tick_controls
  split <;> simp

theorem tick_begin_state (cfg : Config) (evs : List Event) (c : Ctx W) :
    (tick_begin K cfg evs c).state = if has_quit evs then .STATE_QUIT else c.state := by
  unfold tick_begin
  rw [(tick_controls_fields K _).1, process_events_state]
  rfl

theorem tick_begin_frame (cfg : Config) (evs : List Event) (c : Ctx W) :
    (tick_begin K cfg evs c).frame = wrap32 (c.frame + 1) := by
  unfold tick_begin
  rw [(tick_controls_fields K _).2.1, (process_events_flags K _ _).1]
  rfl

theorem tick_begin_tick_frame (cfg : Config) (evs : List Event) (c : Ctx W) :
    (tick_begin K cfg evs c).tick_frame =
      if cfg.fps = 60 then decide (Int.land (wrap32 (c.frame + 1)) 1 ≠ 0)
      else if cfg.fps = 120 then decide (Int.land (wrap32 (c.frame + 1)) 3 = 1)
      else c.tick_frame := by
  unfold tick_begin
  rw [(tick_controls_fields K _).2.2.1, (process_events_flags K _ _).2.1]
  rfl

theorem tick_begin_pause_engine (cfg : Config) (evs : List Event) (c : Ctx W) :
    (tick_begin K cfg evs c).pause_engine = c.pause_engine := by
  unfold tick_begin
  rw [(tick_controls_fields K _).2.2.2.1, (process_events_flags K _ _).2.2.1]
  rfl

theorem tick_begin_freeze_timer (cfg : Config) (evs : List Event) (c : Ctx W) :
    (tick_begin K cfg evs c).freeze_timer = c.freeze_timer := by
  unfold tick_begin
  rw [(tick_controls_fields K _).2.2.2.2, (process_events_flags K _ _).2.2.2.1]
  rfl

theorem tick_outputs_fields (cfg : Config) (c : Ctx W) :
    (tick_outputs K cfg c).state = c.state ∧ (tick_outputs K cfg c).frame = c.frame ∧
    (tick_outputs K cfg c).tick_frame = c.tick_frame ∧
    (tick_outputs K cfg c).pause_engine = c.pause_engine ∧
    (tick_outputs K cfg c).freeze_timer = c.freeze_timer := by
  unfold tick_outputs
  simp only []
  split <;> simp


theorem tick_game_toggles_fields (c : Ctx W) :
    (tick_game_toggles K c).tick_frame = c.tick_frame ∧
    (tick_game_toggles K c).world = c.world ∧
    (tick_game_toggles K c).log = c.log ∧
    (tick_game_toggles K c).frame = c.frame := by
  by_cases ht : c.tick_frame = true <;>
    by_cases h1 : K.has_pressed c.world .TIMER = true <;>
    by_cases h2 : K.has_pressed c.world .PAUSE = true <;>
    by_cases h3 : K.has_pressed c.world .MENU = true <;>
    simp [tick_game_toggles, ht, h1, h2, h3]

theorem tick_game_toggles_state (c : Ctx W) :
    (tick_game_toggles K c).state =
      if c.tick_frame = true ∧ K.has_pressed c.world .MENU = true then .STATE_INIT_MENU
      else c.state := by
  by_cases ht : c.tick_frame = true <;>
    by_cases h1 : K.has_pressed c.world .TIMER = true <;>
    by_cases h2 : K.has_pressed c.world .PAUSE = true <;>
    by_cases h3 : K.has_pressed c.world .MENU = true <;>
    simp [tick_game_toggles, ht, h1, h2, h3]

theorem tick_game_toggles_pause_engine (c : Ctx W) :
    (tick_game_toggles K c).pause_engine =
      if c.tick_frame = true ∧ K.has_pressed c.world .PAUSE = true then !c.pause_engine
      else c.pause_engine := by
  by_cases ht : c.tick_frame = true <;>
    by_cases h1 : K.has_pressed c.world .TIMER = true <;>
    by_cases h2 : K.has_pressed c.world .PAUSE = true <;>
    by_cases h3 : K.has_pressed c.world .MENU = true <;>
    simp [tick_game_toggles, ht, h1, h2, h3]

theorem tick_game_toggles_freeze_timer (c : Ctx W) :
    (tick_game_toggles K c).freeze_timer =
      if c.tick_frame = true ∧ K.has_pressed c.world .TIMER = true then !c.freeze_timer
      else c.freeze_timer := by
  by_cases ht : c.tick_frame = true <;>
    by_cases h1 : K.has_pressed c.world .TIMER = true <;>
    by_cases h2 : K.has_pressed c.world .PAUSE = true <;>
    by_cases h3 : K.has_pressed c.world .MENU = true <;>
    simp [tick_game_toggles, ht, h1, h2, h3]

theorem tick_game_advance_fields (c : Ctx W) :
    (tick_game_advance K c).state = c.state ∧
    (tick_game_advance K c).tick_frame = c.tick_frame ∧
    (tick_game_advance K c).pause_engine = c.pause_engine ∧
    (tick_game_advance K c).freeze_timer = c.freeze_timer ∧
    (tick_game_advance K c).frame = c.frame := by
  unfold tick_game_advance
  simp only []
  split
  · split <;> simp
  · split <;> simp

theorem tick_init_game_state (cfg : Config) (c : Ctx W) :
    (tick_init_game K cfg c).state =
      if cfg.jap = true ∧ K.load_japanese_roms c.world = false then .STATE_QUIT
      else .STATE_GAME := by
  unfold tick_init_game
  by_cases hj : cfg.jap = true <;> by_cases hl : K.load_japanese_roms c.world = true <;>
    simp [hj, hl]

theorem tick_switch_state (cfg : Config) (c : Ctx W) :
    (tick_switch K cfg c).state =
      match c.state with
      | .STATE_GAME =>
        if c.tick_frame = true ∧ K.has_pressed c.world .MENU = true then .STATE_INIT_MENU
        else .STATE_GAME
      | .STATE_INIT_GAME =>
        if cfg.jap = true ∧ K.load_japanese_roms c.world = false then .STATE_QUIT
        else .STATE_GAME
      | .STATE_MENU => .STATE_MENU
      | .STATE_INIT_MENU => .STATE_MENU
      | .STATE_BOOT => .STATE_BOOT
      | .STATE_QUIT => .STATE_QUIT := by
  unfold tick_switch
  cases hs : c.state <;> simp only []
  all_goals first
    | exact hs
    | rw [tick_init_game_state]
    | rw [(tick_game_advance_fields K _).1, tick_game_toggles_state, hs]

theorem tick_state (cfg : Config) (evs : List Event) (c : Ctx W) :
    (tick K cfg evs c).state = (tick_switch K cfg (tick_begin K cfg evs c)).state :=
  (tick_outputs_fields K cfg _).1

end fields

/-- C1. For every Frame Counter value `f` produced by the increment at the
start of `tick` (in particular every non-negative one), the Tick Flag with
which the frame enters the switch is true iff `f` is odd when the configured
rate is 60, and true iff `f mod 4 = 1` when the rate is 120: the bit tests
`frame & 1` and `(frame & 3) == 1` agree with the arithmetic definition. -/
theorem tick_flag_rate_60_120 {W : Type} (K : Collab W) (cfg : Config) (evs : List Event)
    (c : Ctx W) :
    (tick_begin K { cfg with fps := 60 } evs c).frame = wrap32 (c.frame + 1) ∧
    ((tick_begin K { cfg with fps := 60 } evs c).tick_frame = true ↔
      wrap32 (c.frame + 1) % 2 = 1) ∧
    (tick_begin K { cfg with fps := 120 } evs c).frame = wrap32 (c.frame + 1) ∧
    ((tick_begin K { cfg with fps := 120 } evs c).tick_frame = true ↔
      wrap32 (c.frame + 1) % 4 = 1) := by
  refine ⟨tick_begin_frame K _ evs c, ?_, tick_begin_frame K _ evs c, ?_⟩
  · rw [tick_begin_tick_frame, land_one]
    simp
  · rw [tick_begin_tick_frame, land_three]
    simp


theorem tick_edge_of_ne_boot {W : Type} (K : Collab W) (cfg : Config) (evs : List Event)
    (c : Ctx W) (h : c.state ≠ .STATE_BOOT) :
    edge c.state (tick K cfg evs c).state = true ∧ (tick K cfg evs c).state ≠ .STATE_BOOT := by
  rw [tick_state, tick_switch_state, tick_begin_state]
  by_cases hq : has_quit evs = true
  · simp only [hq, if_true]
    cases c.state <;> simp [edge]
  · simp only [hq]
    cases hs : c.state
    · exact absurd hs h
    · simp [edge]
    · simp [edge]
    · by_cases hl : cfg.jap = true ∧ K.load_japanese_roms (tick_begin K cfg evs c).world = false <;>
        simp [hl, edge]
    · by_cases hm : (tick_begin K cfg evs c).tick_frame = true ∧
          K.has_pressed (tick_begin K cfg evs c).world .MENU = true <;> simp [hm, edge]
    · simp [edge]

theorem reachable_ne_boot {W : Type} (K : Collab W) (c : Ctx W) (h : Reachable K c) :
    c.state ≠ .STATE_BOOT := by
  induction h with
  | init_menu c h => simp [h]
  | init_game c h => simp [h]
  | tick cfg evs c _ ih => exact (tick_edge_of_ne_boot K cfg evs c ih).2

/-- C4. For every context reachable from MENU-INIT or GAME-INIT by calls of
`tick`, every queue, every configuration and every collaborator (acting on the
world only), the states before and after one call of `tick` form one of the
edges GAME-INIT to QUIT, GAME-INIT to GAME, GAME to MENU-INIT, GAME to GAME,
MENU-INIT to MENU, MENU to MENU, or any state to QUIT. -/
theorem tick_follows_edges {W : Type} (K : Collab W) (cfg : Config) (evs : List Event)
    (c : Ctx W) (h : Reachable K c) : edge c.state (tick K cfg evs c).state = true :=
  (tick_edge_of_ne_boot K cfg evs c (reachable_ne_boot K c h)).1


section logs
variable {W : Type} (K : Collab W)

theorem outrun_ticks_append (l1 l2 : List Call) :
    outrun_ticks (l1 ++ l2) = outrun_ticks l1 ++ outrun_ticks l2 := by
  induction l1 with
  | nil => rfl
  | cons k rest ih => cases k <;> simp [outrun_ticks, ih]

theorem slept_append (l1 l2 : List Call) : slept (l1 ++ l2) = slept l1 + slept l2 := by
  induction l1 with
  | nil => simp [slept]
  | cons k rest ih => cases k <;> simp [slept, ih, Nat.add_assoc]

theorem iterations_append (l1 l2 : List Call) :
    iterations (l1 ++ l2) = iterations l1 + iterations l2 := by
  simp [iterations]

theorem process_event_log (c : Ctx W) (e : Event) :
    (process_event K c e).log = c.log ++ (handler_call e).toList := by
  cases e <;> simp [process_event, handler_call]
  split <;> simp

theorem process_events_log (evs : List Event) (c : Ctx W) :
    (process_events K evs c).log = c.log ++ evs.filterMap handler_call := by
  induction evs generalizing c with
  | nil => simp [process_events]
  | cons e rest ih =>
    have h := ih (process_event K c e)
    simp only [process_events, List.foldl_cons] at h ⊢
    rw [h, process_event_log]
    cases he : handler_call e <;> simp [List.filterMap_cons, he]

theorem handler_call_is_handler (e : Event) (k : Call) (h : handler_call e = some k) :
    is_handler k = true := by
  cases e <;> simp [handler_call] at h <;> try (subst h; rfl)
  obtain ⟨_, rfl⟩ := h
  rfl

/-- The calls of `process_events` contain no `outrun.tick`. -/
theorem handlers_outrun_ticks (evs : List Event) :
    outrun_ticks (evs.filterMap handler_call) = [] := by
  induction evs with
  | nil => rfl
  | cons e rest ih =>
    cases he : handler_call e with
    | none => simpa [List.filterMap_cons, he] using ih
    | some k =>
      have hk := handler_call_is_handler e k he
      simp only [List.filterMap_cons, he]
      cases k <;> simp [is_handler] at hk <;> simpa [outrun_ticks] using ih

theorem handlers_slept (evs : List Event) : slept (evs.filterMap handler_call) = 0 := by
  induction evs with
  | nil => rfl
  | cons e rest ih =>
    cases he : handler_call e with
    | none => simpa [List.filterMap_cons, he] using ih
    | some k =>
      have hk := handler_call_is_handler e k he
      simp only [List.filterMap_cons, he]
      cases k <;> simp [is_handler] at hk <;> simpa [slept] using ih

theorem handlers_count (evs : List Event) (k : Call) (hk : is_handler k = false) :
    (evs.filterMap handler_call).count k = 0 := by
  rw [List.count_eq_zero]
  intro hmem
  obtain ⟨e, _, he⟩ := List.mem_filterMap.1 hmem
  rw [handler_call_is_handler e k he] at hk
  exact absurd hk (by decide)

theorem tick_controls_log (c : Ctx W) :
    (tick_controls K c).log =
      c.log ++ (if c.tick_frame = true then [.oinputs_tick, .oinputs_do_gear] else []) := by
  unfold tick_controls
  split <;> simp

theorem tick_begin_log (cfg : Config) (evs : List Event) (c : Ctx W) :
    (tick_begin K cfg evs c).log =
      c.log ++ evs.filterMap handler_call ++
        (if (tick_begin K cfg evs c).tick_frame = true then [.oinputs_tick, .oinputs_do_gear]
         else []) := by
  unfold tick_begin
  rw [tick_controls_log, process_events_log, (tick_controls_fields K _).2.2.1]
  rfl

theorem tick_game_advance_log (c : Ctx W) :
    (tick_game_advance K c).log =
      c.log ++
        (if c.pause_engine = false ∨ K.has_pressed c.world .STEP = true then
          [.outrun_tick c.tick_frame] ++ (if c.tick_frame = true then [.frame_done] else []) ++
            [.osoundint_tick]
         else if c.tick_frame = true then [.frame_done] else []) := by
  by_cases hp : c.pause_engine = true <;> by_cases hs : K.has_pressed c.world .STEP = true <;>
    by_cases ht : c.tick_frame = true <;> simp [tick_game_advance, hp, hs, ht]

theorem tick_init_game_log (cfg : Config) (c : Ctx W) :
    (tick_init_game K cfg c).log =
      c.log ++ (if cfg.jap = true then [.load_japanese_roms] else []) ++
        (if cfg.jap = true ∧ K.load_japanese_roms c.world = false then []
         else [.outrun_init]) := by
  by_cases hj : cfg.jap = true <;> by_cases hl : K.load_japanese_roms c.world = true <;>
    simp [tick_init_game, hj, hl]

theorem tick_outputs_log (cfg : Config) (c : Ctx W) :
    (tick_outputs K cfg c).log =
      c.log ++ [.writeDigitalToConsole] ++
        (if c.tick_frame = true then
          [.set_rumble (K.is_set (K.call .writeDigitalToConsole c.world)) cfg.rumble]
         else []) := by
  by_cases ht : c.tick_frame = true <;> simp [tick_outputs, ht]

end logs

section frames
variable {W : Type} (K : Collab W)

theorem tick_init_game_fields (cfg : Config) (c : Ctx W) :
    (tick_init_game K cfg c).tick_frame =
      (if cfg.jap = true ∧ K.load_japanese_roms c.world = false then c.tick_frame else true) ∧
    (tick_init_game K cfg c).pause_engine =
      (if cfg.jap = true ∧ K.load_japanese_roms c.world = false then c.pause_engine
       else false) ∧
    (tick_init_game K cfg c).freeze_timer = c.freeze_timer ∧
    (tick_init_game K cfg c).frame = c.frame := by
  by_cases hj : cfg.jap = true <;> by_cases hl : K.load_japanese_roms c.world = true <;>
    simp [tick_init_game, hj, hl]

theorem tick_switch_game (cfg : Config) (c : Ctx W) (h : c.state = .STATE_GAME) :
    tick_switch K cfg c = tick_game_advance K (tick_game_toggles K c) := by
  unfold tick_switch
  rw [h]

theorem tick_switch_init_game (cfg : Config) (c : Ctx W) (h : c.state = .STATE_INIT_GAME) :
    tick_switch K cfg c = tick_init_game K cfg c := by
  unfold tick_switch
  rw [h]

theorem tick_switch_quit (cfg : Config) (c : Ctx W) (h : c.state = .STATE_QUIT) :
    tick_switch K cfg c = c := by
  unfold tick_switch
  rw [h]

theorem tick_switch_tick_frame (cfg : Config) (c : Ctx W) :
    (tick_switch K cfg c).tick_frame =
      if c.state = .STATE_INIT_GAME ∧
          ¬(cfg.jap = true ∧ K.load_japanese_roms c.world = false) then true
      else c.tick_frame := by
  cases hs : c.state
  case STATE_INIT_GAME =>
    rw [tick_switch_init_game K cfg c hs, (tick_init_game_fields K cfg c).1]
    by_cases hl : cfg.jap = true ∧ K.load_japanese_roms c.world = false <;> simp [hl]
  case STATE_GAME =>
    rw [tick_switch_game K cfg c hs, (tick_game_advance_fields K _).2.1,
      (tick_game_toggles_fields K c).1]
    simp
  all_goals simp [tick_switch, hs]

theorem tick_tick_frame (cfg : Config) (evs : List Event) (c : Ctx W) :
    (tick K cfg evs c).tick_frame =
      (completes_init_game K cfg evs c || (tick_begin K cfg evs c).tick_frame) := by
  unfold tick
  rw [(tick_outputs_fields K cfg _).2.2.1, tick_switch_tick_frame]
  unfold completes_init_game
  by_cases hs : (tick_begin K cfg evs c).state = .STATE_INIT_GAME <;>
    by_cases hj : cfg.jap = true <;>
    by_cases hl : K.load_japanese_roms (tick_begin K cfg evs c).world = true <;>
    simp [hs, hj, hl]

theorem tick_frame_eq (cfg : Config) (evs : List Event) (c : Ctx W) :
    (tick K cfg evs c).frame = wrap32 (c.frame + 1) := by
  unfold tick
  rw [(tick_outputs_fields K cfg _).2.1]
  have hb := tick_begin_frame K cfg evs c
  cases hs : (tick_begin K cfg evs c).state
  case STATE_INIT_GAME =>
    rw [tick_switch_init_game K cfg _ hs, (tick_init_game_fields K cfg _).2.2.2, hb]
  case STATE_GAME =>
    rw [tick_switch_game K cfg _ hs, (tick_game_advance_fields K _).2.2.2.2,
      (tick_game_toggles_fields K _).2.2.2, hb]
  all_goals simp [tick_switch, hs, hb]

end frames

/-- C2, counterexample. At rate 30, a call of `tick` that starts with the Tick
Flag false (frame counter 0, state MENU, empty queue) enters the switch with
the Tick Flag false and leaves it false: the flag is not recomputed to true. -/
theorem tick_flag_other_rate_stale :
    (cfg0 30 false).fps ≠ 60 ∧ (cfg0 30 false).fps ≠ 120 ∧
    (tick_begin (latch true) (cfg0 30 false) [] (ctx0 .STATE_MENU 0 false false)).tick_frame
      = false ∧
    (tick (latch true) (cfg0 30 false) [] (ctx0 .STATE_MENU 0 false false)).tick_frame
      = false := by
  decide

theorem ticks_tick_frame_other_rate {W : Type} (K : Collab W) (cfg : Config)
    (h60 : cfg.fps ≠ 60) (h120 : cfg.fps ≠ 120) (queues : List (List Event)) (c : Ctx W)
    (h : c.tick_frame = true) : (ticks K cfg queues c).tick_frame = true := by
  induction queues generalizing c with
  | nil => exact h
  | cons evs rest ih =>
    apply ih
    rw [tick_tick_frame, tick_begin_tick_frame]
    simp [h60, h120, h]

/-- C2, amended. For every configured rate other than 60 and 120 `tick` does
not assign the Tick Flag before the switch: the flag with which the frame
enters the switch is the prior flag.  Hence a frame that starts with the flag
true is a tick frame and leaves it true, and after any number of frames of a
run that started with the flag true the next frame is again a tick frame. -/
theorem tick_flag_other_rate_kept {W : Type} (K : Collab W) (cfg : Config) (evs : List Event)
    (c : Ctx W) (h60 : cfg.fps ≠ 60) (h120 : cfg.fps ≠ 120) :
    (tick_begin K cfg evs c).tick_frame = c.tick_frame ∧
    (c.tick_frame = true → (tick K cfg evs c).tick_frame = true) ∧
    (c.tick_frame = true → ∀ queues : List (List Event),
      (tick_begin K cfg evs (ticks K cfg queues c)).tick_frame = true) := by
  have hb : ∀ c : Ctx W, (tick_begin K cfg evs c).tick_frame = c.tick_frame := by
    intro c
    rw [tick_begin_tick_frame]
    simp [h60, h120]
  refine ⟨hb c, ?_, ?_⟩
  · intro h
    rw [tick_tick_frame, hb, h]
    simp
  · intro h queues
    rw [hb]
    exact ticks_tick_frame_other_rate K cfg h60 h120 queues c h

theorem tick_flag_other_rate_kept_witness :
    (cfg0 30 false).fps ≠ 60 ∧ (cfg0 30 false).fps ≠ 120 ∧
    (tick_begin (latch true) (cfg0 30 false) [] (ctx0 .STATE_GAME 0 true false)).tick_frame
      = (ctx0 .STATE_GAME 0 true false).tick_frame :=
  ⟨by decide, by decide,
    (tick_flag_other_rate_kept (latch true) (cfg0 30 false) [] (ctx0 .STATE_GAME 0 true false)
      (by decide) (by decide)).1⟩

/-- C3, counterexample. With the same Frame Counter 1 and rate 60, a frame
that starts in GAME-INIT leaves the Tick Flag true and a frame that starts in
MENU leaves it false; and with the same Frame Counter and rate 30, two frames
that differ only in the previous Tick Flag use different flags. -/
theorem tick_flag_not_stateless :
    ((ctx0 .STATE_INIT_GAME 1 true false).frame = (ctx0 .STATE_MENU 1 true false).frame ∧
      (tick (latch true) (cfg0 60 false) [] (ctx0 .STATE_INIT_GAME 1 true false)).tick_frame
        = true ∧
      (tick (latch true) (cfg0 60 false) [] (ctx0 .STATE_MENU 1 true false)).tick_frame
        = false) ∧
    ((ctx0 .STATE_MENU 1 true false).frame = (ctx0 .STATE_MENU 1 false false).frame ∧
      (tick_begin (latch true) (cfg0 30 false) [] (ctx0 .STATE_MENU 1 true false)).tick_frame
        = true ∧
      (tick_begin (latch true) (cfg0 30 false) [] (ctx0 .STATE_MENU 1 false false)).tick_frame
        = false) := by
  decide

/-- C3, amended. For two calls of `tick` with the same Frame Counter and the
same rate, whatever the collaborators, states, pause flags and queues: if the
rate is 60 or 120, or else if the previous Tick Flags agree, both frames enter
the switch with the same Tick Flag; the flag left at the end of a frame is that
flag, or true when the frame completes the GAME-INIT branch; so the flags left
agree whenever both frames or neither complete GAME-INIT. -/
theorem tick_flag_determined {W1 W2 : Type} (K1 : Collab W1) (K2 : Collab W2)
    (cfg1 cfg2 : Config) (evs1 evs2 : List Event) (c1 : Ctx W1) (c2 : Ctx W2)
    (hframe : c1.frame = c2.frame) (hrate : cfg1.fps = cfg2.fps)
    (h : cfg1.fps = 60 ∨ cfg1.fps = 120 ∨ c1.tick_frame = c2.tick_frame) :
    (tick_begin K1 cfg1 evs1 c1).tick_frame = (tick_begin K2 cfg2 evs2 c2).tick_frame ∧
    (tick K1 cfg1 evs1 c1).tick_frame =
      (completes_init_game K1 cfg1 evs1 c1 || (tick_begin K1 cfg1 evs1 c1).tick_frame) ∧
    (tick K2 cfg2 evs2 c2).tick_frame =
      (completes_init_game K2 cfg2 evs2 c2 || (tick_begin K2 cfg2 evs2 c2).tick_frame) ∧
    (completes_init_game K1 cfg1 evs1 c1 = completes_init_game K2 cfg2 evs2 c2 →
      (tick K1 cfg1 evs1 c1).tick_frame = (tick K2 cfg2 evs2 c2).tick_frame) := by
  have hb : (tick_begin K1 cfg1 evs1 c1).tick_frame = (tick_begin K2 cfg2 evs2 c2).tick_frame := by
    rw [tick_begin_tick_frame, tick_begin_tick_frame, ← hrate, ← hframe]
    rcases h with h | h | h
    · simp [h]
    · simp [h]
    · rw [h]
  refine ⟨hb, tick_tick_frame K1 cfg1 evs1 c1, tick_tick_frame K2 cfg2 evs2 c2, ?_⟩
  intro hc
  rw [tick_tick_frame, tick_tick_frame, hb, hc]

theorem tick_flag_determined_witness :
    (ctx0 .STATE_GAME 6 true false).frame = (ctx0 .STATE_MENU 6 false true).frame ∧
    (tick_begin (latch true) (cfg0 120 false) [.SDL_KEYDOWN SDLK_F1]
      (ctx0 .STATE_GAME 6 true false)).tick_frame =
    (tick_begin (latch false) (cfg0 120 true) [] (ctx0 .STATE_MENU 6 false true)).tick_frame :=
  ⟨rfl, (tick_flag_determined (latch true) (latch false) (cfg0 120 false) (cfg0 120 true)
    [.SDL_KEYDOWN SDLK_F1] [] (ctx0 .STATE_GAME 6 true false) (ctx0 .STATE_MENU 6 false true)
    rfl rfl (Or.inr (Or.inl rfl))).1⟩

theorem tick_follows_edges_witness :
    Reachable (latch true) (ctx0 .STATE_INIT_GAME 0 true false) ∧
    edge (ctx0 .STATE_INIT_GAME 0 true false).state
      (tick (latch true) (cfg0 60 false) [] (ctx0 .STATE_INIT_GAME 0 true false)).state = true :=
  ⟨Reachable.init_game _ rfl,
    tick_follows_edges (latch true) (cfg0 60 false) [] (ctx0 .STATE_INIT_GAME 0 true false)
      (Reachable.init_game _ rfl)⟩


section game
variable {W : Type} (K : Collab W)

theorem tick_of_game (cfg : Config) (evs : List Event) (c : Ctx W)
    (hs : c.state = .STATE_GAME) (hq : has_quit evs = false) :
    tick K cfg evs c =
      tick_outputs K cfg (tick_game_advance K (tick_game_toggles K (tick_begin K cfg evs c))) := by
  unfold tick
  rw [tick_switch_game]
  rw [tick_begin_state, hq, hs]
  simp

theorem tick_of_init_game (cfg : Config) (evs : List Event) (c : Ctx W)
    (hs : c.state = .STATE_INIT_GAME) (hq : has_quit evs = false) :
    tick K cfg evs c = tick_outputs K cfg (tick_init_game K cfg (tick_begin K cfg evs c)) := by
  unfold tick
  rw [tick_switch_init_game]
  rw [tick_begin_state, hq, hs]
  simp

theorem tick_game_pause_engine (cfg : Config) (evs : List Event) (c : Ctx W)
    (hs : c.state = .STATE_GAME) (hq : has_quit evs = false) :
    (tick K cfg evs c).pause_engine =
      if (tick_begin K cfg evs c).tick_frame = true ∧ pressed K cfg evs c .PAUSE = true then
        !c.pause_engine
      else c.pause_engine := by
  rw [tick_of_game K cfg evs c hs hq, (tick_outputs_fields K cfg _).2.2.2.1,
    (tick_game_advance_fields K _).2.2.1, tick_game_toggles_pause_engine,
    tick_begin_pause_engine]
  rfl

theorem tick_game_freeze_timer (cfg : Config) (evs : List Event) (c : Ctx W)
    (hs : c.state = .STATE_GAME) (hq : has_quit evs = false) :
    (tick K cfg evs c).freeze_timer =
      if (tick_begin K cfg evs c).tick_frame = true ∧ pressed K cfg evs c .TIMER = true then
        !c.freeze_timer
      else c.freeze_timer := by
  rw [tick_of_game K cfg evs c hs hq, (tick_outputs_fields K cfg _).2.2.2.2,
    (tick_game_advance_fields K _).2.2.2.1, tick_game_toggles_freeze_timer,
    tick_begin_freeze_timer]
  rfl

theorem tick_game_state (cfg : Config) (evs : List Event) (c : Ctx W)
    (hs : c.state = .STATE_GAME) (hq : has_quit evs = false) :
    (tick K cfg evs c).state =
      if (tick_begin K cfg evs c).tick_frame = true ∧ pressed K cfg evs c .MENU = true then
        .STATE_INIT_MENU
      else .STATE_GAME := by
  rw [tick_state, tick_switch_state, tick_begin_state, hq, hs]
  rfl

/-- The calls `outrun.tick` of a GAME frame without quit event. -/
theorem tick_game_outrun_ticks (cfg : Config) (evs : List Event) (c : Ctx W)
    (hs : c.state = .STATE_GAME) (hq : has_quit evs = false) :
    outrun_ticks (tick K cfg evs c).log =
      outrun_ticks c.log ++
        (if (tick K cfg evs c).pause_engine = false ∨ pressed K cfg evs c .STEP = true then
          [(tick_begin K cfg evs c).tick_frame]
         else []) := by
  have hp : (tick K cfg evs c).pause_engine =
      (tick_game_toggles K (tick_begin K cfg evs c)).pause_engine := by
    rw [tick_of_game K cfg evs c hs hq, (tick_outputs_fields K cfg _).2.2.2.1,
      (tick_game_advance_fields K _).2.2.1]
  rw [hp, tick_of_game K cfg evs c hs hq, tick_outputs_log, tick_game_advance_log,
    (tick_game_toggles_fields K _).2.2.1, (tick_game_toggles_fields K _).2.1,
    (tick_game_toggles_fields K _).1, tick_begin_log]
  simp only [outrun_ticks_append, handlers_outrun_ticks, pressed]
  by_cases h1 : (tick_game_toggles K (tick_begin K cfg evs c)).pause_engine = false ∨
      K.has_pressed (tick_begin K cfg evs c).world Press.STEP = true <;>
    by_cases h2 : (tick_begin K cfg evs c).tick_frame = true <;>
    by_cases h3 : (tick_game_advance K (tick_game_toggles K (tick_begin K cfg evs c))).tick_frame
      = true <;>
    simp [h1, h2, h3, outrun_ticks]

end game

/-- C5. From GAME-INIT, on a frame whose queue holds no Escape key-down and no
OS quit event: if the Japanese ROMs are required and their load fails, the
state after `tick` is QUIT and `outrun.init` has not been called; otherwise the
state is GAME, the Pause Flag is false, the Tick Flag is true and `outrun.init`
has been called exactly once.  The load is attempted exactly once when the ROMs
are required and not at all otherwise. -/
theorem init_game_frame {W : Type} (K : Collab W) (cfg : Config) (evs : List Event)
    (c : Ctx W) (hs : c.state = .STATE_INIT_GAME) (hq : has_quit evs = false) :
    (cfg.jap = true ∧ K.load_japanese_roms (tick_begin K cfg evs c).world = false →
      (tick K cfg evs c).state = .STATE_QUIT ∧
      (tick K cfg evs c).log.count .outrun_init = c.log.count .outrun_init) ∧
    (¬(cfg.jap = true ∧ K.load_japanese_roms (tick_begin K cfg evs c).world = false) →
      (tick K cfg evs c).state = .STATE_GAME ∧
      (tick K cfg evs c).pause_engine = false ∧
      (tick K cfg evs c).tick_frame = true ∧
      (tick K cfg evs c).log.count .outrun_init = c.log.count .outrun_init + 1) ∧
    (tick K cfg evs c).log.count .load_japanese_roms =
      c.log.count .load_japanese_roms + (if cfg.jap = true then 1 else 0) := by
  have hlog : ∀ k : Call, is_handler k = false → k ≠ .oinputs_tick → k ≠ .oinputs_do_gear →
      k ≠ .writeDigitalToConsole → (∀ b r, k ≠ .set_rumble b r) →
      (tick K cfg evs c).log.count k = c.log.count k +
        ((if cfg.jap = true then [Call.load_japanese_roms] else []) ++
          (if cfg.jap = true ∧ K.load_japanese_roms (tick_begin K cfg evs c).world = false
            then [] else [Call.outrun_init])).count k := by
    intro k hk h1 h2 h3 h4
    rw [tick_of_init_game K cfg evs c hs hq, tick_outputs_log, tick_init_game_log,
      tick_begin_log]
    simp only [List.count_append, handlers_count evs k hk]
    have e1 : (if (tick_begin K cfg evs c).tick_frame = true then
        [Call.oinputs_tick, Call.oinputs_do_gear] else []).count k = 0 := by
      split <;> simp [List.count_cons, Ne.symm h1, Ne.symm h2]
    have e2 : [Call.writeDigitalToConsole].count k = 0 := by
      simp [List.count_cons, Ne.symm h3]
    have e3 : ∀ b r, (if (tick_init_game K cfg (tick_begin K cfg evs c)).tick_frame = true then
        [Call.set_rumble b r] else []).count k = 0 := by
      intro b r
      split <;> simp [List.count_cons, Ne.symm (h4 b r)]
    rw [e1, e2, e3]
    omega
  have hst : (tick K cfg evs c).state =
      if cfg.jap = true ∧ K.load_japanese_roms (tick_begin K cfg evs c).world = false then
        .STATE_QUIT else .STATE_GAME := by
    rw [tick_state, tick_switch_state, tick_begin_state, hq, hs]
    rfl
  have hfl := tick_init_game_fields K cfg (tick_begin K cfg evs c)
  refine ⟨?_, ?_, ?_⟩
  · intro hfail
    refine ⟨by rw [hst, if_pos hfail], ?_⟩
    rw [hlog .outrun_init rfl (by decide) (by decide) (by decide) (by intro b r hbr; cases hbr)]
    simp [hfail]
  · intro hok
    refine ⟨by rw [hst, if_neg hok], ?_, ?_, ?_⟩
    · rw [tick_of_init_game K cfg evs c hs hq, (tick_outputs_fields K cfg _).2.2.2.1, hfl.2.1,
        if_neg hok]
    · rw [tick_of_init_game K cfg evs c hs hq, (tick_outputs_fields K cfg _).2.2.1, hfl.1,
        if_neg hok]
    · rw [hlog .outrun_init rfl (by decide) (by decide) (by decide) (by intro b r hbr; cases hbr)]
      by_cases hj : cfg.jap = true <;>
        by_cases hl : K.load_japanese_roms (tick_begin K cfg evs c).world = false <;>
        simp [hj, hl] at hok ⊢
  · rw [hlog .load_japanese_roms rfl (by decide) (by decide) (by decide) (by intro b r hbr; cases hbr)]
    by_cases hj : cfg.jap = true <;>
      by_cases hl : K.load_japanese_roms (tick_begin K cfg evs c).world = false <;>
      simp [hj, hl]

theorem init_game_frame_witness :
    (ctx0 .STATE_INIT_GAME 0 true true).state = .STATE_INIT_GAME ∧
    has_quit [.SDL_KEYDOWN SDLK_F1] = false ∧
    (tick (latch false) (cfg0 60 true) [.SDL_KEYDOWN SDLK_F1]
      (ctx0 .STATE_INIT_GAME 0 true true)).state = .STATE_QUIT :=
  ⟨rfl, by decide,
    ((init_game_frame (latch false) (cfg0 60 true) [.SDL_KEYDOWN SDLK_F1]
      (ctx0 .STATE_INIT_GAME 0 true true) rfl (by decide)).1 ⟨rfl, rfl⟩).1⟩

/-- C6. From GAME, on a frame without Escape or OS quit event in which the menu
action is reported pressed: if the Tick Flag of the frame is true the state
after `tick` is MENU-INIT; if it is false the state is still GAME and the Pause
Flag and the freeze-timer flag are unchanged. -/
theorem game_menu_request {W : Type} (K : Collab W) (cfg : Config) (evs : List Event)
    (c : Ctx W) (hs : c.state = .STATE_GAME) (hq : has_quit evs = false)
    (hm : pressed K cfg evs c .MENU = true) :
    ((tick_begin K cfg evs c).tick_frame = true →
      (tick K cfg evs c).state = .STATE_INIT_MENU) ∧
    ((tick_begin K cfg evs c).tick_frame = false →
      (tick K cfg evs c).state = .STATE_GAME ∧
      (tick K cfg evs c).pause_engine = c.pause_engine ∧
      (tick K cfg evs c).freeze_timer = c.freeze_timer) := by
  rw [tick_game_state K cfg evs c hs hq, tick_game_pause_engine K cfg evs c hs hq,
    tick_game_freeze_timer K cfg evs c hs hq]
  constructor
  · intro ht
    simp [ht, hm]
  · intro ht
    simp [ht]

theorem game_menu_request_witness :
    (ctx0 .STATE_GAME 1 true false).state = .STATE_GAME ∧
    has_quit [.SDL_KEYDOWN SDLK_F3] = false ∧
    pressed (latch true) (cfg0 60 false) [.SDL_KEYDOWN SDLK_F3] (ctx0 .STATE_GAME 1 true false)
      .MENU = true ∧
    (tick_begin (latch true) (cfg0 60 false) [.SDL_KEYDOWN SDLK_F3]
      (ctx0 .STATE_GAME 1 true false)).tick_frame = false ∧
    (tick (latch true) (cfg0 60 false) [.SDL_KEYDOWN SDLK_F3]
      (ctx0 .STATE_GAME 1 true false)).state = .STATE_GAME :=
  ⟨rfl, by decide, by decide, by decide,
    ((game_menu_request (latch true) (cfg0 60 false) [.SDL_KEYDOWN SDLK_F3]
      (ctx0 .STATE_GAME 1 true false) rfl (by decide) (by decide)).2 (by decide)).1⟩

theorem frozen_frame {W : Type} (K : Collab W) (cfg : Config) (evs : List Event) (c : Ctx W)
    (hs : c.state = .STATE_GAME) (hp : c.pause_engine = true) (hq : has_quit evs = false)
    (hstep : pressed K cfg evs c .STEP = false) (hpause : pressed K cfg evs c .PAUSE = false)
    (hmenu : pressed K cfg evs c .MENU = false) :
    (tick K cfg evs c).state = .STATE_GAME ∧ (tick K cfg evs c).pause_engine = true ∧
    outrun_ticks (tick K cfg evs c).log = outrun_ticks c.log := by
  have h2 : (tick K cfg evs c).pause_engine = true := by
    rw [tick_game_pause_engine K cfg evs c hs hq, hpause, hp]
    simp
  refine ⟨?_, h2, ?_⟩
  · rw [tick_game_state K cfg evs c hs hq, hmenu]
    simp
  · rw [tick_game_outrun_ticks K cfg evs c hs hq, h2, hstep]
    simp

theorem frozen_ticks {W : Type} (K : Collab W) (cfg : Config) (queues : List (List Event))
    (c : Ctx W) (hs : c.state = .STATE_GAME) (hp : c.pause_engine = true)
    (hrun : frozen_run K cfg queues c) :
    (ticks K cfg queues c).state = .STATE_GAME ∧ (ticks K cfg queues c).pause_engine = true ∧
    outrun_ticks (ticks K cfg queues c).log = outrun_ticks c.log := by
  induction queues generalizing c with
  | nil => exact ⟨hs, hp, rfl⟩
  | cons evs rest ih =>
    obtain ⟨hq, hstep, hpause, hmenu, hrest⟩ := hrun
    obtain ⟨h1, h2, h3⟩ := frozen_frame K cfg evs c hs hp hq hstep hpause hmenu
    obtain ⟨g1, g2, g3⟩ := ih (tick K cfg evs c) h1 h2 hrest
    exact ⟨g1, g2, g3.trans h3⟩

/-- C8. In GAME: a pause press observed on a tick frame (no quit event) negates
the Pause Flag; and starting with the Pause Flag true, over any number of
consecutive frames in which no quit event arrives and neither the step, the
pause nor the menu action is reported pressed, `outrun.tick` is not called, the
state stays GAME and the Pause Flag is still true, for every configuration. -/
theorem pause_freezes {W : Type} (K : Collab W) (cfg : Config) (evs : List Event)
    (queues : List (List Event)) (c : Ctx W) (hs : c.state = .STATE_GAME) :
    (has_quit evs = false → (tick_begin K cfg evs c).tick_frame = true →
      pressed K cfg evs c .PAUSE = true →
      (tick K cfg evs c).pause_engine = !c.pause_engine) ∧
    (c.pause_engine = true → frozen_run K cfg queues c →
      (ticks K cfg queues c).state = .STATE_GAME ∧
      (ticks K cfg queues c).pause_engine = true ∧
      outrun_ticks (ticks K cfg queues c).log = outrun_ticks c.log) := by
  constructor
  · intro hq ht hpause
    rw [tick_game_pause_engine K cfg evs c hs hq, ht, hpause]
    simp
  · intro hp hrun
    exact frozen_ticks K cfg queues c hs hp hrun

theorem pause_freezes_witness :
    (ctx0 .STATE_GAME 0 true true).state = .STATE_GAME ∧
    (has_quit [.SDL_KEYDOWN SDLK_F1] = false ∧
      (tick_begin (latch true) (cfg0 60 false) [.SDL_KEYDOWN SDLK_F1]
        (ctx0 .STATE_GAME 0 true true)).tick_frame = true ∧
      pressed (latch true) (cfg0 60 false) [.SDL_KEYDOWN SDLK_F1]
        (ctx0 .STATE_GAME 0 true true) .PAUSE = true ∧
      (tick (latch true) (cfg0 60 false) [.SDL_KEYDOWN SDLK_F1]
        (ctx0 .STATE_GAME 0 true true)).pause_engine = false) ∧
    ((ctx0 .STATE_GAME 0 true true).pause_engine = true ∧
      frozen_run (latch true) (cfg0 60 false) [[], [.SDL_KEYDOWN 97], []]
        (ctx0 .STATE_GAME 0 true true) ∧
      outrun_ticks (ticks (latch true) (cfg0 60 false) [[], [.SDL_KEYDOWN 97], []]
        (ctx0 .STATE_GAME 0 true true)).log = outrun_ticks (ctx0 .STATE_GAME 0 true true).log) :=
  ⟨rfl,
    ⟨by decide, by decide, by decide,
      (pause_freezes (latch true) (cfg0 60 false) [.SDL_KEYDOWN SDLK_F1]
        [[], [.SDL_KEYDOWN 97], []] (ctx0 .STATE_GAME 0 true true) rfl).1
        (by decide) (by decide) (by decide)⟩,
    ⟨rfl, by simp only [frozen_run]; decide,
      ((pause_freezes (latch true) (cfg0 60 false) [.SDL_KEYDOWN SDLK_F1]
        [[], [.SDL_KEYDOWN 97], []] (ctx0 .STATE_GAME 0 true true) rfl).2 rfl
        (by simp only [frozen_run]; decide)).2.2⟩⟩

section stepping
variable {W : Type} (K : Collab W)

theorem pressed_empty (hK : Latching K) (cfg : Config) (c : Ctx W) (p : Press) :
    pressed K cfg [] c p = K.has_pressed c.world p := by
  unfold pressed tick_begin tick_controls process_events
  simp only [List.foldl_nil]
  split
  · simp only [perform_world]
    rw [hK.keep .oinputs_do_gear _ _ rfl (by decide), hK.keep .oinputs_tick _ _ rfl (by decide)]
    rfl
  · rfl

theorem tick_game_advance_pressed (hK : Latching K) (c : Ctx W) (p : Press) :
    K.has_pressed (tick_game_advance K c).world p =
      if c.tick_frame = true then false else K.has_pressed c.world p := by
  by_cases hp : c.pause_engine = true <;> by_cases hs : K.has_pressed c.world .STEP = true <;>
    by_cases ht : c.tick_frame = true <;>
    simp [tick_game_advance, hp, hs, ht, hK.done, hK.keep _ _ _ (rfl : is_handler .osoundint_tick = false)
      (by decide), hK.keep _ _ _ (rfl : is_handler (.outrun_tick _) = false) (by simp)]

theorem tick_outputs_pressed (hK : Latching K) (cfg : Config) (c : Ctx W) (p : Press) :
    K.has_pressed (tick_outputs K cfg c).world p = K.has_pressed c.world p := by
  by_cases ht : c.tick_frame = true <;>
    simp [tick_outputs, ht, hK.keep _ _ _ (rfl : is_handler .writeDigitalToConsole = false)
      (by decide), hK.keep _ _ _ (rfl : is_handler (.set_rumble _ _) = false) (by simp)]

theorem tick_game_pressed (hK : Latching K) (cfg : Config) (evs : List Event) (c : Ctx W)
    (hs : c.state = .STATE_GAME) (hq : has_quit evs = false) (p : Press) :
    K.has_pressed (tick K cfg evs c).world p =
      if (tick_begin K cfg evs c).tick_frame = true then false else pressed K cfg evs c p := by
  rw [tick_of_game K cfg evs c hs hq, tick_outputs_pressed K hK, tick_game_advance_pressed K hK,
    (tick_game_toggles_fields K _).1, (tick_game_toggles_fields K _).2.1]
  rfl

theorem step_nontick (hK : Latching K) (cfg : Config) (evs : List Event) (c : Ctx W)
    (hs : c.state = .STATE_GAME) (hp : c.pause_engine = true) (hq : has_quit evs = false)
    (ht : (tick_begin K cfg evs c).tick_frame = false)
    (hstep : pressed K cfg evs c .STEP = true) :
    (tick K cfg evs c).state = .STATE_GAME ∧ (tick K cfg evs c).pause_engine = true ∧
    (tick K cfg evs c).frame = wrap32 (c.frame + 1) ∧
    outrun_ticks (tick K cfg evs c).log = outrun_ticks c.log ++ [false] ∧
    (∀ p, pressed K cfg [] (tick K cfg evs c) p = pressed K cfg evs c p) := by
  refine ⟨?_, ?_, tick_frame_eq K cfg evs c, ?_, ?_⟩
  · rw [tick_game_state K cfg evs c hs hq, ht]
    simp
  · rw [tick_game_pause_engine K cfg evs c hs hq, ht, hp]
    simp
  · rw [tick_game_outrun_ticks K cfg evs c hs hq, hstep, ht]
    simp
  · intro p
    rw [pressed_empty K hK, tick_game_pressed K hK cfg evs c hs hq, ht]
    simp

theorem step_tick (hK : Latching K) (cfg : Config) (evs : List Event) (c : Ctx W)
    (hs : c.state = .STATE_GAME) (hp : c.pause_engine = true) (hq : has_quit evs = false)
    (ht : (tick_begin K cfg evs c).tick_frame = true)
    (hstep : pressed K cfg evs c .STEP = true) (hpause : pressed K cfg evs c .PAUSE = false)
    (hmenu : pressed K cfg evs c .MENU = false) :
    (tick K cfg evs c).state = .STATE_GAME ∧ (tick K cfg evs c).pause_engine = true ∧
    outrun_ticks (tick K cfg evs c).log = outrun_ticks c.log ++ [true] ∧
    outrun_ticks (tick K cfg [] (tick K cfg evs c)).log =
      outrun_ticks (tick K cfg evs c).log := by
  have h1 : (tick K cfg evs c).state = .STATE_GAME := by
    rw [tick_game_state K cfg evs c hs hq, hmenu]
    simp
  have h2 : (tick K cfg evs c).pause_engine = true := by
    rw [tick_game_pause_engine K cfg evs c hs hq, hpause, hp]
    simp
  have h3 : ∀ p, pressed K cfg [] (tick K cfg evs c) p = false := by
    intro p
    rw [pressed_empty K hK, tick_game_pressed K hK cfg evs c hs hq, ht]
    simp
  refine ⟨h1, h2, ?_, ?_⟩
  · rw [tick_game_outrun_ticks K cfg evs c hs hq, hstep, ht]
    simp
  · exact (frozen_frame K cfg [] _ h1 h2 rfl (h3 _) (h3 _) (h3 _)).2.2

end stepping

theorem tick_begin_flag_60 {W : Type} (K : Collab W) (cfg : Config) (evs : List Event)
    (c : Ctx W) (h : cfg.fps = 60) :
    (tick_begin K cfg evs c).tick_frame = decide (wrap32 (c.frame + 1) % 2 = 1) := by
  rw [tick_begin_tick_frame, land_one, if_pos h]
  have : wrap32 (c.frame + 1) % 2 = 0 ∨ wrap32 (c.frame + 1) % 2 = 1 := by omega
  rcases this with h0 | h1
  · simp [h0]
  · simp [h1]

theorem tick_begin_flag_120 {W : Type} (K : Collab W) (cfg : Config) (evs : List Event)
    (c : Ctx W) (h : cfg.fps = 120) :
    (tick_begin K cfg evs c).tick_frame = decide (wrap32 (c.frame + 1) % 4 = 1) := by
  rw [tick_begin_tick_frame, land_three, if_neg (by omega), if_pos h]

theorem step_run {W : Type} (K : Collab W) (hK : Latching K) (cfg : Config) (m : Nat) :
    ∀ (evs : List Event) (c : Ctx W), c.state = .STATE_GAME → c.pause_engine = true →
      has_quit evs = false → pressed K cfg evs c .STEP = true →
      pressed K cfg evs c .PAUSE = false → pressed K cfg evs c .MENU = false →
      tick_flags K cfg (evs :: List.replicate m []) c = List.replicate m false ++ [true] →
      outrun_ticks (ticks K cfg (evs :: List.replicate m []) c).log =
        outrun_ticks c.log ++ List.replicate m false ++ [true] ∧
      (ticks K cfg (evs :: List.replicate m []) c).pause_engine = true ∧
      (ticks K cfg (evs :: List.replicate m []) c).state = .STATE_GAME ∧
      outrun_ticks (tick K cfg [] (ticks K cfg (evs :: List.replicate m []) c)).log =
        outrun_ticks (ticks K cfg (evs :: List.replicate m []) c).log := by
  induction m with
  | zero =>
    intro evs c hs hp hq hstep hpause hmenu hflags
    simp only [List.replicate_zero, tick_flags, List.nil_append, List.cons.injEq, and_true]
      at hflags
    obtain ⟨a1, a2, a3, a4⟩ := step_tick K hK cfg evs c hs hp hq hflags hstep hpause hmenu
    simp only [List.replicate_zero, ticks, List.append_nil]
    exact ⟨a3, a2, a1, a4⟩
  | succ m ih =>
    intro evs c hs hp hq hstep hpause hmenu hflags
    simp only [List.replicate_succ, tick_flags, List.cons_append, List.cons.injEq] at hflags
    obtain ⟨hf, hrest⟩ := hflags
    obtain ⟨a1, a2, _, a4, a5⟩ := step_nontick K hK cfg evs c hs hp hq hf hstep
    obtain ⟨b1, b2, b3, b4⟩ := ih [] (tick K cfg evs c) a1 a2 rfl ((a5 _).trans hstep)
      ((a5 _).trans hpause) ((a5 _).trans hmenu) hrest
    simp only [List.replicate_succ, ticks] at b1 b2 b3 b4 ⊢
    refine ⟨?_, b2, b3, b4⟩
    rw [b1, a4]
    simp

/-- C9, counterexample. At rate 60, paused in GAME with Frame Counter 1, a step
press (F2) arrives on the frame with counter 2, which is not a tick frame:
`outrun.tick` is called on that frame and again on the next frame, which has no
new press, so it is called twice in total. -/
theorem step_press_off_tick_frame :
    (ctx0 .STATE_GAME 1 true true).pause_engine = true ∧
    outrun_ticks (tick (latch true) (cfg0 60 false) [.SDL_KEYDOWN SDLK_F2]
      (ctx0 .STATE_GAME 1 true true)).log = [false] ∧
    outrun_ticks (ticks (latch true) (cfg0 60 false) [[.SDL_KEYDOWN SDLK_F2], []]
      (ctx0 .STATE_GAME 1 true true)).log = [false, true] ∧
    outrun_ticks (ticks (latch true) (cfg0 60 false) [[.SDL_KEYDOWN SDLK_F2], [], [], []]
      (ctx0 .STATE_GAME 1 true true)).log = [false, true] := by
  decide

/-- C9, amended. In GAME with the Pause Flag true, at rate 60, rate 120, or any
other rate with the Tick Flag true, with an input collaborator whose reports
are kept until `frame_done` and cleared by it: when a step press (and no pause
or menu press, and no quit event) arrives on a frame, `outrun.tick` is called
on that frame and on each following frame up to and including the first tick
frame, with argument false on the frames before the tick frame and true on the
tick frame, so exactly once with the Tick Flag true; the number of these frames
is `frames_to_tick`, at least 1, at most 2 at rate 60, at most 4 at rate 120,
and 1 at any other rate.  The Pause Flag stays true, the state stays GAME, and
on the frame after the tick frame, without new events, `outrun.tick` is not
called. -/
theorem step_while_paused {W : Type} (K : Collab W) (hK : Latching K) (cfg : Config)
    (evs : List Event) (c : Ctx W)
    (hs : c.state = .STATE_GAME) (hp : c.pause_engine = true) (hq : has_quit evs = false)
    (hstep : pressed K cfg evs c .STEP = true) (hpause : pressed K cfg evs c .PAUSE = false)
    (hmenu : pressed K cfg evs c .MENU = false)
    (hrate : cfg.fps = 60 ∨ cfg.fps = 120 ∨ c.tick_frame = true) :
    tick_flags K cfg (evs :: List.replicate (frames_to_tick cfg.fps c.frame - 1) []) c =
      List.replicate (frames_to_tick cfg.fps c.frame - 1) false ++ [true] ∧
    outrun_ticks (ticks K cfg (evs :: List.replicate (frames_to_tick cfg.fps c.frame - 1) [])
        c).log =
      outrun_ticks c.log ++ List.replicate (frames_to_tick cfg.fps c.frame - 1) false ++ [true] ∧
    (ticks K cfg (evs :: List.replicate (frames_to_tick cfg.fps c.frame - 1) []) c).pause_engine
      = true ∧
    (ticks K cfg (evs :: List.replicate (frames_to_tick cfg.fps c.frame - 1) []) c).state
      = .STATE_GAME ∧
    outrun_ticks (tick K cfg []
        (ticks K cfg (evs :: List.replicate (frames_to_tick cfg.fps c.frame - 1) []) c)).log =
      outrun_ticks
        (ticks K cfg (evs :: List.replicate (frames_to_tick cfg.fps c.frame - 1) []) c).log ∧
    1 ≤ frames_to_tick cfg.fps c.frame ∧
    frames_to_tick cfg.fps c.frame ≤ (if cfg.fps = 60 then 2 else if cfg.fps = 120 then 4 else 1)
    := by
  have key : ∀ m : Nat, frames_to_tick cfg.fps c.frame = m + 1 →
      tick_flags K cfg (evs :: List.replicate m []) c = List.replicate m false ++ [true] →
      tick_flags K cfg (evs :: List.replicate (frames_to_tick cfg.fps c.frame - 1) []) c =
        List.replicate (frames_to_tick cfg.fps c.frame - 1) false ++ [true] ∧
      outrun_ticks (ticks K cfg (evs :: List.replicate (frames_to_tick cfg.fps c.frame - 1) [])
          c).log =
        outrun_ticks c.log ++ List.replicate (frames_to_tick cfg.fps c.frame - 1) false ++
          [true] ∧
      (ticks K cfg (evs :: List.replicate (frames_to_tick cfg.fps c.frame - 1) [])
        c).pause_engine = true ∧
      (ticks K cfg (evs :: List.replicate (frames_to_tick cfg.fps c.frame - 1) []) c).state
        = .STATE_GAME ∧
      outrun_ticks (tick K cfg []
          (ticks K cfg (evs :: List.replicate (frames_to_tick cfg.fps c.frame - 1) []) c)).log =
        outrun_ticks
          (ticks K cfg (evs :: List.replicate (frames_to_tick cfg.fps c.frame - 1) []) c).log := by
    intro m hn hflags
    rw [hn, Nat.add_sub_cancel]
    exact ⟨hflags, step_run K hK cfg m evs c hs hp hq hstep hpause hmenu hflags⟩
  have hbound : 1 ≤ frames_to_tick cfg.fps c.frame ∧
      frames_to_tick cfg.fps c.frame ≤
        (if cfg.fps = 60 then 2 else if cfg.fps = 120 then 4 else 1) := by
    unfold frames_to_tick
    by_cases h60 : cfg.fps = 60
    · simp only [h60, if_true]
      split <;> omega
    · by_cases h120 : cfg.fps = 120
      · simp only [h120]
        norm_num
        omega
      · simp [h60, h120]
  suffices hmain : ∃ m : Nat, frames_to_tick cfg.fps c.frame = m + 1 ∧
      tick_flags K cfg (evs :: List.replicate m []) c = List.replicate m false ++ [true] by
    obtain ⟨m, hn, hflags⟩ := hmain
    obtain ⟨k0, k1, k2, k3, k4⟩ := key m hn hflags
    exact ⟨k0, k1, k2, k3, k4, hbound.1, hbound.2⟩
  by_cases h60 : cfg.fps = 60
  · have hpar : wrap32 (c.frame + 1) % 2 = 0 ∨ wrap32 (c.frame + 1) % 2 = 1 := by omega
    rcases hpar with h0 | h1
    · refine ⟨1, by simp [frames_to_tick, h60, h0], ?_⟩
      have e1 : wrap32 (wrap32 (c.frame + 1) + 1) % 2 = 1 := by
        unfold wrap32 at h0 ⊢
        omega
      simp [tick_flags, tick_begin_flag_60 K cfg _ _ h60, tick_frame_eq, h0, e1]
    · refine ⟨0, by simp [frames_to_tick, h60, h1], ?_⟩
      simp [tick_flags, tick_begin_flag_60 K cfg _ _ h60, h1]
  · by_cases h120 : cfg.fps = 120
    · have hpar : wrap32 (c.frame + 1) % 4 = 0 ∨ wrap32 (c.frame + 1) % 4 = 1 ∨
          wrap32 (c.frame + 1) % 4 = 2 ∨ wrap32 (c.frame + 1) % 4 = 3 := by omega
      have hfr : frames_to_tick cfg.fps c.frame = ((1 - wrap32 (c.frame + 1)) % 4).toNat + 1 := by
        simp [frames_to_tick, h120]
      rcases hpar with h0 | h1 | h2 | h3
      · refine ⟨1, by rw [hfr]; omega, ?_⟩
        have e1 : wrap32 (wrap32 (c.frame + 1) + 1) % 4 = 1 := by
          unfold wrap32 at h0 ⊢
          omega
        simp [tick_flags, tick_begin_flag_120 K cfg _ _ h120, tick_frame_eq, h0, e1]
      · refine ⟨0, by rw [hfr]; omega, ?_⟩
        simp [tick_flags, tick_begin_flag_120 K cfg _ _ h120, h1]
      · refine ⟨3, by rw [hfr]; omega, ?_⟩
        have e1 : wrap32 (wrap32 (c.frame + 1) + 1) % 4 = 3 := by
          unfold wrap32 at h2 ⊢
          omega
        have e2 : wrap32 (wrap32 (wrap32 (c.frame + 1) + 1) + 1) % 4 = 0 := by
          unfold wrap32 at e1 ⊢
          omega
        have e3 : wrap32 (wrap32 (wrap32 (wrap32 (c.frame + 1) + 1) + 1) + 1) % 4 = 1 := by
          unfold wrap32 at e2 ⊢
          omega
        simp [tick_flags, List.replicate, tick_begin_flag_120 K cfg _ _ h120, tick_frame_eq, h2,
          e1, e2, e3]
      · refine ⟨2, by rw [hfr]; omega, ?_⟩
        have e1 : wrap32 (wrap32 (c.frame + 1) + 1) % 4 = 0 := by
          unfold wrap32 at h3 ⊢
          omega
        have e2 : wrap32 (wrap32 (wrap32 (c.frame + 1) + 1) + 1) % 4 = 1 := by
          unfold wrap32 at e1 ⊢
          omega
        simp [tick_flags, List.replicate, tick_begin_flag_120 K cfg _ _ h120, tick_frame_eq, h3,
          e1, e2]
    · have ht : c.tick_frame = true := by
        rcases hrate with h | h | h
        · exact absurd h h60
        · exact absurd h h120
        · exact h
      refine ⟨0, by simp [frames_to_tick, h60, h120], ?_⟩
      simp [tick_flags, tick_begin_tick_frame, h60, h120, ht]

theorem latch_latching (roms_ok : Bool) : Latching (latch roms_ok) where
  keep := by
    intro k w p hk hd
    have : Latch.call k w = w := by
      cases k <;> first | rfl | exact absurd rfl hd | exact absurd hk (by simp [is_handler])
    show Latch.has_pressed (Latch.call k w) p = Latch.has_pressed w p
    rw [this]
  done := by
    intro w p
    show Latch.has_pressed (Latch.call .frame_done w) p = false
    simp [Latch.has_pressed, Latch.call]

theorem step_while_paused_witness :
    Latching (latch true) ∧
    (ctx0 .STATE_GAME 1 true true).state = .STATE_GAME ∧
    (ctx0 .STATE_GAME 1 true true).pause_engine = true ∧
    has_quit [.SDL_KEYDOWN SDLK_F2] = false ∧
    pressed (latch true) (cfg0 120 false) [.SDL_KEYDOWN SDLK_F2] (ctx0 .STATE_GAME 1 true true)
      .STEP = true ∧
    frames_to_tick (cfg0 120 false).fps (ctx0 .STATE_GAME 1 true true).frame = 4 ∧
    outrun_ticks (ticks (latch true) (cfg0 120 false)
      ([.SDL_KEYDOWN SDLK_F2] :: List.replicate
        (frames_to_tick (cfg0 120 false).fps (ctx0 .STATE_GAME 1 true true).frame - 1) [])
      (ctx0 .STATE_GAME 1 true true)).log =
      outrun_ticks (ctx0 .STATE_GAME 1 true true).log ++ List.replicate
        (frames_to_tick (cfg0 120 false).fps (ctx0 .STATE_GAME 1 true true).frame - 1) false ++
        [true] :=
  ⟨latch_latching true, rfl, rfl, by decide, by decide, by decide,
    (step_while_paused (latch true) (latch_latching true) (cfg0 120 false)
      [.SDL_KEYDOWN SDLK_F2] (ctx0 .STATE_GAME 1 true true) rfl rfl (by decide) (by decide)
      (by decide) (by decide) (Or.inr (Or.inl rfl))).2.1⟩

section loop
variable {W : Type} (K : Collab W)

theorem to_int_of_nonneg (x : ℚ) (h : 0 ≤ x) : to_int x = ⌊x⌋ := by
  unfold to_int
  rw [Rat.floor_def, Int.tdiv_eq_ediv (Rat.num_nonneg.2 h) (Int.ofNat_nonneg _)]

theorem tick_controls_frame_ms (c : Ctx W) : (tick_controls K c).frame_ms = c.frame_ms := by
  unfold tick_controls
  split <;> rfl

theorem tick_switch_frame_ms (cfg : Config) (c : Ctx W) :
    (tick_switch K cfg c).frame_ms = c.frame_ms := by
  cases hs : c.state
  case STATE_INIT_GAME =>
    rw [tick_switch_init_game K cfg c hs]
    by_cases hj : cfg.jap = true <;> by_cases hl : K.load_japanese_roms c.world = true <;>
      simp [tick_init_game, hj, hl]
  case STATE_GAME =>
    rw [tick_switch_game K cfg c hs]
    by_cases hp : (tick_game_toggles K c).pause_engine = true <;>
      by_cases hst : K.has_pressed (tick_game_toggles K c).world .STEP = true <;>
      by_cases ht : (tick_game_toggles K c).tick_frame = true <;>
      simp [tick_game_advance, hp, hst, ht] <;>
      (by_cases ht : c.tick_frame = true <;>
        by_cases h1 : K.has_pressed c.world .TIMER = true <;>
        by_cases h2 : K.has_pressed c.world .PAUSE = true <;>
        by_cases h3 : K.has_pressed c.world .MENU = true <;>
        simp [tick_game_toggles, ht, h1, h2, h3])
  all_goals simp [tick_switch, hs]

theorem tick_frame_ms (cfg : Config) (evs : List Event) (c : Ctx W) :
    (tick K cfg evs c).frame_ms = c.frame_ms := by
  have h1 : ∀ c : Ctx W, (tick_outputs K cfg c).frame_ms = c.frame_ms := by
    intro c
    by_cases ht : c.tick_frame = true <;> simp [tick_outputs, ht]
  unfold tick tick_begin
  rw [h1, tick_switch_frame_ms, tick_controls_frame_ms, (process_events_flags K _ _).2.2.2.2]
  rfl

theorem tick_switch_quiet (cfg : Config) (c : Ctx W) :
    slept (tick_switch K cfg c).log = slept c.log ∧
    iterations (tick_switch K cfg c).log = iterations c.log := by
  cases hs : c.state
  case STATE_INIT_GAME =>
    rw [tick_switch_init_game K cfg c hs, tick_init_game_log]
    by_cases hj : cfg.jap = true <;> by_cases hl : K.load_japanese_roms c.world = true <;>
      simp [hj, hl, slept_append, iterations_append, slept, iterations]
  case STATE_GAME =>
    rw [tick_switch_game K cfg c hs, tick_game_advance_log, (tick_game_toggles_fields K c).2.2.1]
    by_cases hp : (tick_game_toggles K c).pause_engine = true <;>
      by_cases hst : K.has_pressed (tick_game_toggles K c).world .STEP = true <;>
      by_cases ht : (tick_game_toggles K c).tick_frame = true <;>
      simp [hp, hst, ht, slept_append, iterations_append, slept, iterations]
  all_goals simp [tick_switch, hs, slept_append, iterations_append, slept, iterations]

theorem tick_quiet (cfg : Config) (evs : List Event) (c : Ctx W) :
    slept (tick K cfg evs c).log = slept c.log ∧
    iterations (tick K cfg evs c).log = iterations c.log := by
  unfold tick
  rw [tick_outputs_log, slept_append, slept_append, iterations_append, iterations_append,
    (tick_switch_quiet K cfg _).1, (tick_switch_quiet K cfg _).2, tick_begin_log,
    slept_append, slept_append, iterations_append, iterations_append, handlers_slept]
  have hc : iterations (evs.filterMap handler_call) = 0 := handlers_count evs _ rfl
  rw [hc]
  by_cases h1 : (tick_switch K cfg (tick_begin K cfg evs c)).tick_frame = true <;>
    by_cases h2 : (tick_begin K cfg evs c).tick_frame = true <;>
    simp [h1, h2, slept, iterations]

end loop

section pacing
variable {W : Type} (K : Collab W)

theorem main_loop_pacing_step (l : Loop W) (hv : l.vsync = false)
    (hadj : ∀ w, K.adjust_speed w = 1) (ht : ∀ w, K.get_ticks w .frame_time = 0)
    (hd : 0 ≤ l.ctx.frame_ms) (h0 : 0 ≤ l.deltatime) :
    (main_loop_pacing K l).vsync = false ∧
    (main_loop_pacing K l).ctx.frame_ms = l.ctx.frame_ms ∧
    (main_loop_pacing K l).ctx.state = l.ctx.state ∧
    iterations (main_loop_pacing K l).ctx.log = iterations l.ctx.log ∧
    (slept (main_loop_pacing K l).ctx.log : ℚ) + (main_loop_pacing K l).deltatime =
      slept l.ctx.log + l.deltatime + l.ctx.frame_ms ∧
    0 ≤ (main_loop_pacing K l).deltatime ∧ (main_loop_pacing K l).deltatime < 1 := by
  have ha : 0 ≤ l.deltatime + l.ctx.frame_ms := add_nonneg h0 hd
  have hfl : (0 : Int) ≤ ⌊l.deltatime + l.ctx.frame_ms⌋ := Int.floor_nonneg.2 ha
  unfold main_loop_pacing
  simp only [hv, hadj, ht, Bool.not_false, if_true, mul_one, Int.cast_zero, sub_zero,
    to_int_of_nonneg _ ha]
  refine ⟨trivial, ?_, ?_, ?_, ?_, ?_, ?_⟩
  · split <;> rfl
  · split <;> rfl
  · split
    · simp [iterations]
    · rfl
  · split
    · rename_i hpos
      simp only [perform_log, slept_append, slept, to_Uint32, to_int_of_nonneg _ ha]
      have hc : ((⌊l.deltatime + l.ctx.frame_ms⌋.toNat : Nat) : ℚ) =
          ((⌊l.deltatime + l.ctx.frame_ms⌋ : Int) : ℚ) := by
        have := Int.toNat_of_nonneg hfl
        exact_mod_cast this
      push_cast
      rw [hc]
      ring
    · rename_i hpos
      have hz : l.deltatime + l.ctx.frame_ms = 0 := le_antisymm (not_lt.1 hpos) ha
      rw [hz]
      simp only [Int.floor_zero, Int.cast_zero, sub_zero, add_zero]
      linarith
  · exact sub_nonneg.2 (Int.floor_le _)
  · have := Int.lt_floor_add_one (l.deltatime + l.ctx.frame_ms)
    linarith

theorem main_loop_fps_fields (cfg : Config) (l : Loop W) :
    (main_loop_fps K cfg l).vsync = l.vsync ∧
    (main_loop_fps K cfg l).deltatime = l.deltatime ∧
    (main_loop_fps K cfg l).ctx.frame_ms = l.ctx.frame_ms ∧
    (main_loop_fps K cfg l).ctx.state = l.ctx.state ∧
    iterations (main_loop_fps K cfg l).ctx.log = iterations l.ctx.log ∧
    slept (main_loop_fps K cfg l).ctx.log = slept l.ctx.log := by
  unfold main_loop_fps
  by_cases hc : cfg.fps_count = true <;>
    by_cases h1 : 1000 ≤ K.get_ticks l.ctx.world .fps_count <;>
    simp [hc, h1, iterations, slept_append, slept]

theorem main_loop_body_step (cfg : Config) (evs : List Event) (l : Loop W)
    (hv : l.vsync = false) (hadj : ∀ w, K.adjust_speed w = 1)
    (ht : ∀ w, K.get_ticks w .frame_time = 0) (hd : 0 ≤ l.ctx.frame_ms)
    (h0 : 0 ≤ l.deltatime) :
    (main_loop_body K cfg evs l).vsync = false ∧
    (main_loop_body K cfg evs l).ctx.frame_ms = l.ctx.frame_ms ∧
    iterations (main_loop_body K cfg evs l).ctx.log = iterations l.ctx.log + 1 ∧
    (slept (main_loop_body K cfg evs l).ctx.log : ℚ) + (main_loop_body K cfg evs l).deltatime =
      slept l.ctx.log + l.deltatime + l.ctx.frame_ms ∧
    0 ≤ (main_loop_body K cfg evs l).deltatime ∧ (main_loop_body K cfg evs l).deltatime < 1 := by
  unfold main_loop_body
  simp only []
  have hms : (perform K .audio_tick (perform K .render_frame (perform K .prepare_frame
      (tick K cfg evs (perform K (.timer_start .frame_time) l.ctx))))).frame_ms =
      l.ctx.frame_ms := by
    simp [tick_frame_ms]
  have hq := tick_quiet K cfg evs (perform K (.timer_start .frame_time) l.ctx)
  have hsl : slept (perform K .audio_tick (perform K .render_frame (perform K .prepare_frame
      (tick K cfg evs (perform K (.timer_start .frame_time) l.ctx))))).log = slept l.ctx.log := by
    simp [slept_append, slept, hq.1]
  have hit : iterations (perform K .audio_tick (perform K .render_frame
      (perform K .prepare_frame (tick K cfg evs
        (perform K (.timer_start .frame_time) l.ctx))))).log = iterations l.ctx.log + 1 := by
    simp only [perform_log, iterations_append, hq.2]
    simp [iterations]
  obtain ⟨f1, f2, f3, _, f5, f6⟩ := main_loop_fps_fields K cfg (main_loop_pacing K
    { l with ctx := perform K .audio_tick (perform K .render_frame (perform K .prepare_frame
      (tick K cfg evs (perform K (.timer_start .frame_time) l.ctx)))) })
  obtain ⟨p1, p2, _, p4, p5, p6, p7⟩ := main_loop_pacing_step K
    { l with ctx := perform K .audio_tick (perform K .render_frame (perform K .prepare_frame
      (tick K cfg evs (perform K (.timer_start .frame_time) l.ctx)))) } hv hadj ht
    (by rw [hms]; exact hd) h0
  rw [f1, f2, f3, f5, f6]
  refine ⟨p1, p2.trans hms, p4.trans hit, ?_, p6, p7⟩
  rw [p5, hsl, hms]

theorem main_loop_while_invariant (cfg : Config) (queues : List (List Event)) :
    ∀ (l : Loop W), l.vsync = false → (∀ w, K.adjust_speed w = 1) →
      (∀ w, K.get_ticks w .frame_time = 0) → 0 ≤ l.ctx.frame_ms → 0 ≤ l.deltatime →
      l.deltatime < 1 →
      ((slept (main_loop_while K cfg queues l).ctx.log : ℚ) - slept l.ctx.log) +
          (main_loop_while K cfg queues l).deltatime - l.deltatime =
        ((iterations (main_loop_while K cfg queues l).ctx.log : ℚ) - iterations l.ctx.log) *
          l.ctx.frame_ms ∧
      0 ≤ (main_loop_while K cfg queues l).deltatime ∧
      (main_loop_while K cfg queues l).deltatime < 1 := by
  induction queues with
  | nil =>
    intro l _ _ _ _ h0 h1
    simp [main_loop_while, h0, h1]
  | cons evs rest ih =>
    intro l hv hadj ht hd h0 h1
    unfold main_loop_while
    split
    · simp [h0, h1]
    · obtain ⟨b1, b2, b3, b4, b5, b6⟩ := main_loop_body_step K cfg evs l hv hadj ht hd h0
      obtain ⟨i1, i2, i3⟩ := ih (main_loop_body K cfg evs l) b1 hadj ht (by rw [b2]; exact hd)
        b5 b6
      refine ⟨?_, i2, i3⟩
      rw [b2, b3] at i1
      push_cast at i1
      linarith

end pacing

section running
variable {W : Type} (K : Collab W)

theorem main_loop_pacing_fields (l : Loop W) :
    (main_loop_pacing K l).ctx.state = l.ctx.state ∧
    iterations (main_loop_pacing K l).ctx.log = iterations l.ctx.log := by
  unfold main_loop_pacing
  by_cases hv : l.vsync = true
  · simp [hv]
  · simp only [hv]
    constructor
    · simp only [Bool.not_false, if_true]
      split <;> rfl
    · simp only [Bool.not_false, if_true]
      split
      · simp [iterations]
      · rfl

theorem main_loop_body_fields (cfg : Config) (evs : List Event) (l : Loop W) :
    (main_loop_body K cfg evs l).ctx.state =
      (tick K cfg evs (perform K (.timer_start .frame_time) l.ctx)).state ∧
    iterations (main_loop_body K cfg evs l).ctx.log = iterations l.ctx.log + 1 := by
  unfold main_loop_body
  simp only []
  rw [(main_loop_fps_fields K cfg _).2.2.2.1, (main_loop_fps_fields K cfg _).2.2.2.2.1,
    (main_loop_pacing_fields K _).1, (main_loop_pacing_fields K _).2]
  refine ⟨rfl, ?_⟩
  simp only [perform_log, iterations_append, (tick_quiet K cfg evs _).2]
  simp [iterations]

theorem main_loop_while_menu (cfg : Config) (queues : List (List Event)) :
    ∀ (l : Loop W), l.ctx.state = .STATE_MENU → (∀ q ∈ queues, has_quit q = false) →
      (main_loop_while K cfg queues l).ctx.state = .STATE_MENU ∧
      iterations (main_loop_while K cfg queues l).ctx.log =
        iterations l.ctx.log + queues.length := by
  induction queues with
  | nil =>
    intro l hs _
    exact ⟨hs, rfl⟩
  | cons evs rest ih =>
    intro l hs hq
    unfold main_loop_while
    rw [if_neg (by rw [hs]; decide)]
    obtain ⟨b1, b2⟩ := main_loop_body_fields K cfg evs l
    have hst : (main_loop_body K cfg evs l).ctx.state = .STATE_MENU := by
      rw [b1, tick_state, tick_switch_state, tick_begin_state,
        hq evs (List.mem_cons_self _ _)]
      simp [hs]
    obtain ⟨i1, i2⟩ := ih (main_loop_body K cfg evs l) hst
      (fun q hq2 => hq q (List.mem_cons_of_mem _ hq2))
    refine ⟨i1, ?_⟩
    rw [i2, b2, List.length_cons]
    omega

end running

/-- C10. With vsync inactive, a speed correction of 1, a measured elapsed time
of 0 ms in every iteration and an exact base frame duration `frame_ms >= 0`:
after any number of iterations of the loop of `main_loop`, the total of the
durations passed to `SDL_Delay` is the floor of the number of iterations times
`frame_ms`, hence differs from that product by less than 1 ms; for
`frame_ms = 16.683` and 1000 iterations it is 16683 ms.  Every number of
iterations occurs: started in MENU on queues without quit event, the loop runs
one iteration per queue. -/
theorem pacing_no_drift {W : Type} (K : Collab W) (cfg : Config) (queues : List (List Event))
    (c : Ctx W) (hv : (main_loop_entry K cfg c).vsync = false)
    (hadj : ∀ w, K.adjust_speed w = 1) (ht : ∀ w, K.get_ticks w .frame_time = 0)
    (hd : 0 ≤ c.frame_ms) :
    ((slept (main_loop_while K cfg queues (main_loop_entry K cfg c)).ctx.log : Int) -
        slept c.log =
      ⌊((iterations (main_loop_while K cfg queues (main_loop_entry K cfg c)).ctx.log : ℚ) -
        iterations c.log) * c.frame_ms⌋) ∧
    (|((iterations (main_loop_while K cfg queues (main_loop_entry K cfg c)).ctx.log : ℚ) -
        iterations c.log) * c.frame_ms -
      ((slept (main_loop_while K cfg queues (main_loop_entry K cfg c)).ctx.log : ℚ) -
        slept c.log)| < 1) ∧
    (c.frame_ms = 16683 / 1000 →
      (iterations (main_loop_while K cfg queues (main_loop_entry K cfg c)).ctx.log : Int) -
        iterations c.log = 1000 →
      (slept (main_loop_while K cfg queues (main_loop_entry K cfg c)).ctx.log : Int) -
        slept c.log = 16683) ∧
    (c.state = .STATE_MENU → (∀ q ∈ queues, has_quit q = false) →
      iterations (main_loop_while K cfg queues (main_loop_entry K cfg c)).ctx.log =
        iterations c.log + queues.length) := by
  have he1 : slept (main_loop_entry K cfg c).ctx.log = slept c.log := by
    simp [main_loop_entry, slept_append, slept]
  have he2 : iterations (main_loop_entry K cfg c).ctx.log = iterations c.log := by
    simp [main_loop_entry, iterations]
  have he3 : (main_loop_entry K cfg c).ctx.frame_ms = c.frame_ms := rfl
  have he4 : (main_loop_entry K cfg c).deltatime = 0 := rfl
  obtain ⟨i1, i2, i3⟩ := main_loop_while_invariant K cfg queues (main_loop_entry K cfg c) hv
    hadj ht (by rw [he3]; exact hd) (by rw [he4]) (by rw [he4]; norm_num)
  rw [he1, he2, he3, he4] at i1
  have hfloor : ((slept (main_loop_while K cfg queues (main_loop_entry K cfg c)).ctx.log : Int) -
        slept c.log =
      ⌊((iterations (main_loop_while K cfg queues (main_loop_entry K cfg c)).ctx.log : ℚ) -
        iterations c.log) * c.frame_ms⌋) := by
    symm
    rw [Int.floor_eq_iff]
    push_cast
    constructor <;> linarith
  refine ⟨hfloor, ?_, ?_, ?_⟩
  · rw [abs_lt]
    constructor <;> linarith
  · intro hms hn
    rw [hfloor, hms]
    have hn2 : ((iterations (main_loop_while K cfg queues (main_loop_entry K cfg c)).ctx.log : ℚ) -
        iterations c.log) = 1000 := by
      exact_mod_cast hn
    rw [hn2]
    norm_num
  · intro hs hq
    have := (main_loop_while_menu K cfg queues (main_loop_entry K cfg c) hs hq).2
    rw [he2] at this
    exact this

theorem pacing_no_drift_witness :
    (main_loop_entry (latch true) (cfg0 60 false) (ctx0 .STATE_MENU 0 true false)).vsync = false ∧
    (∀ w, (latch true).adjust_speed w = 1) ∧
    (∀ w, (latch true).get_ticks w .frame_time = 0) ∧
    (0 : ℚ) ≤ (ctx0 .STATE_MENU 0 true false).frame_ms ∧
    ((slept (main_loop_while (latch true) (cfg0 60 false) [[], [], []]
        (main_loop_entry (latch true) (cfg0 60 false) (ctx0 .STATE_MENU 0 true false))).ctx.log
          : Int) - slept (ctx0 .STATE_MENU 0 true false).log =
      ⌊((iterations (main_loop_while (latch true) (cfg0 60 false) [[], [], []]
        (main_loop_entry (latch true) (cfg0 60 false)
          (ctx0 .STATE_MENU 0 true false))).ctx.log : ℚ) -
        iterations (ctx0 .STATE_MENU 0 true false).log) *
          (ctx0 .STATE_MENU 0 true false).frame_ms⌋) :=
  ⟨rfl, fun _ => rfl, fun _ => rfl, by norm_num [ctx0],
    (pacing_no_drift (latch true) (cfg0 60 false) [[], [], []] (ctx0 .STATE_MENU 0 true false)
      rfl (fun _ => rfl) (fun _ => rfl) (by norm_num [ctx0])).1⟩

/-- C7. For every Execution State and every queue that holds an Escape key-down
or an OS quit event, at any position and among any other events, the state
after one call of `tick` is QUIT; the loop iteration that made the call ends
in state QUIT, and the loop of `main_loop` runs no further iteration. -/
theorem tick_quit_event {W : Type} (K : Collab W) (cfg : Config) (evs : List Event)
    (c : Ctx W) (h : has_quit evs = true) :
    (tick K cfg evs c).state = .STATE_QUIT ∧
    (∀ l : Loop W, (main_loop_body K cfg evs l).ctx.state = .STATE_QUIT ∧
      ∀ rest : List (List Event),
        main_loop_while K cfg rest (main_loop_body K cfg evs l) = main_loop_body K cfg evs l) := by
  have hq : ∀ c : Ctx W, (tick K cfg evs c).state = .STATE_QUIT := by
    intro c
    rw [tick_state, tick_switch_state, tick_begin_state]
    simp [h]
  refine ⟨hq c, ?_⟩
  intro l
  have hl : (main_loop_body K cfg evs l).ctx.state = .STATE_QUIT := by
    rw [(main_loop_body_fields K cfg evs l).1]
    exact hq _
  refine ⟨hl, ?_⟩
  intro rest
  cases rest with
  | nil => rfl
  | cons q qs =>
    unfold main_loop_while
    rw [if_pos hl]

theorem tick_quit_event_witness :
    has_quit [.SDL_KEYUP 5, .SDL_KEYDOWN SDLK_ESCAPE, .SDL_KEYDOWN SDLK_F3] = true ∧
    (tick (latch true) (cfg0 60 false)
      [.SDL_KEYUP 5, .SDL_KEYDOWN SDLK_ESCAPE, .SDL_KEYDOWN SDLK_F3]
      (ctx0 .STATE_GAME 0 true false)).state = .STATE_QUIT :=
  ⟨by decide, (tick_quit_event (latch true) (cfg0 60 false) _ _ (by decide)).1⟩


/-! ## Calls made by a frame and by the loop -/

section calls
variable {W : Type} (K : Collab W)

theorem count_eq_zero_of_all (p : Call → Bool) (l : List Call) (k : Call)
    (hl : l.all p = true) (hk : p k = false) : l.count k = 0 := by
  rw [List.count_eq_zero]
  intro hmem
  rw [List.all_eq_true] at hl
  rw [hl k hmem] at hk
  exact absurd hk (by decide)

theorem handlers_all_frame_call (evs : List Event) :
    (evs.filterMap handler_call).all is_frame_call = true := by
  rw [List.all_eq_true]
  intro k hk
  obtain ⟨e, _, he⟩ := List.mem_filterMap.1 hk
  have h := handler_call_is_handler e k he
  cases k <;> first | rfl | exact absurd h (by simp [is_handler, is_frame_call])

theorem frame_call_is_loop_call (k : Call) (h : is_frame_call k = true) :
    is_loop_call k = true := by
  cases k <;> first | rfl | exact absurd h (by simp [is_handler, is_frame_call])

theorem all_loop_call_of_frame_call (l : List Call) (h : l.all is_frame_call = true) :
    l.all is_loop_call = true := by
  rw [List.all_eq_true] at h ⊢
  intro k hk
  exact frame_call_is_loop_call k (h k hk)

/-- The calls of a frame whose queue holds a quit event. -/
theorem tick_quit_log (cfg : Config) (evs : List Event) (c : Ctx W)
    (h : has_quit evs = true) :
    (tick K cfg evs c).log =
      c.log ++ evs.filterMap handler_call ++
        (if (tick_begin K cfg evs c).tick_frame = true then [.oinputs_tick, .oinputs_do_gear]
         else []) ++
        [.writeDigitalToConsole] ++
        (if (tick_begin K cfg evs c).tick_frame = true then
          [.set_rumble (K.is_set (K.call .writeDigitalToConsole (tick_begin K cfg evs c).world))
            cfg.rumble]
         else []) := by
  have hs : (tick_begin K cfg evs c).state = .STATE_QUIT := by
    rw [tick_begin_state, h]
    rfl
  unfold tick
  rw [tick_switch_quit K cfg _ hs, tick_outputs_log, tick_begin_log]

theorem tick_switch_log_ext (cfg : Config) (c : Ctx W) :
    ∃ ext : List Call, (tick_switch K cfg c).log = c.log ++ ext ∧
      ext.all is_loop_call = true := by
  cases hs : c.state
  case STATE_INIT_GAME =>
    rw [tick_switch_init_game K cfg c hs, tick_init_game_log, List.append_assoc]
    refine ⟨_, rfl, ?_⟩
    by_cases hj : cfg.jap = true <;> by_cases hl : K.load_japanese_roms c.world = true <;>
      simp [hj, hl, is_loop_call]
  case STATE_GAME =>
    rw [tick_switch_game K cfg c hs, tick_game_advance_log, (tick_game_toggles_fields K c).2.2.1]
    refine ⟨_, rfl, ?_⟩
    by_cases hp : (tick_game_toggles K c).pause_engine = true <;>
      by_cases hst : K.has_pressed (tick_game_toggles K c).world .STEP = true <;>
      by_cases ht : (tick_game_toggles K c).tick_frame = true <;>
      simp [hp, hst, ht, is_loop_call]
  case STATE_MENU =>
    refine ⟨[.menu_tick, .frame_done, .osoundint_tick], ?_, by decide⟩
    simp [tick_switch, hs]
  case STATE_INIT_MENU =>
    refine ⟨[.oinputs_init, .outputs_init, .menu_init], ?_, by decide⟩
    simp [tick_switch, hs]
  case STATE_BOOT =>
    refine ⟨[], ?_, by decide⟩
    simp [tick_switch, hs]
  case STATE_QUIT =>
    refine ⟨[], ?_, by decide⟩
    simp [tick_switch, hs]

theorem tick_log_ext (cfg : Config) (evs : List Event) (c : Ctx W) :
    ∃ ext : List Call, (tick K cfg evs c).log = c.log ++ ext ∧
      ext.all is_loop_call = true := by
  obtain ⟨ext, he, ha⟩ := tick_switch_log_ext K cfg (tick_begin K cfg evs c)
  unfold tick
  rw [tick_outputs_log, he, tick_begin_log]
  refine ⟨evs.filterMap handler_call ++
    (if (tick_begin K cfg evs c).tick_frame = true then [.oinputs_tick, .oinputs_do_gear]
     else []) ++ ext ++ [.writeDigitalToConsole] ++
    (if (tick_switch K cfg (tick_begin K cfg evs c)).tick_frame = true then
      [.set_rumble (K.is_set (K.call .writeDigitalToConsole
        (tick_switch K cfg (tick_begin K cfg evs c)).world)) cfg.rumble]
     else []), by simp only [List.append_assoc], ?_⟩
  simp only [List.all_append, ha,
    all_loop_call_of_frame_call _ (handlers_all_frame_call evs), Bool.true_and, Bool.and_true]
  by_cases h1 : (tick_begin K cfg evs c).tick_frame = true <;>
    by_cases h2 : (tick_switch K cfg (tick_begin K cfg evs c)).tick_frame = true <;>
    simp [h1, h2, is_loop_call]

theorem main_loop_body_log_ext (cfg : Config) (evs : List Event) (l : Loop W) :
    ∃ ext : List Call, (main_loop_body K cfg evs l).ctx.log = l.ctx.log ++ ext ∧
      ext.all is_loop_call = true := by
  obtain ⟨ext, he, ha⟩ := tick_log_ext K cfg evs (perform K (.timer_start .frame_time) l.ctx)
  have hp : ∀ l : Loop W, ∃ e : List Call, (main_loop_pacing K l).ctx.log = l.ctx.log ++ e ∧
      e.all is_loop_call = true := by
    intro l
    unfold main_loop_pacing
    by_cases hv : l.vsync = true
    · exact ⟨[], by simp [hv], rfl⟩
    · simp only [hv, Bool.not_false, if_true]
      split
      · exact ⟨_, rfl, by simp [is_loop_call]⟩
      · exact ⟨[], by simp, rfl⟩
  have hf : ∀ l : Loop W, ∃ e : List Call, (main_loop_fps K cfg l).ctx.log = l.ctx.log ++ e ∧
      e.all is_loop_call = true := by
    intro l
    unfold main_loop_fps
    by_cases hc : cfg.fps_count = true <;>
      by_cases h1 : 1000 ≤ K.get_ticks l.ctx.world .fps_count
    · exact ⟨[.timer_start .fps_count], by simp [hc, h1], by decide⟩
    · exact ⟨[], by simp [hc, h1], rfl⟩
    · exact ⟨[], by simp [hc], rfl⟩
    · exact ⟨[], by simp [hc], rfl⟩
  unfold main_loop_body
  simp only []
  obtain ⟨e2, h2, a2⟩ := hf (main_loop_pacing K
    { l with ctx := perform K .audio_tick (perform K .render_frame (perform K .prepare_frame
      (tick K cfg evs (perform K (.timer_start .frame_time) l.ctx)))) })
  obtain ⟨e1, h1, a1⟩ := hp
    { l with ctx := perform K .audio_tick (perform K .render_frame (perform K .prepare_frame
      (tick K cfg evs (perform K (.timer_start .frame_time) l.ctx)))) }
  rw [h2, h1]
  simp only [perform_log, he]
  refine ⟨[.timer_start .frame_time] ++ ext ++ [.prepare_frame] ++ [.render_frame] ++
    [.audio_tick] ++ e1 ++ e2, by simp only [List.append_assoc], ?_⟩
  simp [List.all_append, ha, a1, a2, is_loop_call]

theorem main_loop_while_log_ext (cfg : Config) (queues : List (List Event)) :
    ∀ l : Loop W, ∃ ext : List Call,
      (main_loop_while K cfg queues l).ctx.log = l.ctx.log ++ ext ∧
      ext.all is_loop_call = true := by
  induction queues with
  | nil =>
    intro l
    exact ⟨[], by simp [main_loop_while], rfl⟩
  | cons evs rest ih =>
    intro l
    unfold main_loop_while
    split
    · exact ⟨[], by simp, rfl⟩
    · obtain ⟨e1, h1, a1⟩ := main_loop_body_log_ext K cfg evs l
      obtain ⟨e2, h2, a2⟩ := ih (main_loop_body K cfg evs l)
      refine ⟨e1 ++ e2, by rw [h2, h1, List.append_assoc], ?_⟩
      simp [List.all_append, a1, a2]

end calls

/-- C19. For every prior state and every queue that holds an Escape key-down
or an OS quit event, the calls made by `tick` are exactly those of the
prologue (the event handlers, and the input pipeline on a tick frame) followed
by those of the epilogue (publication of the digital outputs, and the rumble on
a tick frame): no `outrun.tick`, `outrun.init`, `load_japanese_roms`,
`menu->tick`, `menu->init`, `frame_done` or `osoundint.tick` is made; the Pause
Flag is unchanged, the frame counter is incremented and the state is QUIT.
QUIT is absorbing: `tick` called in state QUIT with any queue leaves the state
QUIT. -/
theorem quit_preempts_switch {W : Type} (K : Collab W) (cfg : Config) (evs : List Event)
    (c : Ctx W) (h : has_quit evs = true) :
    (tick K cfg evs c).log =
      c.log ++ evs.filterMap handler_call ++
        (if (tick_begin K cfg evs c).tick_frame = true then [.oinputs_tick, .oinputs_do_gear]
         else []) ++
        [.writeDigitalToConsole] ++
        (if (tick_begin K cfg evs c).tick_frame = true then
          [.set_rumble (K.is_set (K.call .writeDigitalToConsole (tick_begin K cfg evs c).world))
            cfg.rumble]
         else []) ∧
    (∀ k : Call, is_frame_call k = false → (tick K cfg evs c).log.count k = c.log.count k) ∧
    (∀ b : Bool, is_frame_call (.outrun_tick b) = false) ∧
    is_frame_call .outrun_init = false ∧ is_frame_call .load_japanese_roms = false ∧
    is_frame_call .menu_tick = false ∧ is_frame_call .menu_init = false ∧
    is_frame_call .frame_done = false ∧ is_frame_call .osoundint_tick = false ∧
    (tick K cfg evs c).pause_engine = c.pause_engine ∧
    (tick K cfg evs c).state = .STATE_QUIT ∧
    (tick K cfg evs c).frame = wrap32 (c.frame + 1) ∧
    (∀ (evs2 : List Event) (c2 : Ctx W), c2.state = .STATE_QUIT →
      (tick K cfg evs2 c2).state = .STATE_QUIT) := by
  have hlog := tick_quit_log K cfg evs c h
  have hs : (tick_begin K cfg evs c).state = .STATE_QUIT := by
    rw [tick_begin_state, h]
    rfl
  refine ⟨hlog, ?_, fun b => rfl, rfl, rfl, rfl, rfl, rfl, rfl, ?_, ?_, tick_frame_eq K cfg evs c,
    ?_⟩
  · intro k hk
    rw [hlog]
    simp only [List.count_append]
    rw [count_eq_zero_of_all is_frame_call _ k (handlers_all_frame_call evs) hk]
    have e1 : (if (tick_begin K cfg evs c).tick_frame = true then
        [Call.oinputs_tick, Call.oinputs_do_gear] else []).count k = 0 := by
      apply count_eq_zero_of_all is_frame_call _ k _ hk
      split <;> rfl
    have e2 : [Call.writeDigitalToConsole].count k = 0 :=
      count_eq_zero_of_all is_frame_call _ k rfl hk
    have e3 : ∀ b r, (if (tick_begin K cfg evs c).tick_frame = true then
        [Call.set_rumble b r] else []).count k = 0 := by
      intro b r
      apply count_eq_zero_of_all is_frame_call _ k _ hk
      split <;> rfl
    rw [e1, e2, e3]
    rfl
  · unfold tick
    rw [(tick_outputs_fields K cfg _).2.2.2.1, tick_switch_quit K cfg _ hs,
      tick_begin_pause_engine]
  · rw [tick_state, tick_switch_state, hs]
  · intro evs2 c2 h2
    rw [tick_state, tick_switch_state, tick_begin_state, h2]
    simp

theorem quit_preempts_switch_witness :
    has_quit [.SDL_KEYDOWN SDLK_F1, .SDL_QUIT] = true ∧
    (tick (latch true) (cfg0 60 false) [.SDL_KEYDOWN SDLK_F1, .SDL_QUIT]
      (ctx0 .STATE_GAME 0 true false)).log =
      [.handle_key_down SDLK_F1, .oinputs_tick, .oinputs_do_gear, .writeDigitalToConsole,
        .set_rumble false 0] ∧
    (tick (latch true) (cfg0 60 false) [.SDL_KEYDOWN SDLK_F1, .SDL_QUIT]
      (ctx0 .STATE_GAME 0 true false)).pause_engine = false :=
  ⟨by decide, by decide,
    (quit_preempts_switch (latch true) (cfg0 60 false) [.SDL_KEYDOWN SDLK_F1, .SDL_QUIT]
      (ctx0 .STATE_GAME 0 true false) (by decide)).2.2.2.2.2.2.2.2.2.1⟩

/-- C17. In GAME, on a frame without quit event, whatever the Pause Flag and the
step, pause, menu and freeze inputs: `frame_done` is called exactly once if the
Tick Flag is true and not at all if it is false; `outrun.tick` (with the Tick
Flag as argument) and `osoundint.tick` are each called exactly once if the
Pause Flag after the toggles is false or the step action is pressed, and not at
all otherwise. -/
theorem game_frame_calls {W : Type} (K : Collab W) (cfg : Config) (evs : List Event)
    (c : Ctx W) (hs : c.state = .STATE_GAME) (hq : has_quit evs = false) :
    (tick K cfg evs c).log.count .frame_done =
      c.log.count .frame_done + (if (tick_begin K cfg evs c).tick_frame = true then 1 else 0) ∧
    outrun_ticks (tick K cfg evs c).log =
      outrun_ticks c.log ++
        (if (tick K cfg evs c).pause_engine = false ∨ pressed K cfg evs c .STEP = true then
          [(tick_begin K cfg evs c).tick_frame]
         else []) ∧
    (tick K cfg evs c).log.count .osoundint_tick =
      c.log.count .osoundint_tick +
        (if (tick K cfg evs c).pause_engine = false ∨ pressed K cfg evs c .STEP = true then 1
         else 0) := by
  have hp : (tick K cfg evs c).pause_engine =
      (tick_game_toggles K (tick_begin K cfg evs c)).pause_engine := by
    rw [tick_of_game K cfg evs c hs hq, (tick_outputs_fields K cfg _).2.2.2.1,
      (tick_game_advance_fields K _).2.2.1]
  have hlog : ∀ k : Call, is_frame_call k = false →
      (tick K cfg evs c).log.count k = c.log.count k +
        (if (tick K cfg evs c).pause_engine = false ∨ pressed K cfg evs c .STEP = true then
          [Call.outrun_tick (tick_begin K cfg evs c).tick_frame] ++
            (if (tick_begin K cfg evs c).tick_frame = true then [Call.frame_done] else []) ++
            [Call.osoundint_tick]
         else if (tick_begin K cfg evs c).tick_frame = true then [Call.frame_done]
         else []).count k := by
    intro k hk
    rw [hp, tick_of_game K cfg evs c hs hq, tick_outputs_log, tick_game_advance_log,
      (tick_game_toggles_fields K _).2.2.1, (tick_game_toggles_fields K _).2.1,
      (tick_game_toggles_fields K _).1, tick_begin_log]
    simp only [List.count_append]
    rw [count_eq_zero_of_all is_frame_call _ k (handlers_all_frame_call evs) hk]
    have e1 : (if (tick_begin K cfg evs c).tick_frame = true then
        [Call.oinputs_tick, Call.oinputs_do_gear] else []).count k = 0 := by
      apply count_eq_zero_of_all is_frame_call _ k _ hk
      split <;> rfl
    have e2 : [Call.writeDigitalToConsole].count k = 0 :=
      count_eq_zero_of_all is_frame_call _ k rfl hk
    have e3 : ∀ (t : Bool) b r, (if t = true then [Call.set_rumble b r] else []).count k = 0 := by
      intro t b r
      apply count_eq_zero_of_all is_frame_call _ k _ hk
      split <;> rfl
    rw [e1, e2, e3]
    simp only [pressed]
    omega
  refine ⟨?_, tick_game_outrun_ticks K cfg evs c hs hq, ?_⟩
  · rw [hlog .frame_done rfl]
    by_cases h1 : (tick K cfg evs c).pause_engine = false ∨ pressed K cfg evs c .STEP = true <;>
      by_cases h2 : (tick_begin K cfg evs c).tick_frame = true <;> simp [h1, h2]
  · rw [hlog .osoundint_tick rfl]
    by_cases h1 : (tick K cfg evs c).pause_engine = false ∨ pressed K cfg evs c .STEP = true <;>
      by_cases h2 : (tick_begin K cfg evs c).tick_frame = true <;> simp [h1, h2]

theorem game_frame_calls_witness :
    (ctx0 .STATE_GAME 0 true true).state = .STATE_GAME ∧
    has_quit [.SDL_KEYDOWN SDLK_F3] = false ∧
    (tick (latch true) (cfg0 60 false) [.SDL_KEYDOWN SDLK_F3]
      (ctx0 .STATE_GAME 0 true true)).log.count .frame_done =
      (ctx0 .STATE_GAME 0 true true).log.count .frame_done +
        (if (tick_begin (latch true) (cfg0 60 false) [.SDL_KEYDOWN SDLK_F3]
          (ctx0 .STATE_GAME 0 true true)).tick_frame = true then 1 else 0) :=
  ⟨rfl, by decide,
    (game_frame_calls (latch true) (cfg0 60 false) [.SDL_KEYDOWN SDLK_F3]
      (ctx0 .STATE_GAME 0 true true) rfl (by decide)).1⟩

theorem has_quit_append (l1 l2 : List Event) :
    has_quit (l1 ++ l2) = (has_quit l1 || has_quit l2) := by
  simp [has_quit]

theorem process_events_world {W : Type} (K : Collab W) (evs : List Event) (c : Ctx W) :
    (process_events K evs c).world =
      (evs.filterMap handler_call).foldl (fun w k => K.call k w) c.world := by
  induction evs generalizing c with
  | nil => rfl
  | cons e rest ih =>
    have h := ih (process_event K c e)
    simp only [process_events, List.foldl_cons] at h ⊢
    rw [h]
    cases e <;> simp [process_event, handler_call, List.filterMap_cons]
    split <;> simp

/-- C14, counterexample. An Escape key-up event in state GAME leaves the state
GAME and is forwarded to `handle_key_up`; the whole frame leaves the state
GAME. -/
theorem escape_key_up_is_forwarded :
    (process_events (latch true) [.SDL_KEYUP SDLK_ESCAPE]
      (ctx0 .STATE_GAME 0 true false)).state = .STATE_GAME ∧
    (process_events (latch true) [.SDL_KEYUP SDLK_ESCAPE]
      (ctx0 .STATE_GAME 0 true false)).log = [.handle_key_up SDLK_ESCAPE] ∧
    (tick (latch true) (cfg0 60 false) [.SDL_KEYUP SDLK_ESCAPE]
      (ctx0 .STATE_GAME 0 true false)).state = .STATE_GAME := by
  decide

/-- C14, amended. Every Escape key-down event, at any position in the queue and
whatever the state and the other events, sets the state to QUIT and makes no
call on the input collaborator.  An Escape key-up event does not affect the
state and is forwarded to `handle_key_up` like any other key-up. -/
theorem escape_key_down_quits {W : Type} (K : Collab W) (pre post : List Event) (c : Ctx W) :
    (process_events K (pre ++ .SDL_KEYDOWN SDLK_ESCAPE :: post) c).state = .STATE_QUIT ∧
    (process_events K (pre ++ .SDL_KEYDOWN SDLK_ESCAPE :: post) c).log =
      c.log ++ pre.filterMap handler_call ++ post.filterMap handler_call ∧
    (process_events K (pre ++ .SDL_KEYUP SDLK_ESCAPE :: post) c).state =
      (process_events K (pre ++ post) c).state ∧
    (process_events K (pre ++ .SDL_KEYUP SDLK_ESCAPE :: post) c).log =
      c.log ++ pre.filterMap handler_call ++ [.handle_key_up SDLK_ESCAPE] ++
        post.filterMap handler_call := by
  refine ⟨?_, ?_, ?_, ?_⟩
  · rw [process_events_state, has_quit_append]
    simp [has_quit, is_quit]
  · rw [process_events_log]
    simp [List.filterMap_append, List.filterMap_cons, handler_call]
  · rw [process_events_state, process_events_state, has_quit_append, has_quit_append]
    simp [has_quit, is_quit, SDLK_ESCAPE]
  · rw [process_events_log]
    simp [List.filterMap_append, List.filterMap_cons, handler_call]

/-- C15. For every queue, the calls that `process_events` makes are, in queue
order, one handler call per recognised event that is neither an Escape key-down
nor an OS quit event, with the payload of the event (key-down, key-up, joystick
and controller axis, joystick and controller button down and up, hat motion,
device added to `open_joy`, device removed to `close_joy`), and the world is the
result of these calls; an unrecognised event makes no call and changes nothing.
The state after the drain is QUIT if the queue holds an Escape key-down or an
OS quit event and is unchanged otherwise, so that, from a state other than QUIT
(the only states in which the loop calls `tick`), it is QUIT iff the queue holds
such an event.  The frame counter and the flags are unchanged. -/
theorem process_events_forwards {W : Type} (K : Collab W) (evs : List Event) (c : Ctx W) :
    (process_events K evs c).log = c.log ++ evs.filterMap handler_call ∧
    (process_events K evs c).world =
      (evs.filterMap handler_call).foldl (fun w k => K.call k w) c.world ∧
    (process_events K evs c).state = (if has_quit evs = true then .STATE_QUIT else c.state) ∧
    (c.state ≠ .STATE_QUIT →
      ((process_events K evs c).state = .STATE_QUIT ↔ has_quit evs = true)) ∧
    (∀ sym : Int, sym ≠ SDLK_ESCAPE →
      handler_call (.SDL_KEYDOWN sym) = some (.handle_key_down sym)) ∧
    (∀ sym : Int, handler_call (.SDL_KEYUP sym) = some (.handle_key_up sym)) ∧
    (∀ p : Nat, handler_call (.SDL_JOYAXISMOTION p) = some (.handle_joy_axis p) ∧
      handler_call (.SDL_CONTROLLERAXISMOTION p) = some (.handle_controller_axis p) ∧
      handler_call (.SDL_JOYBUTTONDOWN p) = some (.handle_joy_down p) ∧
      handler_call (.SDL_JOYBUTTONUP p) = some (.handle_joy_up p) ∧
      handler_call (.SDL_CONTROLLERBUTTONDOWN p) = some (.handle_controller_down p) ∧
      handler_call (.SDL_CONTROLLERBUTTONUP p) = some (.handle_controller_up p) ∧
      handler_call (.SDL_JOYHATMOTION p) = some (.handle_joy_hat p)) ∧
    handler_call .SDL_JOYDEVICEADDED = some .open_joy ∧
    handler_call .SDL_JOYDEVICEREMOVED = some .close_joy ∧
    handler_call (.SDL_KEYDOWN SDLK_ESCAPE) = none ∧ handler_call .SDL_QUIT = none ∧
    (∀ (type : Nat) (c2 : Ctx W), handler_call (.OTHER type) = none ∧
      process_event K c2 (.OTHER type) = c2) ∧
    (process_events K evs c).frame = c.frame ∧
    (process_events K evs c).tick_frame = c.tick_frame ∧
    (process_events K evs c).pause_engine = c.pause_engine := by
  have hf := process_events_flags K evs c
  refine ⟨process_events_log K evs c, process_events_world K evs c,
    process_events_state K evs c, ?_, ?_, fun _ => rfl,
    fun _ => ⟨rfl, rfl, rfl, rfl, rfl, rfl, rfl⟩, rfl, rfl, rfl, rfl, fun _ _ => ⟨rfl, rfl⟩,
    hf.1, hf.2.1, hf.2.2.1⟩
  · intro hs
    rw [process_events_state]
    by_cases hq : has_quit evs = true
    · simp [hq]
    · simp [hq, hs]
  · intro sym hsym
    simp [handler_call, hsym]

theorem quit_func_state {W : Type} (K : Collab W) (code : Int) (c : Ctx W) :
    (quit_func K code c).state = c.state := rfl

theorem quit_func_log {W : Type} (K : Collab W) (code : Int) (c : Ctx W) :
    (quit_func K code c).log = c.log ++ shutdown_calls code := by
  simp [quit_func, shutdown_calls]

theorem main_loop_entry_log {W : Type} (K : Collab W) (cfg : Config) (c : Ctx W) :
    (main_loop_entry K cfg c).ctx.log = c.log ++ [.timer_start .fps_count] := rfl

/-- C13. When `main_loop` ends, the state is QUIT and the calls it has made are
calls of loop iterations followed by the Shutdown Sequence, in this order and
each once: `stop_audio`, `close_joy`, `forcefeedback::close`, `delete menu`,
`SDL_Quit`, `exit(0)`.  No call of a loop iteration is a `stop_audio`,
`forcefeedback::close`, `delete menu`, `SDL_Quit` or `exit`, so nothing of a
frame follows the first shutdown step.  The loop does end: if the state is
QUIT on entry or some queue holds a quit event, `main_loop` returns. -/
theorem main_loop_shutdown {W : Type} (K : Collab W) (cfg : Config)
    (queues : List (List Event)) (c : Ctx W) :
    (∀ c2 : Ctx W, main_loop K cfg queues c = some c2 →
      c2.state = .STATE_QUIT ∧
      ∃ ext : List Call, ext.all is_loop_call = true ∧
        c2.log = c.log ++ ext ++
          [.stop_audio, .close_joy, .ffeedback_close, .delete_menu, .SDL_Quit, .exit 0]) ∧
    is_loop_call .stop_audio = false ∧ is_loop_call .ffeedback_close = false ∧
    is_loop_call .delete_menu = false ∧ is_loop_call .SDL_Quit = false ∧
    (∀ code : Int, is_loop_call (.exit code) = false) ∧
    ((c.state = .STATE_QUIT ∨ ∃ q ∈ queues, has_quit q = true) →
      ∃ c2 : Ctx W, main_loop K cfg queues c = some c2) := by
  refine ⟨?_, rfl, rfl, rfl, rfl, fun _ => rfl, ?_⟩
  · intro c2 h
    unfold main_loop at h
    simp only [] at h
    split at h
    · rename_i hq
      obtain ⟨ext, he, ha⟩ := main_loop_while_log_ext K cfg queues (main_loop_entry K cfg c)
      have h2 : quit_func K 0 (main_loop_while K cfg queues (main_loop_entry K cfg c)).ctx = c2 :=
        Option.some.inj h
      rw [← h2, quit_func_state, quit_func_log, he, main_loop_entry_log]
      refine ⟨hq, [.timer_start .fps_count] ++ ext, ?_, ?_⟩
      · simp [List.all_append, ha, is_loop_call]
      · simp [shutdown_calls]
    · exact absurd h (by simp)
  · intro h
    have key : ∀ (qs : List (List Event)) (l : Loop W),
        (l.ctx.state = .STATE_QUIT ∨ ∃ q ∈ qs, has_quit q = true) →
        (main_loop_while K cfg qs l).ctx.state = .STATE_QUIT := by
      intro qs
      induction qs with
      | nil =>
        intro l hl
        rcases hl with hl | ⟨q, hq, _⟩
        · exact hl
        · exact absurd hq (List.not_mem_nil _)
      | cons evs rest ih =>
        intro l hl
        unfold main_loop_while
        split
        · assumption
        · rename_i hne
          apply ih
          rcases hl with hl | ⟨q, hq, hh⟩
          · exact absurd hl hne
          · rcases List.mem_cons.1 hq with rfl | hq2
            · left
              rw [(main_loop_body_fields K cfg q l).1]
              rw [tick_state, tick_switch_state, tick_begin_state, hh]
              simp
            · exact Or.inr ⟨q, hq2, hh⟩
    have hq := key queues (main_loop_entry K cfg c) h
    unfold main_loop
    simp only []
    rw [if_pos hq]
    exact ⟨_, rfl⟩

theorem main_loop_shutdown_witness :
    (∃ q ∈ [[], [Event.SDL_KEYDOWN SDLK_ESCAPE]], has_quit q = true) ∧
    ∃ c2 : Ctx Latch, main_loop (latch true) (cfg0 60 false)
      [[], [.SDL_KEYDOWN SDLK_ESCAPE]] (ctx0 .STATE_INIT_MENU 0 true false) = some c2 :=
  ⟨⟨[.SDL_KEYDOWN SDLK_ESCAPE], by simp, by decide⟩,
    (main_loop_shutdown (latch true) (cfg0 60 false) [[], [.SDL_KEYDOWN SDLK_ESCAPE]]
      (ctx0 .STATE_INIT_MENU 0 true false)).2.2.2.2.2.2
      (Or.inr ⟨[.SDL_KEYDOWN SDLK_ESCAPE], by simp, by decide⟩)⟩

section counter
variable {W : Type} (K : Collab W)

theorem main_loop_pacing_ctx (l : Loop W) :
    (main_loop_pacing K l).ctx.frame = l.ctx.frame ∧
    (main_loop_pacing K l).ctx.frame_ms = l.ctx.frame_ms ∧
    (main_loop_pacing K l).vsync = l.vsync := by
  unfold main_loop_pacing
  by_cases hv : l.vsync = true
  · simp [hv]
  · simp only [hv, Bool.not_false, if_true]
    refine ⟨?_, ?_, ?_⟩
    · split <;> rfl
    · split <;> rfl
    · trivial

theorem main_loop_fps_frame (cfg : Config) (l : Loop W) :
    (main_loop_fps K cfg l).ctx.frame = l.ctx.frame := by
  unfold main_loop_fps
  by_cases hc : cfg.fps_count = true <;>
    by_cases h1 : 1000 ≤ K.get_ticks l.ctx.world .fps_count <;> simp [hc, h1]

theorem main_loop_body_frame (cfg : Config) (evs : List Event) (l : Loop W) :
    (main_loop_body K cfg evs l).ctx.frame = wrap32 (l.ctx.frame + 1) := by
  unfold main_loop_body
  simp only []
  rw [main_loop_fps_frame, (main_loop_pacing_ctx K _).1]
  simp only [perform_frame, tick_frame_eq]

theorem main_loop_body_frame_ms (cfg : Config) (evs : List Event) (l : Loop W) :
    (main_loop_body K cfg evs l).ctx.frame_ms = l.ctx.frame_ms ∧
    (main_loop_body K cfg evs l).vsync = l.vsync := by
  unfold main_loop_body
  simp only []
  rw [(main_loop_fps_fields K cfg _).2.2.1, (main_loop_pacing_ctx K _).2.1,
    (main_loop_fps_fields K cfg _).1, (main_loop_pacing_ctx K _).2.2]
  simp only [perform_frame_ms, tick_frame_ms, and_self]

theorem wrap32_range (x : Int) : -2147483648 ≤ wrap32 x ∧ wrap32 x ≤ 2147483647 := by
  unfold wrap32
  omega

theorem main_loop_while_frame (cfg : Config) (queues : List (List Event)) :
    ∀ l : Loop W, -2147483648 ≤ l.ctx.frame → l.ctx.frame ≤ 2147483647 →
      (main_loop_while K cfg queues l).ctx.frame =
        wrap32 (l.ctx.frame +
          ((iterations (main_loop_while K cfg queues l).ctx.log : Int) -
            iterations l.ctx.log)) := by
  induction queues with
  | nil =>
    intro l h1 h2
    simp only [main_loop_while, sub_self, add_zero]
    unfold wrap32
    omega
  | cons evs rest ih =>
    intro l h1 h2
    unfold main_loop_while
    split
    · simp only [sub_self, add_zero]
      unfold wrap32
      omega
    · have hf := main_loop_body_frame K cfg evs l
      have hi := (main_loop_body_fields K cfg evs l).2
      have hr := wrap32_range (l.ctx.frame + 1)
      have := ih (main_loop_body K cfg evs l) (by rw [hf]; exact hr.1) (by rw [hf]; exact hr.2)
      rw [this, hf, hi]
      push_cast
      unfold wrap32
      omega

end counter

/-- C16, counterexample. Starting from Frame Counter 2147483647, one iteration
of the loop leaves the counter at -2147483648 (the `int` wraps), not at
2147483648. -/
theorem frame_counter_overflow :
    (main_loop_while (latch true) (cfg0 60 false) [[]]
      (main_loop_entry (latch true) (cfg0 60 false)
        (ctx0 .STATE_MENU 2147483647 true false))).ctx.frame = -2147483648 ∧
    (ctx0 .STATE_MENU 2147483647 true false).frame + 1 = 2147483648 := by
  refine ⟨?_, by decide⟩
  have h : main_loop_while (latch true) (cfg0 60 false) [[]]
      (main_loop_entry (latch true) (cfg0 60 false) (ctx0 .STATE_MENU 2147483647 true false)) =
      main_loop_body (latch true) (cfg0 60 false) []
        (main_loop_entry (latch true) (cfg0 60 false)
          (ctx0 .STATE_MENU 2147483647 true false)) := by
    unfold main_loop_while
    rw [if_neg (by decide)]
    rfl
  rw [h, main_loop_body_frame]
  decide

/-- C16, amended. Every iteration of the loop of `main_loop` increments the
shared Frame Counter by one as an `int`, in every state and whatever the flags,
the queue and the FPS setting; the FPS counter of `main_loop` is a separate
local variable.  After `n` iterations starting from the `int` value `c` the
counter is `c + n` wrapped to 32 bits, and it is `c + n` as long as
`c + n <= 2147483647`. -/
theorem frame_counter_increments {W : Type} (K : Collab W) (cfg : Config)
    (queues : List (List Event)) (c : Ctx W)
    (h1 : -2147483648 ≤ c.frame) (h2 : c.frame ≤ 2147483647) :
    (∀ (cfg2 : Config) (evs : List Event) (l : Loop W),
      (main_loop_body K cfg2 evs l).ctx.frame = wrap32 (l.ctx.frame + 1)) ∧
    (main_loop_while K cfg queues (main_loop_entry K cfg c)).ctx.frame =
      wrap32 (c.frame +
        ((iterations (main_loop_while K cfg queues (main_loop_entry K cfg c)).ctx.log : Int) -
          iterations c.log)) ∧
    (c.frame +
        ((iterations (main_loop_while K cfg queues (main_loop_entry K cfg c)).ctx.log : Int) -
          iterations c.log) ≤ 2147483647 →
      (main_loop_while K cfg queues (main_loop_entry K cfg c)).ctx.frame =
        c.frame +
          ((iterations (main_loop_while K cfg queues (main_loop_entry K cfg c)).ctx.log : Int) -
            iterations c.log)) ∧
    (iterations c.log ≤
      iterations (main_loop_while K cfg queues (main_loop_entry K cfg c)).ctx.log) := by
  have he : iterations (main_loop_entry K cfg c).ctx.log = iterations c.log := by
    simp [main_loop_entry, iterations]
  have hw := main_loop_while_frame K cfg queues (main_loop_entry K cfg c) h1 h2
  rw [he] at hw
  have hfr : (main_loop_entry K cfg c).ctx.frame = c.frame := rfl
  rw [hfr] at hw
  have hmono : iterations c.log ≤
      iterations (main_loop_while K cfg queues (main_loop_entry K cfg c)).ctx.log := by
    obtain ⟨ext, hx, _⟩ := main_loop_while_log_ext K cfg queues (main_loop_entry K cfg c)
    rw [hx, iterations_append, he]
    omega
  refine ⟨fun cfg2 evs l => main_loop_body_frame K cfg2 evs l, hw, ?_, hmono⟩
  intro hb
  rw [hw]
  unfold wrap32
  omega

theorem frame_counter_increments_witness :
    (-2147483648 : Int) ≤ (ctx0 .STATE_MENU 5 true false).frame ∧
    (ctx0 .STATE_MENU 5 true false).frame ≤ 2147483647 ∧
    (main_loop_while (latch true) (cfg0 60 false) [[], []]
      (main_loop_entry (latch true) (cfg0 60 false) (ctx0 .STATE_MENU 5 true false))).ctx.frame =
      wrap32 ((ctx0 .STATE_MENU 5 true false).frame +
        ((iterations (main_loop_while (latch true) (cfg0 60 false) [[], []]
          (main_loop_entry (latch true) (cfg0 60 false)
            (ctx0 .STATE_MENU 5 true false))).ctx.log : Int) -
          iterations (ctx0 .STATE_MENU 5 true false).log)) :=
  ⟨by decide, by decide,
    (frame_counter_increments (latch true) (cfg0 60 false) [[], []]
      (ctx0 .STATE_MENU 5 true false) (by decide) (by decide)).2.1⟩

section cap
variable {W : Type} (K : Collab W)

theorem main_loop_pacing_deltatime (l : Loop W) (h0 : 0 ≤ l.deltatime) (h1 : l.deltatime < 1)
    (htar : 0 ≤ l.ctx.frame_ms * K.adjust_speed l.ctx.world) :
    0 ≤ (main_loop_pacing K l).deltatime ∧ (main_loop_pacing K l).deltatime < 1 := by
  unfold main_loop_pacing
  by_cases hv : l.vsync = true
  · simp [hv, h0, h1]
  · have ha : 0 ≤ l.deltatime + l.ctx.frame_ms * K.adjust_speed l.ctx.world := add_nonneg h0 htar
    simp only [hv, Bool.not_false, if_true, to_int_of_nonneg _ ha]
    constructor
    · exact sub_nonneg.2 (Int.floor_le _)
    · have := Int.lt_floor_add_one (l.deltatime + l.ctx.frame_ms * K.adjust_speed l.ctx.world)
      linarith

theorem main_loop_while_deltatime (cfg : Config) (queues : List (List Event)) :
    ∀ l : Loop W, 0 ≤ l.deltatime → l.deltatime < 1 →
      (∀ w, 0 ≤ l.ctx.frame_ms * K.adjust_speed w) →
      0 ≤ (main_loop_while K cfg queues l).deltatime ∧
      (main_loop_while K cfg queues l).deltatime < 1 := by
  induction queues with
  | nil =>
    intro l h0 h1 _
    exact ⟨h0, h1⟩
  | cons evs rest ih =>
    intro l h0 h1 htar
    unfold main_loop_while
    split
    · exact ⟨h0, h1⟩
    · have hms := (main_loop_body_frame_ms K cfg evs l).1
      have hd : 0 ≤ (main_loop_body K cfg evs l).deltatime ∧
          (main_loop_body K cfg evs l).deltatime < 1 := by
        unfold main_loop_body
        simp only []
        rw [(main_loop_fps_fields K cfg _).2.1]
        have e : (perform K .audio_tick (perform K .render_frame (perform K .prepare_frame
            (tick K cfg evs (perform K (.timer_start .frame_time) l.ctx))))).frame_ms =
            l.ctx.frame_ms := by
          simp [tick_frame_ms]
        exact main_loop_pacing_deltatime K
          { l with ctx := perform K .audio_tick (perform K .render_frame
            (perform K .prepare_frame
              (tick K cfg evs (perform K (.timer_start .frame_time) l.ctx)))) } h0 h1
          (by
            show 0 ≤ (perform K .audio_tick (perform K .render_frame (perform K .prepare_frame
              (tick K cfg evs (perform K (.timer_start .frame_time) l.ctx))))).frame_ms * _
            rw [e]
            exact htar _)
      exact ih (main_loop_body K cfg evs l) hd.1 hd.2 (by rw [hms]; exact htar)

end cap

/-- C18. One pacing step over exact arithmetic, with the accumulator in [0, 1)
and a non-negative target duration.  With vsync inactive and `a` the
accumulator plus the target: `SDL_Delay` is called iff the elapsed time `t` is
below `a`, with argument `floor(a) - t`, so the time slept grows by
`floor(a) - t` when `t < floor(a)` and by nothing otherwise (a call with 0 ms
when `floor(a) <= t < a`); afterwards the accumulator is `a - floor(a)`.  The
accumulator is in [0, 1) after the step and after any number of iterations of
the loop.  With vsync active the step changes nothing. -/
theorem pacing_step {W : Type} (K : Collab W) (cfg : Config) (queues : List (List Event))
    (l : Loop W) (h0 : 0 ≤ l.deltatime) (h1 : l.deltatime < 1)
    (htar : ∀ w, 0 ≤ l.ctx.frame_ms * K.adjust_speed w) :
    (l.vsync = false →
      (main_loop_pacing K l).ctx.log =
        l.ctx.log ++
          (if (K.get_ticks l.ctx.world .frame_time : ℚ) <
              l.deltatime + l.ctx.frame_ms * K.adjust_speed l.ctx.world then
            [.SDL_Delay (⌊l.deltatime + l.ctx.frame_ms * K.adjust_speed l.ctx.world⌋ -
              K.get_ticks l.ctx.world .frame_time).toNat]
           else []) ∧
      slept (main_loop_pacing K l).ctx.log =
        slept l.ctx.log +
          (⌊l.deltatime + l.ctx.frame_ms * K.adjust_speed l.ctx.world⌋ -
            K.get_ticks l.ctx.world .frame_time).toNat ∧
      (0 < (⌊l.deltatime + l.ctx.frame_ms * K.adjust_speed l.ctx.world⌋ -
            K.get_ticks l.ctx.world .frame_time).toNat ↔
        K.get_ticks l.ctx.world .frame_time <
          ⌊l.deltatime + l.ctx.frame_ms * K.adjust_speed l.ctx.world⌋) ∧
      (K.get_ticks l.ctx.world .frame_time <
          ⌊l.deltatime + l.ctx.frame_ms * K.adjust_speed l.ctx.world⌋ →
        (((⌊l.deltatime + l.ctx.frame_ms * K.adjust_speed l.ctx.world⌋ -
            K.get_ticks l.ctx.world .frame_time).toNat : Nat) : Int) =
          ⌊l.deltatime + l.ctx.frame_ms * K.adjust_speed l.ctx.world⌋ -
            K.get_ticks l.ctx.world .frame_time) ∧
      (main_loop_pacing K l).deltatime =
        l.deltatime + l.ctx.frame_ms * K.adjust_speed l.ctx.world -
          ⌊l.deltatime + l.ctx.frame_ms * K.adjust_speed l.ctx.world⌋) ∧
    (0 ≤ (main_loop_pacing K l).deltatime ∧ (main_loop_pacing K l).deltatime < 1) ∧
    (0 ≤ (main_loop_while K cfg queues l).deltatime ∧
      (main_loop_while K cfg queues l).deltatime < 1) ∧
    (l.vsync = true → main_loop_pacing K l = l) := by
  refine ⟨?_, main_loop_pacing_deltatime K l h0 h1 (htar _),
    main_loop_while_deltatime K cfg queues l h0 h1 htar, ?_⟩
  · intro hv
    have ha : 0 ≤ l.deltatime + l.ctx.frame_ms * K.adjust_speed l.ctx.world :=
      add_nonneg h0 (htar _)
    have hlog : (main_loop_pacing K l).ctx.log =
        l.ctx.log ++
          (if (K.get_ticks l.ctx.world .frame_time : ℚ) <
              l.deltatime + l.ctx.frame_ms * K.adjust_speed l.ctx.world then
            [.SDL_Delay (⌊l.deltatime + l.ctx.frame_ms * K.adjust_speed l.ctx.world⌋ -
              K.get_ticks l.ctx.world .frame_time).toNat]
           else []) := by
      unfold main_loop_pacing
      simp only [hv, Bool.not_false, if_true]
      split
      · rename_i hlt
        have hpos : 0 ≤ l.deltatime + l.ctx.frame_ms * K.adjust_speed l.ctx.world -
            (K.get_ticks l.ctx.world .frame_time : ℚ) := by linarith
        simp only [perform_log, to_Uint32, to_int_of_nonneg _ hpos, Int.floor_sub_int]
      · simp
    refine ⟨hlog, ?_, ?_, ?_, ?_⟩
    · rw [hlog, slept_append]
      split
      · simp [slept]
      · rename_i hge
        have hle : ⌊l.deltatime + l.ctx.frame_ms * K.adjust_speed l.ctx.world⌋ ≤
            K.get_ticks l.ctx.world .frame_time := by
          have h3 := Int.floor_le (l.deltatime + l.ctx.frame_ms * K.adjust_speed l.ctx.world)
          have h4 : ((⌊l.deltatime + l.ctx.frame_ms * K.adjust_speed l.ctx.world⌋ : Int) : ℚ) ≤
              (K.get_ticks l.ctx.world .frame_time : ℚ) := by linarith [not_lt.1 hge]
          exact_mod_cast h4
        have : (⌊l.deltatime + l.ctx.frame_ms * K.adjust_speed l.ctx.world⌋ -
            K.get_ticks l.ctx.world .frame_time).toNat = 0 := by omega
        simp [this, slept]
    · omega
    · intro hlt
      omega
    · unfold main_loop_pacing
      simp only [hv, Bool.not_false, if_true, to_int_of_nonneg _ ha]
  · intro hv
    unfold main_loop_pacing
    simp [hv]

theorem pacing_step_witness :
    (0 : ℚ) ≤ (main_loop_entry (latch true) (cfg0 60 false)
      (ctx0 .STATE_MENU 0 true false)).deltatime ∧
    (main_loop_entry (latch true) (cfg0 60 false) (ctx0 .STATE_MENU 0 true false)).deltatime < 1 ∧
    (∀ w, (0 : ℚ) ≤ (main_loop_entry (latch true) (cfg0 60 false)
      (ctx0 .STATE_MENU 0 true false)).ctx.frame_ms * (latch true).adjust_speed w) ∧
    (0 ≤ (main_loop_pacing (latch true) (main_loop_entry (latch true) (cfg0 60 false)
        (ctx0 .STATE_MENU 0 true false))).deltatime ∧
      (main_loop_pacing (latch true) (main_loop_entry (latch true) (cfg0 60 false)
        (ctx0 .STATE_MENU 0 true false))).deltatime < 1) :=
  ⟨le_refl _, by norm_num [main_loop_entry], fun _ => by norm_num [main_loop_entry, ctx0, latch],
    (pacing_step (latch true) (cfg0 60 false) [] (main_loop_entry (latch true) (cfg0 60 false)
      (ctx0 .STATE_MENU 0 true false)) (le_refl _) (by norm_num [main_loop_entry])
      (fun _ => by norm_num [main_loop_entry, ctx0, latch])).2.1⟩

section parsing
variable {W : Type} (K : Collab W) (S : Startup W)

theorem parse_command_line_spec : ∀ (n : Nat) (args : List String) (c : Ctx W),
    args.length ≤ n →
    (∀ c2 : Ctx W, parse_command_line K S args c = .exit0 c2 →
      no_help_version args = false ∧ c2.state = c.state ∧
      ∃ (ext : List Call) (p : Call), ext.all is_option_call = true ∧
        (p = .print_usage ∨ p = .print_version) ∧ c2.log = c.log ++ ext ++ [p, .exit 0]) ∧
    (∀ (ok : Bool) (c2 : Ctx W), parse_command_line K S args c = .result ok c2 →
      (no_help_version args = true → ok = !malformed K S args c) ∧ c2.state = c.state ∧
      ∃ ext : List Call, ext.all is_option_call = true ∧ c2.log = c.log ++ ext) ∧
    (no_help_version args = true →
      ∃ c2 : Ctx W, parse_command_line K S args c = .result (!malformed K S args c) c2) := by
  intro n
  induction n with
  | zero =>
    intro args c hlen
    have : args = [] := List.length_eq_zero.1 (Nat.le_zero.1 hlen)
    subst this
    refine ⟨?_, ?_, ?_⟩
    · intro c2 h
      simp [parse_command_line] at h
    · intro ok c2 h
      simp only [parse_command_line, Parsed.result.injEq] at h
      obtain ⟨h1, h2⟩ := h
      subst h1
      subst h2
      exact ⟨fun _ => by simp [malformed], rfl, [], rfl, by simp⟩
    · intro _
      exact ⟨c, by simp [parse_command_line, malformed]⟩
  | succ n ih =>
    intro args c hlen
    match args, hlen with
    | [], _ =>
      refine ⟨?_, ?_, ?_⟩
      · intro c2 h
        simp [parse_command_line] at h
      · intro ok c2 h
        simp only [parse_command_line, Parsed.result.injEq] at h
        obtain ⟨h1, h2⟩ := h
        subst h1
        subst h2
        exact ⟨fun _ => by simp [malformed], rfl, [], rfl, by simp⟩
      · intro _
        exact ⟨c, by simp [parse_command_line, malformed]⟩
    | [a], _ =>
      by_cases hh : is_help a = true
      · refine ⟨?_, ?_, ?_⟩
        · intro c2 h
          simp only [parse_command_line, hh, if_true, Parsed.exit0.injEq] at h
          subst h
          exact ⟨by simp [no_help_version, hh], rfl, [], .print_usage, rfl, Or.inl rfl,
            by simp⟩
        · intro ok c2 h
          simp [parse_command_line, hh] at h
        · intro hn
          simp [no_help_version, hh] at hn
      · by_cases hv : is_version a = true
        · refine ⟨?_, ?_, ?_⟩
          · intro c2 h
            simp only [parse_command_line, hh, hv, if_true, Bool.false_eq_true, if_false,
              Parsed.exit0.injEq] at h
            subst h
            exact ⟨by simp [no_help_version, hv], rfl, [], .print_version, rfl, Or.inr rfl,
              by simp⟩
          · intro ok c2 h
            simp [parse_command_line, hh, hv] at h
          · intro hn
            simp [no_help_version, hv] at hn
        · by_cases hd : starts_with_dash a = true
          · refine ⟨?_, ?_, ?_⟩
            · intro c2 h
              simp [parse_command_line, hh, hv, hd] at h
            · intro ok c2 h
              simp only [parse_command_line, hh, hv, hd, if_true, Bool.false_eq_true, if_false,
                Parsed.result.injEq] at h
              obtain ⟨h1, h2⟩ := h
              subst h1
              subst h2
              exact ⟨fun _ => by simp [malformed, hd], rfl, [], rfl, by simp⟩
            · intro _
              exact ⟨c, by simp [parse_command_line, malformed, hh, hv, hd]⟩
          · refine ⟨?_, ?_, ?_⟩
            · intro c2 h
              simp [parse_command_line, hh, hv, hd] at h
            · intro ok c2 h
              simp only [parse_command_line, hh, hv, hd, if_true, Bool.false_eq_true, if_false,
                Parsed.result.injEq] at h
              obtain ⟨h1, h2⟩ := h
              subst h1
              subst h2
              exact ⟨fun _ => by simp [malformed, hd], rfl, [], rfl, by simp⟩
            · intro _
              exact ⟨c, by simp [parse_command_line, malformed, hh, hv, hd]⟩
    | a :: v :: rest, hlen =>
      have hlen1 : rest.length ≤ n := by
        simp only [List.length_cons] at hlen
        omega
      have hlen2 : (v :: rest).length ≤ n := by
        simp only [List.length_cons] at hlen ⊢
        omega
      by_cases hh : is_help a = true
      · refine ⟨?_, ?_, ?_⟩
        · intro c2 h
          simp only [parse_command_line, hh, if_true, Parsed.exit0.injEq] at h
          subst h
          exact ⟨by simp [no_help_version, hh], rfl, [], .print_usage, rfl, Or.inl rfl,
            by simp⟩
        · intro ok c2 h
          simp [parse_command_line, hh] at h
        · intro hn
          simp [no_help_version, hh] at hn
      · by_cases hv : is_version a = true
        · refine ⟨?_, ?_, ?_⟩
          · intro c2 h
            simp only [parse_command_line, hh, hv, if_true, Bool.false_eq_true, if_false,
              Parsed.exit0.injEq] at h
            subst h
            exact ⟨by simp [no_help_version, hv], rfl, [], .print_version, rfl, Or.inr rfl,
              by simp⟩
          · intro ok c2 h
            simp [parse_command_line, hh, hv] at h
          · intro hn
            simp [no_help_version, hv] at hn
        · have hnh : ∀ l : List String, no_help_version (a :: l) = no_help_version l := by
            intro l
            simp [no_help_version, hh, hv]
          have hnv : no_help_version (v :: rest) = true → no_help_version rest = true := by
            intro h
            simp only [no_help_version, List.all_cons, Bool.and_eq_true] at h ⊢
            exact h.2
          by_cases hc : is_config_option a = true
          · obtain ⟨i1, i2, i3⟩ := ih rest (perform K (.set_config_file v) c) hlen1
            have hp : parse_command_line K S (a :: v :: rest) c =
                parse_command_line K S rest (perform K (.set_config_file v) c) := by
              simp [parse_command_line, hh, hv, hc]
            have hm : malformed K S (a :: v :: rest) c =
                malformed K S rest (perform K (.set_config_file v) c) := by
              simp [malformed, hc]
            rw [hp, hm, hnh]
            refine ⟨?_, ?_, ?_⟩
            · intro c2 h
              obtain ⟨j1, j2, ext, p, j3, j4, j5⟩ := i1 c2 h
              refine ⟨?_, j2, .set_config_file v :: ext, p, ?_, j4, ?_⟩
              · cases hx : no_help_version (v :: rest)
                · rfl
                · rw [hnv hx] at j1
                  exact absurd j1 (by decide)
              · simp [is_option_call, j3]
              · rw [j5]
                simp
            · intro ok c2 h
              obtain ⟨j1, j2, ext, j3, j4⟩ := i2 ok c2 h
              refine ⟨fun hx => j1 (hnv hx), j2, .set_config_file v :: ext, ?_, ?_⟩
              · simp [is_option_call, j3]
              · rw [j4]
                simp
            · intro hx
              exact i3 (hnv hx)
          · by_cases ht : is_track_option a = true
            · by_cases hl : S.set_layout_track c.world v = true
              · obtain ⟨i1, i2, i3⟩ := ih rest (perform K (.set_layout_track v) c) hlen1
                have hp : parse_command_line K S (a :: v :: rest) c =
                    parse_command_line K S rest (perform K (.set_layout_track v) c) := by
                  simp [parse_command_line, hh, hv, hc, ht, hl]
                have hm : malformed K S (a :: v :: rest) c =
                    malformed K S rest (perform K (.set_layout_track v) c) := by
                  simp [malformed, hc, ht, hl]
                rw [hp, hm, hnh]
                refine ⟨?_, ?_, ?_⟩
                · intro c2 h
                  obtain ⟨j1, j2, ext, p, j3, j4, j5⟩ := i1 c2 h
                  refine ⟨?_, j2, .set_layout_track v :: ext, p, ?_, j4, ?_⟩
                  · cases hx : no_help_version (v :: rest)
                    · rfl
                    · rw [hnv hx] at j1
                      exact absurd j1 (by decide)
                  · simp [is_option_call, j3]
                  · rw [j5]
                    simp
                · intro ok c2 h
                  obtain ⟨j1, j2, ext, j3, j4⟩ := i2 ok c2 h
                  refine ⟨fun hx => j1 (hnv hx), j2, .set_layout_track v :: ext, ?_, ?_⟩
                  · simp [is_option_call, j3]
                  · rw [j4]
                    simp
                · intro hx
                  exact i3 (hnv hx)
              · have hp : parse_command_line K S (a :: v :: rest) c =
                    .result false (perform K (.set_layout_track v) c) := by
                  simp [parse_command_line, hh, hv, hc, ht, hl]
                have hm : malformed K S (a :: v :: rest) c = true := by
                  simp [malformed, hc, ht, hl]
                rw [hp, hm]
                refine ⟨?_, ?_, ?_⟩
                · intro c2 h
                  exact absurd h (by simp)
                · intro ok c2 h
                  simp only [Parsed.result.injEq] at h
                  obtain ⟨h1, h2⟩ := h
                  subst h1
                  subst h2
                  exact ⟨fun _ => rfl, rfl, [.set_layout_track v], rfl, rfl⟩
                · intro _
                  exact ⟨_, rfl⟩
            · by_cases hd : starts_with_dash a = true
              · have hp : parse_command_line K S (a :: v :: rest) c = .result false c := by
                  simp [parse_command_line, hh, hv, hc, ht, hd]
                have hm : malformed K S (a :: v :: rest) c = true := by
                  simp [malformed, hc, ht, hd]
                rw [hp, hm]
                refine ⟨?_, ?_, ?_⟩
                · intro c2 h
                  exact absurd h (by simp)
                · intro ok c2 h
                  simp only [Parsed.result.injEq] at h
                  obtain ⟨h1, h2⟩ := h
                  subst h1
                  subst h2
                  exact ⟨fun _ => rfl, rfl, [], rfl, by simp⟩
                · intro _
                  exact ⟨_, rfl⟩
              · obtain ⟨i1, i2, i3⟩ := ih (v :: rest) c hlen2
                have hp : parse_command_line K S (a :: v :: rest) c =
                    parse_command_line K S (v :: rest) c := by
                  simp [parse_command_line, hh, hv, hc, ht, hd]
                have hm : malformed K S (a :: v :: rest) c = malformed K S (v :: rest) c := by
                  simp [malformed, hc, ht, hd]
                rw [hp, hm, hnh]
                exact ⟨i1, i2, i3⟩

end parsing

section outcomes
variable {W : Type} (K : Collab W) (S : Startup W)

theorem option_call_is_startup_call (l : List Call) (h : l.all is_option_call = true) :
    l.all is_startup_call = true := by
  rw [List.all_eq_true] at h ⊢
  intro k hk
  have := h k hk
  cases k <;> first | rfl | exact absurd this (by simp [is_option_call])

theorem main_video_fields (c : Ctx W) :
    (main_video K S c).state = c.state ∧
    (main_video K S c).log = c.log ++ [.load_widescreen_map, .set_fps] := by
  simp [main_video]

theorem main_init_fields (cfg : Config) (c : Ctx W) :
    (main_init K cfg c).state =
      (if cfg.menu_enabled = true then .STATE_INIT_MENU else .STATE_INIT_GAME) ∧
    (main_init K cfg c).log =
      c.log ++ [.audio_init, .input_init] ++
        (if cfg.haptic = true then [.forcefeedback_init] else []) ++
        [.new_Menu, .menu_populate] := by
  by_cases hh : cfg.haptic = true <;> simp [main_init, hh]

theorem main_loop_cases (cfg : Config) (queues : List (List Event)) (c : Ctx W) :
    (∃ ext : List Call, ext.all is_loop_call = true ∧
      (main_loop_while K cfg queues (main_loop_entry K cfg c)).ctx.log = c.log ++ ext) ∧
    (main_loop K cfg queues c = none →
      (main_loop_while K cfg queues (main_loop_entry K cfg c)).ctx.state ≠ .STATE_QUIT) ∧
    (∀ c2 : Ctx W, main_loop K cfg queues c = some c2 →
      c2 = quit_func K 0 (main_loop_while K cfg queues (main_loop_entry K cfg c)).ctx ∧
      c2.state = .STATE_QUIT) := by
  refine ⟨?_, ?_, ?_⟩
  · obtain ⟨ext, he, ha⟩ := main_loop_while_log_ext K cfg queues (main_loop_entry K cfg c)
    refine ⟨[.timer_start .fps_count] ++ ext, ?_, ?_⟩
    · simp [List.all_append, ha, is_loop_call]
    · rw [he, main_loop_entry_log, List.append_assoc]
  · intro h hq
    unfold main_loop at h
    simp only [] at h
    rw [if_pos hq] at h
    exact absurd h (by simp)
  · intro c2 h
    unfold main_loop at h
    simp only [] at h
    split at h
    · rename_i hq
      have h2 := Option.some.inj h
      refine ⟨h2.symm, ?_⟩
      rw [← h2, quit_func_state]
      exact hq
    · exact absurd h (by simp)

/-- The ways in which `main_start` can end, with the calls it has made. -/
theorem main_start_outcome (cfg : Config) (queues : List (List Event)) (c : Ctx W) :
    (∃ (c2 : Ctx W) (pre : List Call), main_start K S cfg queues c = .exited 1 c2 ∧
      c2.state = c.state ∧ pre.all is_startup_call = true ∧
      c2.log = c.log ++ pre ++ shutdown_calls 1) ∨
    (∃ (c2 : Ctx W) (pre : List Call), main_start K S cfg queues c = .returned 1 c2 ∧
      c2.state = c.state ∧ pre.all is_startup_call = true ∧ c2.log = c.log ++ pre) ∨
    (∃ (c2 : Ctx W) (pre ext : List Call), main_start K S cfg queues c = .exited 0 c2 ∧
      c2.state = .STATE_QUIT ∧ pre.all is_startup_call = true ∧ ext.all is_loop_call = true ∧
      c2.log = c.log ++ pre ++ ext ++ shutdown_calls 0) ∨
    (∃ (c2 : Ctx W) (pre ext : List Call), main_start K S cfg queues c = .running c2 ∧
      c2.state ≠ .STATE_QUIT ∧ pre.all is_startup_call = true ∧ ext.all is_loop_call = true ∧
      c2.log = c.log ++ pre ++ ext) := by
  unfold main_start
  simp only []
  by_cases hsdl : S.SDL_Init (perform K .SDL_GameControllerAddMappingsFromFile c).world = -1
  · rw [if_pos hsdl]
    right
    left
    exact ⟨_, [.SDL_GameControllerAddMappingsFromFile, .SDL_Init], rfl, rfl, rfl,
      by simp⟩
  · rw [if_neg hsdl]
    by_cases hvid : S.video_init (main_video K S (perform K .SDL_Init
        (perform K .SDL_GameControllerAddMappingsFromFile c))).world = true
    · simp only [hvid, Bool.not_true, Bool.false_eq_true, if_false]
      obtain ⟨⟨ext, ha, he⟩, hnone, hsome⟩ := main_loop_cases K cfg queues
        (main_init K cfg (perform K .video_init (main_video K S (perform K .SDL_Init
          (perform K .SDL_GameControllerAddMappingsFromFile c)))))
      have hlog : (main_init K cfg (perform K .video_init (main_video K S (perform K .SDL_Init
          (perform K .SDL_GameControllerAddMappingsFromFile c))))).log =
          c.log ++ ([.SDL_GameControllerAddMappingsFromFile, .SDL_Init, .load_widescreen_map,
            .set_fps, .video_init, .audio_init, .input_init] ++
            (if cfg.haptic = true then [.forcefeedback_init] else []) ++
            [.new_Menu, .menu_populate]) := by
        rw [(main_init_fields K cfg _).2]
        simp [(main_video_fields K S _).2]
      have hpre : (([.SDL_GameControllerAddMappingsFromFile, .SDL_Init, .load_widescreen_map,
            .set_fps, .video_init, .audio_init, .input_init] : List Call) ++
            (if cfg.haptic = true then [Call.forcefeedback_init] else []) ++
            ([.new_Menu, .menu_populate] : List Call)).all is_startup_call = true := by
        by_cases hh : cfg.haptic = true <;> simp [hh, is_startup_call]
      cases hm : main_loop K cfg queues (main_init K cfg (perform K .video_init
          (main_video K S (perform K .SDL_Init
            (perform K .SDL_GameControllerAddMappingsFromFile c)))))
      · right
        right
        right
        refine ⟨_, _, ext, rfl, hnone hm, hpre, ha, ?_⟩
        rw [he, hlog]
      · rename_i c9
        right
        right
        left
        obtain ⟨h1, h2⟩ := hsome c9 hm
        refine ⟨c9, _, ext, rfl, h2, hpre, ha, ?_⟩
        rw [h1, quit_func_log, he, hlog]
    · simp only [hvid, Bool.not_false, if_true]
      left
      refine ⟨_, [.SDL_GameControllerAddMappingsFromFile, .SDL_Init, .load_widescreen_map,
        .set_fps, .video_init], rfl, ?_, rfl, ?_⟩
      · rw [quit_func_state]
        simp [(main_video_fields K S _).1]
      · rw [quit_func_log]
        simp [(main_video_fields K S _).2]

end outcomes

/-- The ways in which `main` can end, with the calls it has made: help or
version, startup failure with shutdown, failure of `SDL_Init`, normal end of
the loop, or the loop still running. -/
theorem main_outcome {W : Type} (K : Collab W) (S : Startup W) (cfg : Config)
    (args : List String) (queues : List (List Event)) (c : Ctx W) :
    (∃ (c2 : Ctx W) (pre : List Call) (p : Call),
      main K S cfg args queues c = .exited 0 c2 ∧ c2.state = c.state ∧
      pre.all is_startup_call = true ∧ (p = .print_usage ∨ p = .print_version) ∧
      c2.log = c.log ++ pre ++ [p, .exit 0]) ∨
    (∃ (c2 : Ctx W) (pre : List Call), main K S cfg args queues c = .exited 1 c2 ∧
      c2.state = c.state ∧ pre.all is_startup_call = true ∧
      c2.log = c.log ++ pre ++ shutdown_calls 1) ∨
    (∃ (c2 : Ctx W) (pre : List Call), main K S cfg args queues c = .returned 1 c2 ∧
      c2.state = c.state ∧ pre.all is_startup_call = true ∧ c2.log = c.log ++ pre) ∨
    (∃ (c2 : Ctx W) (pre ext : List Call), main K S cfg args queues c = .exited 0 c2 ∧
      c2.state = .STATE_QUIT ∧ pre.all is_startup_call = true ∧ ext.all is_loop_call = true ∧
      c2.log = c.log ++ pre ++ ext ++ shutdown_calls 0) ∨
    (∃ (c2 : Ctx W) (pre ext : List Call), main K S cfg args queues c = .running c2 ∧
      c2.state ≠ .STATE_QUIT ∧ pre.all is_startup_call = true ∧ ext.all is_loop_call = true ∧
      c2.log = c.log ++ pre ++ ext) := by
  obtain ⟨p1, p2, _⟩ := parse_command_line_spec K S args.length args c (le_refl _)
  unfold main
  cases hp : parse_command_line K S args c with
  | exit0 c1 =>
    obtain ⟨_, j2, ext, p, j3, j4, j5⟩ := p1 c1 hp
    left
    exact ⟨c1, ext, p, rfl, j2, option_call_is_startup_call ext j3, j4, j5⟩
  | result ok c1 =>
    obtain ⟨_, j2, ext, j3, j4⟩ := p2 ok c1 hp
    have j3s := option_call_is_startup_call ext j3
    cases ok with
    | false =>
      right
      left
      refine ⟨quit_func K 1 c1, ext, rfl, ?_, j3s, ?_⟩
      · rw [quit_func_state, j2]
      · rw [quit_func_log, j4]
    | true =>
      simp only []
      by_cases hr : S.load_revb_roms (perform K .config_load c1).world = true
      · simp only [hr, Bool.not_true, Bool.false_eq_true, if_false]
        have hl : (perform K .load_revb_roms (perform K .config_load c1)).log =
            c.log ++ (ext ++ [.config_load, .load_revb_roms]) := by
          simp [j4]
        have hst : (perform K .load_revb_roms (perform K .config_load c1)).state = c.state := by
          simp [j2]
        have hall : (ext ++ [Call.config_load, Call.load_revb_roms]).all is_startup_call = true := by
          simp [List.all_append, j3s, is_startup_call]
        rcases main_start_outcome K S cfg queues
          (perform K .load_revb_roms (perform K .config_load c1)) with
          ⟨c2, pre, h1, h2, h3, h4⟩ | ⟨c2, pre, h1, h2, h3, h4⟩ |
          ⟨c2, pre, ex, h1, h2, h3, h4, h5⟩ | ⟨c2, pre, ex, h1, h2, h3, h4, h5⟩
        · right
          left
          refine ⟨c2, ext ++ [.config_load, .load_revb_roms] ++ pre, h1, h2.trans hst, ?_, ?_⟩
          · simp only [List.all_append, Bool.and_eq_true]
            rw [List.all_append] at hall
            exact ⟨Bool.and_eq_true_iff.1 hall, h3⟩
          · rw [h4, hl]
            simp only [List.append_assoc]
        · right
          right
          left
          refine ⟨c2, ext ++ [.config_load, .load_revb_roms] ++ pre, h1, h2.trans hst, ?_, ?_⟩
          · simp only [List.all_append, Bool.and_eq_true]
            rw [List.all_append] at hall
            exact ⟨Bool.and_eq_true_iff.1 hall, h3⟩
          · rw [h4, hl]
            simp only [List.append_assoc]
        · right
          right
          right
          left
          refine ⟨c2, ext ++ [.config_load, .load_revb_roms] ++ pre, ex, h1, h2, ?_, h4, ?_⟩
          · simp only [List.all_append, Bool.and_eq_true]
            rw [List.all_append] at hall
            exact ⟨Bool.and_eq_true_iff.1 hall, h3⟩
          · rw [h5, hl]
            simp only [List.append_assoc]
        · right
          right
          right
          right
          refine ⟨c2, ext ++ [.config_load, .load_revb_roms] ++ pre, ex, h1, h2, ?_, h4, ?_⟩
          · simp only [List.all_append, Bool.and_eq_true]
            rw [List.all_append] at hall
            exact ⟨Bool.and_eq_true_iff.1 hall, h3⟩
          · rw [h5, hl]
            simp only [List.append_assoc]
      · simp only [hr, Bool.not_false, if_true]
        right
        left
        refine ⟨_, ext ++ [.config_load, .load_revb_roms], rfl, ?_, ?_, ?_⟩
        · rw [quit_func_state]
          simp [j2]
        · simp [List.all_append, j3s, is_startup_call]
        · rw [quit_func_log]
          simp [j4]

theorem shutdown_calls_count (code : Int) :
    (shutdown_calls code).count .stop_audio = 1 ∧
    (shutdown_calls code).count .ffeedback_close = 1 ∧
    (shutdown_calls code).count .delete_menu = 1 ∧
    (shutdown_calls code).count .SDL_Quit = 1 := by
  simp [shutdown_calls, List.count_cons]

theorem option_starts_with_dash (a : String)
    (h : is_config_option a = true ∨ is_track_option a = true) : starts_with_dash a = true := by
  simp only [is_config_option, is_track_option, Bool.or_eq_true, decide_eq_true_eq] at h
  rcases h with ((h | h) | h) | ((h | h) | h) <;> subst h <;> decide

/-- C11, counterexample. With the unknown option `-x` the process ends with
exit code 1 after the calls of the Shutdown Sequence, and the Execution State
at that moment is BOOT, not QUIT. -/
theorem shutdown_in_boot_state :
    (main (latch true) (startup0 true true true true) (cfg0 60 false) ["-x"] []
      (boot ⟨[], []⟩)).code = some 1 ∧
    (main (latch true) (startup0 true true true true) (cfg0 60 false) ["-x"] []
      (boot ⟨[], []⟩)).ctx.log = shutdown_calls 1 ∧
    (main (latch true) (startup0 true true true true) (cfg0 60 false) ["-x"] []
      (boot ⟨[], []⟩)).ctx.state = .STATE_BOOT := by
  decide

/-- C11, amended. On every execution path of `main` from the initial state
BOOT (startup failures, help and version included, and also while the loop is
still running), the calls of the Shutdown Sequence occur at most once.  When
they occur they are the last calls of the process, made by `quit_func`: either
with exit code 0, and then the Execution State is QUIT, or with exit code 1
(a startup failure), and then the Execution State is still BOOT. -/
theorem shutdown_at_most_once {W : Type} (K : Collab W) (S : Startup W) (cfg : Config)
    (args : List String) (queues : List (List Event)) (c : Ctx W)
    (hs : c.state = .STATE_BOOT) :
    ∃ made : List Call, (main K S cfg args queues c).ctx.log = c.log ++ made ∧
      made.count .stop_audio ≤ 1 ∧ made.count .ffeedback_close ≤ 1 ∧
      made.count .delete_menu ≤ 1 ∧ made.count .SDL_Quit ≤ 1 ∧
      (made.count .stop_audio = 1 →
        ∃ (code : Int) (before : List Call), made = before ++ shutdown_calls code ∧
          before.count .stop_audio = 0 ∧
          (main K S cfg args queues c).code = some code ∧
          ((code = 0 ∧ (main K S cfg args queues c).ctx.state = .STATE_QUIT) ∨
            (code = 1 ∧ (main K S cfg args queues c).ctx.state = .STATE_BOOT))) := by
  have hz : ∀ (l : List Call), l.all is_startup_call = true →
      l.count .stop_audio = 0 ∧ l.count .ffeedback_close = 0 ∧ l.count .delete_menu = 0 ∧
      l.count .SDL_Quit = 0 := fun l hl =>
    ⟨count_eq_zero_of_all _ l _ hl rfl, count_eq_zero_of_all _ l _ hl rfl,
      count_eq_zero_of_all _ l _ hl rfl, count_eq_zero_of_all _ l _ hl rfl⟩
  have hy : ∀ (l : List Call), l.all is_loop_call = true →
      l.count .stop_audio = 0 ∧ l.count .ffeedback_close = 0 ∧ l.count .delete_menu = 0 ∧
      l.count .SDL_Quit = 0 := fun l hl =>
    ⟨count_eq_zero_of_all _ l _ hl rfl, count_eq_zero_of_all _ l _ hl rfl,
      count_eq_zero_of_all _ l _ hl rfl, count_eq_zero_of_all _ l _ hl rfl⟩
  rcases main_outcome K S cfg args queues c with
    ⟨c2, pre, p, h1, h2, h3, h4, h5⟩ | ⟨c2, pre, h1, h2, h3, h4⟩ | ⟨c2, pre, h1, h2, h3, h4⟩ |
    ⟨c2, pre, ex, h1, h2, h3, h4, h5⟩ | ⟨c2, pre, ex, h1, h2, h3, h4, h5⟩
  · obtain ⟨z1, z2, z3, z4⟩ := hz pre h3
    have hp : ∀ k : Call, is_startup_call k = false → (∀ code, k ≠ .exit code) →
        (pre ++ [p, .exit 0]).count k = 0 := by
      intro k hk hx
      rw [List.count_append, count_eq_zero_of_all _ pre _ h3 hk]
      have hpk : p ≠ k := by
        rcases h4 with rfl | rfl <;> intro h <;> subst h <;> exact absurd hk (by decide)
      simp [List.count_cons, hpk, Ne.symm (hx 0)]
    refine ⟨pre ++ [p, .exit 0], ?_, ?_, ?_, ?_, ?_, ?_⟩
    · rw [h1]
      simp [Outcome.ctx, h5]
    · rw [hp .stop_audio rfl (by intro code h; cases h)]
      omega
    · rw [hp .ffeedback_close rfl (by intro code h; cases h)]
      omega
    · rw [hp .delete_menu rfl (by intro code h; cases h)]
      omega
    · rw [hp .SDL_Quit rfl (by intro code h; cases h)]
      omega
    · intro h
      rw [hp .stop_audio rfl (by intro code h; cases h)] at h
      exact absurd h (by decide)
  · obtain ⟨z1, z2, z3, z4⟩ := hz pre h3
    obtain ⟨s1, s2, s3, s4⟩ := shutdown_calls_count 1
    refine ⟨pre ++ shutdown_calls 1, ?_, ?_, ?_, ?_, ?_, ?_⟩
    · rw [h1]
      simp [Outcome.ctx, h4]
    · rw [List.count_append, z1, s1]
    · rw [List.count_append, z2, s2]
    · rw [List.count_append, z3, s3]
    · rw [List.count_append, z4, s4]
    · intro _
      refine ⟨1, pre, rfl, z1, ?_, Or.inr ⟨rfl, ?_⟩⟩
      · rw [h1]
        rfl
      · rw [h1]
        exact h2.trans hs
  · obtain ⟨z1, z2, z3, z4⟩ := hz pre h3
    refine ⟨pre, ?_, ?_, ?_, ?_, ?_, ?_⟩
    · rw [h1]
      simp [Outcome.ctx, h4]
    · omega
    · omega
    · omega
    · omega
    · intro h
      rw [z1] at h
      exact absurd h (by decide)
  · obtain ⟨z1, z2, z3, z4⟩ := hz pre h3
    obtain ⟨y1, y2, y3, y4⟩ := hy ex h4
    obtain ⟨s1, s2, s3, s4⟩ := shutdown_calls_count 0
    refine ⟨pre ++ ex ++ shutdown_calls 0, ?_, ?_, ?_, ?_, ?_, ?_⟩
    · rw [h1]
      simp [Outcome.ctx, h5]
    · rw [List.count_append, List.count_append, z1, y1, s1]
    · rw [List.count_append, List.count_append, z2, y2, s2]
    · rw [List.count_append, List.count_append, z3, y3, s3]
    · rw [List.count_append, List.count_append, z4, y4, s4]
    · intro _
      refine ⟨0, pre ++ ex, rfl, ?_, ?_, Or.inl ⟨rfl, ?_⟩⟩
      · rw [List.count_append, z1, y1]
      · rw [h1]
        rfl
      · rw [h1]
        exact h2
  · obtain ⟨z1, z2, z3, z4⟩ := hz pre h3
    obtain ⟨y1, y2, y3, y4⟩ := hy ex h4
    refine ⟨pre ++ ex, ?_, ?_, ?_, ?_, ?_, ?_⟩
    · rw [h1]
      simp [Outcome.ctx, h5]
    · rw [List.count_append, z1, y1]
      omega
    · rw [List.count_append, z2, y2]
      omega
    · rw [List.count_append, z3, y3]
      omega
    · rw [List.count_append, z4, y4]
      omega
    · intro h
      rw [List.count_append, z1, y1] at h
      exact absurd h (by decide)

theorem shutdown_at_most_once_witness :
    (boot (⟨[], []⟩ : Latch)).state = .STATE_BOOT ∧
    ∃ made : List Call,
      (main (latch true) (startup0 true false true true) (cfg0 60 false) ["-c", "x"] []
        (boot ⟨[], []⟩)).ctx.log = (boot (⟨[], []⟩ : Latch)).log ++ made ∧
      made.count .stop_audio ≤ 1 :=
  ⟨rfl,
    (shutdown_at_most_once (latch true) (startup0 true false true true) (cfg0 60 false)
      ["-c", "x"] [] (boot ⟨[], []⟩) rfl).imp (fun _ h => ⟨h.1, h.2.1⟩)⟩

/-- C12, failing input. `SDL_Init` fails (the command line is accepted and the
ROMs load): the process ends with code 1 right after the call of `SDL_Init`,
and no call of the Shutdown Sequence has been made. -/
theorem sdl_failure_skips_shutdown :
    (main (latch true) (startup0 true true false true) (cfg0 60 false) [] []
      (boot ⟨[], []⟩)).code = some 1 ∧
    (main (latch true) (startup0 true true false true) (cfg0 60 false) [] []
      (boot ⟨[], []⟩)).ctx.log =
      [.config_load, .load_revb_roms, .SDL_GameControllerAddMappingsFromFile, .SDL_Init] ∧
    (main (latch true) (startup0 true true false true) (cfg0 60 false) [] []
      (boot ⟨[], []⟩)).ctx.log.count .stop_audio = 0 := by
  decide

/-- The startup failures of `main`.  A rejected command line, a failure to load
the ROMs and a failure of `video.init` end the process through `quit_func(1)`:
exit code 1 after the full Shutdown Sequence.  A failure of `SDL_Init` makes
`main` return 1.  In all four cases the state is unchanged and all calls made
before the end are startup calls, none of which is a call of a loop
iteration. -/
theorem startup_failure_exits {W : Type} (K : Collab W) (S : Startup W) (cfg : Config)
    (args : List String) (queues : List (List Event)) (c : Ctx W) :
    (∀ c1 : Ctx W, parse_command_line K S args c = .result false c1 →
      main K S cfg args queues c = .exited 1 (quit_func K 1 c1)) ∧
    (∀ c1 : Ctx W, parse_command_line K S args c = .result true c1 →
      S.load_revb_roms (perform K .config_load c1).world = false →
      main K S cfg args queues c =
        .exited 1 (quit_func K 1 (perform K .load_revb_roms (perform K .config_load c1)))) ∧
    (∀ c1 : Ctx W, parse_command_line K S args c = .result true c1 →
      S.load_revb_roms (perform K .config_load c1).world = true →
      main K S cfg args queues c =
        main_start K S cfg queues (perform K .load_revb_roms (perform K .config_load c1))) ∧
    (∀ c0 : Ctx W,
      S.SDL_Init (perform K .SDL_GameControllerAddMappingsFromFile c0).world = -1 →
      main_start K S cfg queues c0 =
        .returned 1 (perform K .SDL_Init (perform K .SDL_GameControllerAddMappingsFromFile c0))) ∧
    (∀ c0 : Ctx W,
      S.SDL_Init (perform K .SDL_GameControllerAddMappingsFromFile c0).world ≠ -1 →
      S.video_init (main_video K S (perform K .SDL_Init
        (perform K .SDL_GameControllerAddMappingsFromFile c0))).world = false →
      main_start K S cfg queues c0 =
        .exited 1 (quit_func K 1 (perform K .video_init (main_video K S (perform K .SDL_Init
          (perform K .SDL_GameControllerAddMappingsFromFile c0)))))) ∧
    (∀ c2 : Ctx W, main K S cfg args queues c = .exited 1 c2 →
      c2.state = c.state ∧
      ∃ pre : List Call, pre.all is_startup_call = true ∧
        c2.log = c.log ++ pre ++ shutdown_calls 1) ∧
    (∀ (code : Int) (c2 : Ctx W), main K S cfg args queues c = .returned code c2 →
      code = 1 ∧ c2.state = c.state ∧
      ∃ pre : List Call, pre.all is_startup_call = true ∧ c2.log = c.log ++ pre) ∧
    (∀ k : Call, is_startup_call k = true → is_loop_call k = false) ∧
    is_startup_call .stop_audio = false := by
  refine ⟨?_, ?_, ?_, ?_, ?_, ?_, ?_, ?_, rfl⟩
  · intro c1 h
    unfold main
    rw [h]
  · intro c1 h hr
    unfold main
    rw [h]
    simp only []
    rw [hr]
    rfl
  · intro c1 h hr
    unfold main
    rw [h]
    simp only []
    rw [hr]
    rfl
  · intro c0 h
    unfold main_start
    simp only []
    rw [if_pos h]
  · intro c0 h hv
    unfold main_start
    simp only []
    rw [if_neg h]
    simp [hv]
  · intro c2 h
    rcases main_outcome K S cfg args queues c with
      ⟨c3, pre, p, h1, h2, h3, h4, h5⟩ | ⟨c3, pre, h1, h2, h3, h4⟩ | ⟨c3, pre, h1, h2, h3, h4⟩ |
      ⟨c3, pre, ex, h1, h2, h3, h4, h5⟩ | ⟨c3, pre, ex, h1, h2, h3, h4, h5⟩
    · rw [h1] at h
      simp at h
    · rw [h1] at h
      simp only [Outcome.exited.injEq, true_and] at h
      subst h
      exact ⟨h2, pre, h3, h4⟩
    · rw [h1] at h
      simp at h
    · rw [h1] at h
      simp at h
    · rw [h1] at h
      simp at h
  · intro code c2 h
    rcases main_outcome K S cfg args queues c with
      ⟨c3, pre, p, h1, h2, h3, h4, h5⟩ | ⟨c3, pre, h1, h2, h3, h4⟩ | ⟨c3, pre, h1, h2, h3, h4⟩ |
      ⟨c3, pre, ex, h1, h2, h3, h4, h5⟩ | ⟨c3, pre, ex, h1, h2, h3, h4, h5⟩
    · rw [h1] at h
      simp at h
    · rw [h1] at h
      simp at h
    · rw [h1] at h
      simp only [Outcome.returned.injEq] at h
      obtain ⟨e1, e2⟩ := h
      subst e2
      exact ⟨e1.symm, h2, pre, h3, h4⟩
    · rw [h1] at h
      simp at h
    · rw [h1] at h
      simp at h
  · intro k hk
    cases k <;> first | rfl | exact absurd hk (by simp [is_startup_call])

/-- C20. For every argument vector without help or version option,
`parse_command_line` returns false iff the vector is malformed in the sense of
`malformed`: scanning left to right and skipping the value of each
configuration or track option that has a following argument, some argument
starts with a dash and is not such an option followed by a value (a
value-taking option given last included), or is a track option whose file
fails to load; arguments that do not start with a dash are ignored.  After a
false result `main` ends with exit code 1 through `quit_func(1)`, and
`config.load` has not been called. -/
theorem parse_rejects_malformed {W : Type} (K : Collab W) (S : Startup W) (cfg : Config)
    (args : List String) (queues : List (List Event)) (c : Ctx W)
    (h : no_help_version args = true) :
    (∃ (c2 : Ctx W) (ext : List Call),
      parse_command_line K S args c = .result (!malformed K S args c) c2 ∧
      ext.all is_option_call = true ∧ c2.log = c.log ++ ext ∧
      (malformed K S args c = true →
        main K S cfg args queues c = .exited 1 (quit_func K 1 c2) ∧
        (quit_func K 1 c2).log = c.log ++ ext ++ shutdown_calls 1 ∧
        (quit_func K 1 c2).log.count .config_load = c.log.count .config_load)) ∧
    malformed K S [] c = false ∧
    (∀ a : String, malformed K S [a] c = starts_with_dash a) ∧
    (∀ a : String, is_config_option a = true ∨ is_track_option a = true →
      starts_with_dash a = true) ∧
    (∀ (a : String) (rest : List String), starts_with_dash a = false →
      malformed K S (a :: rest) c = malformed K S rest c) := by
  refine ⟨?_, by simp [malformed], fun a => by simp [malformed],
    option_starts_with_dash, ?_⟩
  · obtain ⟨_, p2, p3⟩ := parse_command_line_spec K S args.length args c (le_refl _)
    obtain ⟨c2, hp⟩ := p3 h
    obtain ⟨_, _, ext, j3, j4⟩ := p2 _ c2 hp
    refine ⟨c2, ext, hp, j3, j4, ?_⟩
    intro hm
    rw [hm] at hp
    refine ⟨?_, ?_, ?_⟩
    · unfold main
      rw [hp]
      rfl
    · rw [quit_func_log, j4]
    · rw [quit_func_log, j4, List.count_append, List.count_append,
        count_eq_zero_of_all is_option_call ext .config_load j3 rfl]
      simp [shutdown_calls, List.count_cons]
  · intro a rest hd
    have hc : is_config_option a = false := by
      cases hx : is_config_option a
      · rfl
      · rw [option_starts_with_dash a (Or.inl hx)] at hd
        exact absurd hd (by decide)
    have ht : is_track_option a = false := by
      cases hx : is_track_option a
      · rfl
      · rw [option_starts_with_dash a (Or.inr hx)] at hd
        exact absurd hd (by decide)
    cases rest with
    | nil => simp [malformed, hd]
    | cons v rest2 => simp [malformed, hc, ht, hd]

theorem parse_rejects_malformed_witness :
    no_help_version ["-c", "-t", "x", "-t"] = true ∧
    malformed (latch true) (startup0 true true true true) ["-c", "-t", "x", "-t"]
      (boot ⟨[], []⟩) = true ∧
    (main (latch true) (startup0 true true true true) (cfg0 60 false) ["a", "--track", "f", "-z"]
      [] (boot ⟨[], []⟩)).ctx.log = [.set_layout_track "f"] ++ shutdown_calls 1 ∧
    ∃ (c2 : Ctx Latch) (ext : List Call),
      parse_command_line (latch true) (startup0 true true true true) ["a", "--track", "f", "-z"]
        (boot ⟨[], []⟩) =
        .result (!malformed (latch true) (startup0 true true true true)
          ["a", "--track", "f", "-z"] (boot ⟨[], []⟩)) c2 ∧
      ext.all is_option_call = true :=
  ⟨by decide, by decide, by decide,
    (parse_rejects_malformed (latch true) (startup0 true true true true) (cfg0 60 false)
      ["a", "--track", "f", "-z"] [] (boot ⟨[], []⟩) (by decide)).1.imp
      (fun _ h => h.imp (fun _ h2 => ⟨h2.1, h2.2.1⟩))⟩

end Cannonball
